import Mathlib

/-!
# GD Simulator front end: the turn-taking session controller

A shallow embedding of `src/frontend/app.js`.  The module-level mutable objects of the
script (`state`, `aiRequestInFlight`, `aiRequestCounter`, `sessionTimer`, `silenceTimer`,
`localStorage`, the transcript element) are gathered in one record, `World`.  Every
handler is `async`; it is embedded as one function per synchronous segment: the part
that runs up to the first `await`, and the part that runs when the awaited promise has
settled.  The awaited operations still outstanding are kept in `World.streams` and
`World.pending`, every network request that has been issued is appended to
`World.requests`, and `step` runs one event of the browser's event loop.

Rendering that carries no controller state (CSS classes, the loading bar, the error
banner, focus, scrolling) is left out.
-/

namespace GD

/-! ## Text helpers (JavaScript string operations that the controller relies on) -/

/-- White space and line terminators removed by `String.prototype.trim` and skipped by
`parseInt`. -/
def isJsWhite (c : Char) : Bool :=
  c.toNat ∈ [0x09, 0x0A, 0x0B, 0x0C, 0x0D, 0x20, 0xA0, 0x1680, 0x2000, 0x2001, 0x2002,
    0x2003, 0x2004, 0x2005, 0x2006, 0x2007, 0x2008, 0x2009, 0x200A, 0x2028, 0x2029,
    0x202F, 0x205F, 0x3000, 0xFEFF]

/-- Removes white space at both ends of a list of characters. -/
def trimChars (cs : List Char) : List Char :=
  ((cs.dropWhile isJsWhite).reverse.dropWhile isJsWhite).reverse

/-- The method `s.trim()`. -/
def jsTrim (s : String) : String := String.mk (trimChars s.data)

/-- Tells whether `pat` is an initial segment of the second list. -/
def startsWithChars : List Char → List Char → Bool
  | [], _ => true
  | _ :: _, [] => false
  | p :: ps, c :: cs => p == c && startsWithChars ps cs

/-- Tells whether `pat` occurs as a contiguous block of the second list. -/
def includesChars (pat : List Char) : List Char → Bool
  | [] => pat.isEmpty
  | c :: cs => startsWithChars pat (c :: cs) || includesChars pat cs

/-- The method `s.includes(pat)`. -/
def includes (s pat : String) : Bool := includesChars pat.data s.data

/-- Value of a decimal digit character, if it is one. -/
def digitVal (c : Char) : Option Nat :=
  if 48 ≤ c.toNat ∧ c.toNat ≤ 57 then some (c.toNat - 48) else none

/-- Reads the longest run of decimal digits at the head of the list; `acc` holds the value
read so far, and the flag tells whether at least one digit was read. -/
def readDigits : List Char → Nat → Bool → Option Nat
  | [], acc, seen => if seen then some acc else none
  | c :: cs, acc, seen =>
    match digitVal c with
    | some d => readDigits cs (acc * 10 + d) true
    | none => if seen then some acc else none

/-- The call `parseInt(s, 10)`; `none` stands for `NaN`.  Leading white space is skipped,
one sign is accepted, then the longest run of digits is read.  (Exact integers are used:
the rounding of values above `2^53` is not modelled.) -/
def parseInt (s : String) : Option Int :=
  match s.data.dropWhile isJsWhite with
  | '-' :: cs => (readDigits cs 0 false).map (fun n => - (n : Int))
  | '+' :: cs => (readDigits cs 0 false).map (fun n => (n : Int))
  | cs => (readDigits cs 0 false).map (fun n => (n : Int))

/-! ## Data model -/

/-- The values taken by `state.uiState`.  The script uses both `'WAITING_FOR_HAND'` and
`'AI_TURN_ASSIGNED'`; they are different strings, hence different states. -/
inductive UiState
  | INACTIVE
  | AI_SPEAKING
  | WAITING_FOR_HAND
  | AI_TURN_ASSIGNED
  | QUEUED
  | USER_SPEAKING
  | ENDED
  deriving DecidableEq, Repr

/-- One `.message` element of the transcript.  `stream` is `some id` for the bubble
created by `ui.createStreamingBubble` for the stream `id`; `streaming` is the CSS class
removed by `ui.finalizeStreamingBubble`. -/
structure Bubble where
  speaker : String
  text : String
  stream : Option Nat
  streaming : Bool
  deriving DecidableEq, Repr

/-- The record written under `LS_KEY` by `persist.save`. -/
structure Snapshot where
  sessionId : String
  topic : String
  transcriptHtml : List Bubble
  turnCount : Nat
  remainingTime : Int
  lastMsgCount : Nat
  savedAt : Int
  deriving DecidableEq, Repr

/-- What `localStorage.getItem(LS_KEY)` holds when the key is present: text that
`JSON.parse` rejects, or a snapshot record. -/
inductive Stored
  | unparsable
  | snap (s : Snapshot)
  deriving DecidableEq, Repr

/-- The network requests the controller can issue. -/
inductive Request
  | start (topic : String) (duration : Int)
  | raiseHand (sessionId : Option String)
  | endSession (sessionId : Option String)
  | speak (sessionId : Option String) (message : String)
  | aiSpeak (sessionId : Option String)
  | probe (sessionId : String)
  deriving DecidableEq, Repr

/-- Which handler opened a stream. -/
inductive Owner
  | sendMessage
  | aiSpeak
  deriving DecidableEq, Repr

/-- An open stream: a call of `consumeStream` that has not returned.  `el` tells whether
its local `streamTextEl` has been created. -/
structure Stream where
  id : Nat
  owner : Owner
  el : Bool
  deriving DecidableEq, Repr

/-- An awaited operation, other than a stream, that has not settled yet. -/
inductive Task
  | start (topic : String) (duration : Int)
  | raiseHand
  | endDrain
  | evaluate
  | retry
  | probe (saved : Snapshot)
  deriving DecidableEq, Repr

/-- The terminal `done` chunk of a stream. -/
structure Done where
  moderator_message : String
  hand_queued_granted : Bool
  deriving DecidableEq, Repr

/-- How a call of `consumeStream` ends: it returns the `done` chunk, it returns `null`
(the source ended without a `done` chunk), or it throws an error with a message. -/
inductive StreamEnd
  | done (d : Done)
  | eof
  | error (message : String)
  deriving DecidableEq, Repr

/-- The body of a successful `/start` response. -/
structure StartData where
  session_id : String
  message : String
  deriving DecidableEq, Repr

/-- The body of a successful `/raise-hand` response. -/
structure RaiseData where
  status : String
  moderator_message : String
  deriving DecidableEq, Repr

/-- All mutable data of the page.  The first block is the `state` object (with
`pendingEnd`, which the script adds to it on demand and which reads as false before),
then the two module variables, the two timer objects with the timers of the browser
that are still live, the clock, `localStorage`, the transcript, and the bookkeeping of
requests issued and operations awaited. -/
structure World where
  sessionId : Option String
  isActive : Bool
  isEnded : Bool
  turnCount : Nat
  uiState : UiState
  streamActive : Bool
  handRaisedPending : Bool
  restoredMsgCount : Nat
  pendingEnd : Bool
  aiRequestCounter : Nat
  aiRequestInFlight : Bool
  sessionH : Option Nat
  sessionLeft : Int
  silenceH : Option Nat
  intervals : List Nat
  timeouts : List Nat
  nextId : Nat
  now : Int
  storage : Option Stored
  transcript : List Bubble
  statusTopic : String
  requests : List Request
  streams : List Stream
  pending : List Task
  deriving DecidableEq, Repr

/-- The page as the script finds it when it is loaded: the literal initial values of the
script, the given content of `localStorage` and the given clock. -/
def World.blank (storage : Option Stored) (now : Int) : World where
  sessionId := none
  isActive := false
  isEnded := false
  turnCount := 0
  uiState := UiState.INACTIVE
  streamActive := false
  handRaisedPending := false
  restoredMsgCount := 0
  pendingEnd := false
  aiRequestCounter := 0
  aiRequestInFlight := false
  sessionH := none
  sessionLeft := 0
  silenceH := none
  intervals := []
  timeouts := []
  nextId := 1
  now := now
  storage := storage
  transcript := []
  statusTopic := ""
  requests := []
  streams := []
  pending := []

/-! ## Timers, persistence and view operations -/

/-- The method `sessionTimer.stop()`. -/
def sessionTimer.stop (w : World) : World :=
  match w.sessionH with
  | some h => { w with intervals := w.intervals.erase h, sessionH := none }
  | none => w

/-- The synchronous part of `sessionTimer.start(s)`: it stores `s`, creates an interval
and stores its handle.  It does not clear a handle that is already stored. -/
def sessionTimer.start (w : World) (s : Int) : World :=
  { w with
    sessionLeft := s
    sessionH := some w.nextId
    intervals := w.intervals ++ [w.nextId]
    nextId := w.nextId + 1 }

/-- The method `silenceTimer.cancel()`.  (A timer handle is a positive integer, so a stored
handle always passes the test `if (this._h)`; `World.blank` starts the handles at 1.) -/
def silenceTimer.cancel (w : World) : World :=
  match w.silenceH with
  | some h => { w with timeouts := w.timeouts.erase h, silenceH := none }
  | none => w

/-- The method `silenceTimer.reset()`: cancel, four guards, then `setTimeout`.  The delay
(base plus random jitter) decides only when the timeout fires; firing is an event. -/
def silenceTimer.reset (w : World) : World :=
  let w := silenceTimer.cancel w
  if !w.isActive || w.isEnded then w
  else if w.pendingEnd then w
  else if w.uiState != UiState.WAITING_FOR_HAND then w
  else if w.streamActive then w
  else
    { w with
      silenceH := some w.nextId
      timeouts := w.timeouts ++ [w.nextId]
      nextId := w.nextId + 1 }

/-- The live timers left when the stored handle, if there is one, has been cleared. -/
def clearHandle (handle : Option Nat) (live : List Nat) : List Nat :=
  match handle with
  | some h => live.erase h
  | none => live

/-- Tells whether the four guard statements of `silenceTimer.reset` all fall through, so
that the timeout is created. -/
def silenceTimer.guardsPass (w : World) : Bool :=
  w.isActive && !w.isEnded && !w.pendingEnd && (w.uiState == UiState.WAITING_FOR_HAND)
    && !w.streamActive

/-- The method `persist.save()`; it returns at once when `state.sessionId` is falsy
(`null` or the empty string). -/
def persist.save (w : World) : World :=
  match w.sessionId with
  | none => w
  | some sid =>
    if sid = "" then w
    else
      { w with
        storage := some (Stored.snap
          { sessionId := sid
            topic := w.statusTopic
            transcriptHtml := w.transcript
            turnCount := w.turnCount
            remainingTime := w.sessionLeft
            lastMsgCount := w.transcript.length
            savedAt := w.now }) }

/-- The method `persist.clear()`. -/
def persist.clear (w : World) : World :=
  { w with storage := none }

/-- The method `ui.setFloor(uiState)`: the assignment to `state.uiState` (the rest of the
method toggles CSS classes and the raise-hand button). -/
def ui.setFloor (w : World) (uiState : UiState) : World :=
  { w with uiState := uiState }

/-- Tells whether `ui.setFloor` leaves the raise-hand button enabled in the given state
(`raiseHandBtn.disabled = false` in the switch of `ui.setFloor`). -/
def ui.raiseHandEnabled : UiState → Bool
  | UiState.INACTIVE => false
  | UiState.ENDED => false
  | UiState.AI_SPEAKING => true
  | UiState.WAITING_FOR_HAND => true
  | UiState.AI_TURN_ASSIGNED => true
  | UiState.QUEUED => false
  | UiState.USER_SPEAKING => false

/-- The method `ui.onSessionStarted(topic)`. -/
def ui.onSessionStarted (w : World) (topic : String) : World :=
  ui.setFloor { w with statusTopic := topic } UiState.AI_SPEAKING

/-- The method `ui.onSessionEnded()`. -/
def ui.onSessionEnded (w : World) : World :=
  ui.setFloor (sessionTimer.stop (silenceTimer.cancel w)) UiState.ENDED

/-- The method `ui.incrementTurn()`. -/
def ui.incrementTurn (w : World) : World :=
  { w with turnCount := w.turnCount + 1 }

/-- The method `ui.appendMessage(speaker, text)`: the dedup guard, else a new bubble and
`persist.save()`. -/
def ui.appendMessage (w : World) (speaker text : String) : World :=
  if w.restoredMsgCount > 0 then
    { w with restoredMsgCount := w.restoredMsgCount - 1 }
  else
    persist.save
      { w with transcript := w.transcript ++
          [{ speaker := speaker, text := text, stream := none, streaming := false }] }

/-- The method `ui.createStreamingBubble(speaker)` for the stream `id`. -/
def ui.createStreamingBubble (w : World) (id : Nat) (speaker : String) : World :=
  { w with transcript := w.transcript ++
      [{ speaker := speaker, text := "", stream := some id, streaming := true }] }

/-- The statement `streamTextEl.textContent += chunk.text` for the bubble of stream `id`. -/
def ui.appendToken (w : World) (id : Nat) (text : String) : World :=
  { w with transcript := w.transcript.map (fun b =>
      if b.stream = some id then { b with text := b.text ++ text } else b) }

/-- The method `ui.finalizeStreamingBubble(el)` for the bubble of stream `id`. -/
def ui.finalizeStreamingBubble (w : World) (id : Nat) : World :=
  { w with transcript := w.transcript.map (fun b =>
      if b.stream = some id then { b with streaming := false } else b) }

/-- Issues the request of a streaming call and registers the call of `consumeStream` that
reads it. -/
def openStream (w : World) (owner : Owner) (req : Request) : World :=
  { w with
    requests := w.requests ++ [req]
    streams := w.streams ++ [{ id := w.nextId, owner := owner, el := false }]
    nextId := w.nextId + 1 }

/-- Issues the request of a non-streaming call and registers the awaited operation. -/
def issue (w : World) (req : Request) (t : Task) : World :=
  { w with requests := w.requests ++ [req], pending := w.pending ++ [t] }

/-! ## Handlers -/

/-- The part of `handlers.endSession` after the wait for an open stream: issue `/end`. -/
def handlers.endSession_evaluate (w : World) : World :=
  issue w (Request.endSession w.sessionId) Task.evaluate

/-- The handler `handlers.endSession(auto)` up to its first `await`. -/
def handlers.endSession (w : World) (auto : Bool) : World :=
  if !w.isActive || w.isEnded then w
  else
    let w := { w with isActive := false, isEnded := true }
    let w := silenceTimer.cancel w
    let w := persist.clear w
    let w := ui.onSessionEnded w
    let w := ui.appendMessage w "moderator"
      (if auto then "Time is up! The discussion has ended. Generating your evaluation…"
       else "The discussion has ended. Generating your evaluation…")
    if w.streamActive then { w with pending := w.pending ++ [Task.endDrain] }
    else handlers.endSession_evaluate w

/-- The callback of the interval created by `sessionTimer.start`. -/
def sessionTimer.tick (w : World) : World :=
  let w := { w with sessionLeft := w.sessionLeft - 1 }
  if w.sessionLeft ≤ 0 then
    let w := sessionTimer.stop w
    if !w.isActive then w
    else if w.streamActive then { w with pendingEnd := true }
    else handlers.endSession w true
  else w

/-- The handler `handlers.raiseHand()` up to its first `await`. -/
def handlers.raiseHand (w : World) : World :=
  if !w.isActive || w.isEnded then w
  else if !([UiState.AI_SPEAKING, UiState.WAITING_FOR_HAND].contains w.uiState) then w
  else if w.streamActive then
    ui.setFloor { w with handRaisedPending := true } UiState.QUEUED
  else
    let w := silenceTimer.cancel w
    issue w (Request.raiseHand w.sessionId) Task.raiseHand

/-- The handler `handlers.raiseHand()` from the point where `api.raiseHand` has settled. -/
def handlers.raiseHand_settled (w : World) (r : Except String RaiseData) : World :=
  match r with
  | Except.ok data =>
    if data.status = "granted" then
      ui.setFloor (ui.appendMessage w "moderator" data.moderator_message) UiState.USER_SPEAKING
    else if data.status = "queued" then ui.setFloor w UiState.QUEUED
    else if data.status = "already_granted" then ui.setFloor w UiState.USER_SPEAKING
    else w
  | Except.error msg =>
    if includes msg "404" || includes msg "Session not found" then
      ui.setFloor
        (persist.clear { w with isActive := false, isEnded := true, handRaisedPending := false })
        UiState.ENDED
    else silenceTimer.reset (ui.setFloor w UiState.WAITING_FOR_HAND)

/-- The handler `handlers.sendMessage()` up to its first `await`; `input` is the value of
the message box. -/
def handlers.sendMessage (w : World) (input : String) : World :=
  if w.uiState != UiState.USER_SPEAKING then w
  else if w.streamActive then w
  else
    let message := jsTrim input
    if message = "" then w
    else
      let w := ui.appendMessage w "user" message
      let w := ui.incrementTurn w
      let w := silenceTimer.cancel w
      let w := ui.setFloor w UiState.AI_SPEAKING
      let w := { w with streamActive := true }
      openStream w Owner.sendMessage (Request.speak w.sessionId message)

/-- The handler `handlers.sendMessage()` from the point where `consumeStream` has returned
or thrown: the `try` body or the `catch` block, then the `finally` block. -/
def handlers.sendMessage_settled (w : World) (r : StreamEnd) : World :=
  let w :=
    match r with
    | StreamEnd.done d =>
      if w.isEnded || w.pendingEnd then
        let w := { w with streamActive := false }
        if w.pendingEnd then handlers.endSession { w with pendingEnd := false } true
        else w
      else
        let w := ui.appendMessage w "moderator" d.moderator_message
        if d.hand_queued_granted || w.handRaisedPending then
          handlers.raiseHand
            (ui.setFloor { w with handRaisedPending := false, streamActive := false }
              UiState.WAITING_FOR_HAND)
        else
          silenceTimer.reset (ui.setFloor { w with streamActive := false } UiState.AI_TURN_ASSIGNED)
    | StreamEnd.eof => w
    | StreamEnd.error _ =>
      let w := { w with handRaisedPending := false, streamActive := false }
      if w.pendingEnd then handlers.endSession { w with pendingEnd := false } true
      else if !w.isEnded then silenceTimer.reset (ui.setFloor w UiState.AI_TURN_ASSIGNED)
      else w
  { w with streamActive := false }

/-- The handler `handlers.aiSpeak()` up to its first `await`. -/
def handlers.aiSpeak (w : World) : World :=
  if w.uiState != UiState.AI_TURN_ASSIGNED then w
  else if w.aiRequestInFlight then w
  else
    let w := { w with aiRequestInFlight := true, aiRequestCounter := w.aiRequestCounter + 1 }
    if !w.isActive || w.isEnded then { w with aiRequestInFlight := false }
    else if w.pendingEnd then { w with aiRequestInFlight := false }
    else if w.uiState != UiState.AI_TURN_ASSIGNED then { w with aiRequestInFlight := false }
    else if w.streamActive then { w with aiRequestInFlight := false }
    else
      let w := silenceTimer.cancel w
      let w := ui.setFloor w UiState.AI_SPEAKING
      let w := { w with streamActive := true }
      openStream w Owner.aiSpeak (Request.aiSpeak w.sessionId)

/-- The test of the first branch of the `catch` block of `handlers.aiSpeak`. -/
def isFatal (msg : String) : Bool :=
  includes msg "404" || includes msg "410" || includes msg "Session not found" ||
    includes msg "Session has ended" || includes msg "expired"

/-- The test of the second branch of the `catch` block of `handlers.aiSpeak`. -/
def isConflict (msg : String) : Bool :=
  includes msg "409" || includes msg "floor" || includes msg "speaking" ||
    includes msg "Conflict"

/-- The handler `handlers.aiSpeak()` from the point where `consumeStream` has returned or
thrown: the `try` body or the `catch` block, then the `finally` block. -/
def handlers.aiSpeak_settled (w : World) (r : StreamEnd) : World :=
  let w :=
    match r with
    | StreamEnd.done d =>
      if w.isEnded || w.pendingEnd then
        let w := { w with streamActive := false }
        if w.pendingEnd then handlers.endSession { w with pendingEnd := false } true
        else w
      else
        let w := ui.appendMessage w "moderator" d.moderator_message
        if d.hand_queued_granted || w.handRaisedPending then
          handlers.raiseHand
            (ui.setFloor { w with handRaisedPending := false, streamActive := false }
              UiState.WAITING_FOR_HAND)
        else
          let w := ui.setFloor { w with streamActive := false } UiState.AI_TURN_ASSIGNED
          if !w.pendingEnd then silenceTimer.reset w else w
    | StreamEnd.eof => w
    | StreamEnd.error msg =>
      if isFatal msg then
        let w := silenceTimer.cancel w
        let w :=
          { w with
            uiState := UiState.ENDED
            isEnded := true
            isActive := false
            pendingEnd := false
            handRaisedPending := false }
        ui.setFloor (persist.clear w) UiState.ENDED
      else if isConflict msg then
        let w := { w with streamActive := false }
        if !w.isEnded && !w.pendingEnd then
          let w := ui.setFloor w UiState.AI_TURN_ASSIGNED
          { w with pending := w.pending ++ [Task.retry] }
        else w
      else
        let w := { w with handRaisedPending := false, streamActive := false }
        if w.pendingEnd then handlers.endSession { w with pendingEnd := false } true
        else if !w.isEnded then silenceTimer.reset (ui.setFloor w UiState.AI_TURN_ASSIGNED)
        else w
  { w with aiRequestInFlight := false, streamActive := false }

/-- The callback of the timeout created by `silenceTimer.reset`. -/
def silenceTimer.fire (w : World) : World :=
  if w.uiState = UiState.AI_TURN_ASSIGNED && !w.isEnded then handlers.aiSpeak w
  else w

/-- The validation at the head of `handlers.startSession`: the trimmed topic and the
parsed duration when both pass, `none` when the handler shows an error and returns. -/
def validateStart (topicInput durationInput : String) : Option (String × Int) :=
  let topic := jsTrim topicInput
  if topic = "" then none
  else
    match parseInt durationInput with
    | none => none
    | some duration => if duration = 0 || duration < 10 then none else some (topic, duration)

/-- The handler `handlers.startSession()` up to its first `await`; the two arguments are
the values of the topic box and of the duration box. -/
def handlers.startSession (w : World) (topicInput durationInput : String) : World :=
  match validateStart topicInput durationInput with
  | none => w
  | some (topic, duration) => issue w (Request.start topic duration) (Task.start topic duration)

/-- The handler `handlers.startSession()` from the point where `api.start` has settled. -/
def handlers.startSession_settled (w : World) (topic : String) (duration : Int)
    (r : Except String StartData) : World :=
  match r with
  | Except.ok data =>
    let w := { w with sessionId := some data.session_id, isActive := true }
    let w := ui.onSessionStarted w topic
    let w := ui.appendMessage w "moderator" data.message
    let w := sessionTimer.start w duration
    let w := ui.setFloor w UiState.AI_TURN_ASSIGNED
    silenceTimer.reset w
  | Except.error _ => w

/-! ## Reconciliation at page load -/

/-- The method `persist.restore()` up to its first `await`.  The second component is
`some false` when the method returns `false` without probing, and `none` when the probe
request has been issued and is awaited. -/
def persist.restore (w : World) : World × Option Bool :=
  match w.storage with
  | none => (w, some false)
  | some Stored.unparsable => (w, some false)
  | some (Stored.snap saved) =>
    if saved.sessionId = "" then (w, some false)
    else if w.now - saved.savedAt > 2 * 60 * 60 * 1000 then (persist.clear w, some false)
    else (issue w (Request.probe saved.sessionId) (Task.probe saved), none)

/-- The method `persist.restore()` from the point where the probe has settled: `status`
is the HTTP status of the response, or `none` when `fetch` rejected. -/
def persist.restore_settled (w : World) (saved : Snapshot) (status : Option Nat) :
    World × Bool :=
  match status with
  | none => (persist.clear w, false)
  | some code =>
    if code = 404 then (persist.clear w, false)
    else
      let w :=
        { w with
          sessionId := some saved.sessionId
          isActive := true
          isEnded := false
          turnCount := saved.turnCount
          restoredMsgCount := saved.lastMsgCount
          statusTopic := saved.topic
          transcript := saved.transcriptHtml }
      let remaining := if saved.remainingTime > 0 then saved.remainingTime else 30
      let w := sessionTimer.start w remaining
      let w := ui.setFloor w UiState.WAITING_FOR_HAND
      (silenceTimer.reset w, true)

/-- The function `init` up to its first `await`. -/
def init (w : World) : World :=
  match persist.restore w with
  | (w1, some false) => ui.setFloor w1 UiState.INACTIVE
  | (w1, _) => w1

/-- The function `init` from the point where the probe of `persist.restore` has settled. -/
def init_settled (w : World) (saved : Snapshot) (status : Option Nat) : World :=
  match persist.restore_settled w saved status with
  | (w1, false) => ui.setFloor w1 UiState.INACTIVE
  | (w1, true) => w1

/-! ## The event loop -/

/-- One turn of the event loop: a user action, a timer callback, or the settling of an
awaited operation.  `callAiSpeak` is a call of `handlers.aiSpeak` from outside the silence
timer; it is not bound to any control of the page and is kept so that statements about
all event sequences also cover that handler. -/
inductive Event
  | clickStart (topicInput durationInput : String)
  | clickEnd
  | clickRaiseHand
  | clickSend (input : String)
  | callAiSpeak
  | sessionTick (h : Nat)
  | silenceFire (h : Nat)
  | retryFire
  | startSettled (topic : String) (duration : Int) (r : Except String StartData)
  | raiseHandSettled (r : Except String RaiseData)
  | streamToken (id : Nat) (text : String)
  | streamEnded (id : Nat) (r : StreamEnd)
  | endPoll
  | endHardTimeout
  | endSettled
  | probeSettled (saved : Snapshot) (status : Option Nat)
  | elapse (ms : Nat)

/-- The body of the loop of `consumeStream` for one `token` chunk of the stream `s`. -/
def consumeToken (w : World) (s : Stream) (text : String) : World :=
  let w :=
    if s.el then w
    else
      ui.createStreamingBubble
        { w with streams := w.streams.map (fun t => if t.id = s.id then { t with el := true } else t) }
        s.id "ai"
  ui.appendToken w s.id text

/-- The end of the call of `consumeStream` for the stream `s` (the bubble is finalized
when the call returns, not when it throws), followed by the rest of the handler that
awaited it. -/
def consumeEnd (w : World) (s : Stream) (r : StreamEnd) : World :=
  let w := { w with streams := w.streams.filter (fun t => t.id != s.id) }
  let w :=
    match r with
    | StreamEnd.error _ => w
    | _ => if s.el then ui.finalizeStreamingBubble w s.id else w
  match s.owner with
  | Owner.sendMessage => handlers.sendMessage_settled w r
  | Owner.aiSpeak => handlers.aiSpeak_settled w r

/-- Runs one event.  An event that is not enabled (a timer that is not live, a result
for an operation that is not awaited) leaves the page as it is. -/
def step (w : World) : Event → World
  | Event.clickStart t d => handlers.startSession w t d
  | Event.clickEnd => handlers.endSession w false
  | Event.clickRaiseHand => handlers.raiseHand w
  | Event.clickSend input => handlers.sendMessage w input
  | Event.callAiSpeak => handlers.aiSpeak w
  | Event.sessionTick h => if h ∈ w.intervals then sessionTimer.tick w else w
  | Event.silenceFire h =>
    if h ∈ w.timeouts then silenceTimer.fire { w with timeouts := w.timeouts.erase h } else w
  | Event.retryFire =>
    if Task.retry ∈ w.pending then
      silenceTimer.reset { w with pending := w.pending.erase Task.retry }
    else w
  | Event.startSettled t d r =>
    if Task.start t d ∈ w.pending then
      handlers.startSession_settled { w with pending := w.pending.erase (Task.start t d) } t d r
    else w
  | Event.raiseHandSettled r =>
    if Task.raiseHand ∈ w.pending then
      handlers.raiseHand_settled { w with pending := w.pending.erase Task.raiseHand } r
    else w
  | Event.streamToken id text =>
    match w.streams.find? (fun s => s.id == id) with
    | some s => consumeToken w s text
    | none => w
  | Event.streamEnded id r =>
    match w.streams.find? (fun s => s.id == id) with
    | some s => consumeEnd w s r
    | none => w
  | Event.endPoll =>
    if Task.endDrain ∈ w.pending ∧ w.streamActive = false then
      handlers.endSession_evaluate { w with pending := w.pending.erase Task.endDrain }
    else w
  | Event.endHardTimeout =>
    if Task.endDrain ∈ w.pending then
      handlers.endSession_evaluate { w with pending := w.pending.erase Task.endDrain }
    else w
  | Event.endSettled =>
    if Task.evaluate ∈ w.pending then { w with pending := w.pending.erase Task.evaluate }
    else w
  | Event.probeSettled saved status =>
    if Task.probe saved ∈ w.pending then
      init_settled { w with pending := w.pending.erase (Task.probe saved) } saved status
    else w
  | Event.elapse ms => { w with now := w.now + ms }

/-- Runs a sequence of events, first to last. -/
def run (w : World) (events : List Event) : World :=
  events.foldl step w

/-- The page once the script has run to the first `await` of `init`. -/
def boot (storage : Option Stored) (now : Int) : World :=
  init (World.blank storage now)

/-- The states the page can be in: those reached from a freshly loaded page by some
sequence of events. -/
def Reachable (w : World) : Prop :=
  ∃ storage now events, w = run (boot storage now) events

/-- Tells whether a request was issued by `api.raiseHand`. -/
def Request.isRaiseHand : Request → Bool
  | Request.raiseHand _ => true
  | _ => false

/-- Number of `/raise-hand` requests issued through `api.raiseHand`. -/
def raiseHandCount (w : World) : Nat :=
  (w.requests.filter Request.isRaiseHand).length

/-- The stream discipline: either no stream is open and both flags are down, or exactly
one stream is open, `streamActive` is up, and `aiRequestInFlight` is up exactly when that
stream was opened by `handlers.aiSpeak`. -/
def StreamInv (w : World) : Prop :=
  (w.streams = [] ∧ w.streamActive = false ∧ w.aiRequestInFlight = false) ∨
  (∃ s, w.streams = [s] ∧ w.streamActive = true ∧
    (w.aiRequestInFlight = true ↔ s.owner = Owner.aiSpeak))

/-- The silence-timer discipline: at most the timeout whose handle is stored is live, and
while it is live `uiState` is not `AI_TURN_ASSIGNED` and no stream is open. -/
def SilenceInv (w : World) : Prop :=
  w.timeouts = [] ∨
  (∃ h, w.silenceH = some h ∧ w.timeouts = [h] ∧ w.uiState ≠ UiState.AI_TURN_ASSIGNED ∧
    w.streamActive = false)

/-- The value returned by `ui.appendMessage(speaker, text)`: `null` (here `none`) when the
dedup guard skips the call, the new element otherwise. -/
def ui.appendMessage_returned (w : World) (speaker text : String) : Option Bubble :=
  if w.restoredMsgCount > 0 then none
  else some { speaker := speaker, text := text, stream := none, streaming := false }

/-- Runs `ui.appendMessage` once for each (speaker, text) pair of the list, in order. -/
def appendAll (w : World) (msgs : List (String × String)) : World :=
  msgs.foldl (fun v m => ui.appendMessage v m.1 m.2) w

/-- Tells whether a request was issued by `api.end`: the request for the evaluation. -/
def Request.isEndSession : Request → Bool
  | Request.endSession _ => true
  | _ => false

/-- Number of evaluation requests (`/end`) issued so far. -/
def evaluationCount (w : World) : Nat :=
  (w.requests.filter Request.isEndSession).length

/-- The end discipline: the evaluations requested plus those that a waiting `endSession`
will still request number at most one, and none while `isEnded` is false. -/
def EndInv (w : World) : Prop :=
  evaluationCount w + w.pending.count Task.endDrain ≤ (if w.isEnded then 1 else 0)

/-- Tells whether the answer of the probe makes `persist.restore` go on and restore the
session: any status but 404; `none` stands for a `fetch` that rejected. -/
def probeSucceeds : Option Nat → Bool
  | none => false
  | some code => code != 404

/-- Tells whether, somewhere along the events run from `w`, the probe of `persist.restore`
settles with success on a page whose session has ended. -/
def revivesEnded (w : World) : List Event → Bool
  | [] => false
  | e :: rest =>
    (match e with
      | Event.probeSettled saved status =>
        decide (Task.probe saved ∈ w.pending) && w.isEnded && probeSucceeds status
      | _ => false) || revivesEnded (step w e) rest

/-! ## The stream consumer and the line splitter as functions of their whole input -/

/-- A stream event as `consumeStream` tests it: an object whose `type` is `'token'`, an
object whose `type` is `'done'`, or any other value that has properties.  The `text` of a
token is the string that `+=` appends for `chunk.text`. -/
inductive Chunk
  | token (text : String)
  | done (d : Done)
  | other
  deriving DecidableEq, Repr

/-- What a call of `consumeStream` throws: the `TypeError` of reading `chunk.type` when
the chunk is `null`, or the error of the source with its message. -/
inductive Raised
  | typeError
  | source (message : String)
  deriving DecidableEq, Repr

/-- The local variables of `consumeStream`.  `streamTextEl` is `none` for `null` and holds
the text content of the streaming bubble once `ui.createStreamingBubble` has made it;
`finalized` records the call of `ui.finalizeStreamingBubble`. -/
structure Consumer where
  streamTextEl : Option String
  fullText : String
  doneChunk : Option Done
  finalized : Bool
  deriving DecidableEq, Repr

/-- The locals of `consumeStream` as initialised. -/
def Consumer.start : Consumer where
  streamTextEl := none
  fullText := ""
  doneChunk := none
  finalized := false

/-- The body of the `for await` loop of `consumeStream` for one chunk that is not
`null`. -/
def consumeChunk (c : Consumer) : Chunk → Consumer
  | Chunk.token text =>
    { c with
      streamTextEl := some (c.streamTextEl.getD "" ++ text)
      fullText := c.fullText ++ text }
  | Chunk.done d => { c with doneChunk := some d }
  | Chunk.other => c

/-- The `for await` loop of `consumeStream` over the values that the source yields: `some`
of a stream event, or `none` for the value `null` (which `api._postStream` yields for a
line `null`).  On `null` the test `chunk.type === 'token'` throws, and the loop is left
with the values after it unread.  The result is the locals at the exit of the loop and
whether the body threw. -/
def consumeLoop (c : Consumer) : List (Option Chunk) → Consumer × Bool
  | [] => (c, false)
  | none :: _ => (c, true)
  | some x :: rest => consumeLoop (consumeChunk c x) rest

/-- The function `consumeStream` on a source that yields `values` and then either ends
(`sourceError = none`) or throws an error with the given message.  The first component is
what the call leaves on the page, the second what it returns or throws. -/
def consumeStream (values : List (Option Chunk)) (sourceError : Option String) :
    Consumer × Except Raised (Option Done) :=
  match consumeLoop Consumer.start values with
  | (c, true) => (c, Except.error Raised.typeError)
  | (c, false) =>
    match sourceError with
    | some e => (c, Except.error (Raised.source e))
    | none => ({ c with finalized := c.streamTextEl.isSome }, Except.ok c.doneChunk)

/-- The stream events of a sequence of yielded values that come before its first `null`. -/
def untilNull : List (Option Chunk) → List Chunk
  | [] => []
  | none :: _ => []
  | some x :: rest => x :: untilNull rest

/-- The texts of the token events of a sequence, in arrival order. -/
def tokenTexts : List Chunk → List String
  | [] => []
  | Chunk.token text :: rest => text :: tokenTexts rest
  | _ :: rest => tokenTexts rest

/-- The terminal event of a sequence: its last `done` event, if it has one. -/
def terminalEvent : List Chunk → Option Done
  | [] => none
  | Chunk.done d :: rest => (terminalEvent rest).orElse (fun _ => some d)
  | _ :: rest => terminalEvent rest

/-- The pieces of `cur ++ text` between newlines, where `cur` has no newline: the call
`(cur + text).split('\n')`. -/
def splitFrom (cur : List Char) : List Char → List (List Char)
  | [] => [cur]
  | c :: cs => if c = '\n' then cur :: splitFrom [] cs else splitFrom (cur ++ [c]) cs

/-- The call `text.split('\n')`. -/
def splitNewline (text : List Char) : List (List Char) :=
  splitFrom [] text

/-- The test `!line.trim()`. -/
def isBlank (line : List Char) : Bool :=
  (trimChars line).isEmpty

/-- The state of the generator `api._postStream` once the response is being read: the
local `buffer`, the lines passed to `JSON.parse` so far, and whether `JSON.parse` has
thrown (which ends the generator).  Texts are lists of characters; the chunks are those
that `TextDecoder.decode` returns. -/
structure PostStream where
  buffer : List Char
  handed : List (List Char)
  thrown : Bool
  deriving DecidableEq, Repr

/-- The generator before the first read. -/
def PostStream.start : PostStream where
  buffer := []
  handed := []
  thrown := false

/-- One statement `if (line.trim()) yield JSON.parse(line)`; `accepts` tells which texts
`JSON.parse` parses without throwing. -/
def yieldLine (accepts : List Char → Bool) (p : PostStream) (line : List Char) : PostStream :=
  if p.thrown then p
  else if isBlank line then p
  else { p with handed := p.handed ++ [line], thrown := !accepts line }

/-- One turn of the `while` loop of `api._postStream` for a chunk that was read. -/
def readChunk (accepts : List Char → Bool) (p : PostStream) (chunk : List Char) : PostStream :=
  if p.thrown then p
  else
    let lines := splitNewline (p.buffer ++ chunk)
    lines.dropLast.foldl (yieldLine accepts) { p with buffer := lines.getLastD [] }

/-- The generator `api._postStream` run to its end on the chunks of a response: the loop,
then the flush of the remainder. -/
def api._postStream (accepts : List Char → Bool) (chunks : List (List Char)) : PostStream :=
  let p := chunks.foldl (readChunk accepts) PostStream.start
  yieldLine accepts p p.buffer

/-- The non-blank lines of a text split on newline, in order. -/
def nonBlankLines (text : List Char) : List (List Char) :=
  (splitNewline text).filter (fun line => !isBlank line)

/-- The lines of a list up to and including the first one that the parser rejects. -/
def throughFirstRejected (accepts : List Char → Bool) : List (List Char) → List (List Char)
  | [] => []
  | line :: rest => if accepts line then line :: throughFirstRejected accepts rest else [line]

/-! ## Bookkeeping for the auto-speak stream -/

/-- Tells whether a request was issued by `api.aiSpeak`. -/
def Request.isAiSpeak : Request → Bool
  | Request.aiSpeak _ => true
  | _ => false

/-- Number of `/ai-speak` requests issued so far. -/
def aiSpeakCount (w : World) : Nat :=
  (w.requests.filter Request.isAiSpeak).length

/-- Tells whether an event is a call of `handlers.aiSpeak` from outside the silence timer. -/
def Event.isDirectAiSpeak : Event → Bool
  | Event.callAiSpeak => true
  | _ => false

/-- Tells whether an event is the settling of the probe of `persist.restore`. -/
def Event.isProbeSettled : Event → Bool
  | Event.probeSettled _ _ => true
  | _ => false

/-- No auto-speak stream has been opened: no `/ai-speak` request was issued, and no open
stream belongs to `handlers.aiSpeak`. -/
def NoAiInv (w : World) : Prop :=
  aiSpeakCount w = 0 ∧ ∀ s ∈ w.streams, s.owner = Owner.sendMessage

/-! ## Bookkeeping for the restore probe -/

/-- Tells whether an awaited operation is the probe of `persist.restore`. -/
def Task.isProbe : Task → Bool
  | Task.probe _ => true
  | _ => false

/-- The page has not been touched by a turn yet: the counter is 0, no stream is open, no
`/raise-hand` request is in flight and `uiState` is `INACTIVE`, `AI_TURN_ASSIGNED` or
`ENDED`. -/
def Dormant (w : World) : Prop :=
  w.turnCount = 0 ∧ w.streams = [] ∧ Task.raiseHand ∉ w.pending ∧
  (w.uiState = UiState.INACTIVE ∨ w.uiState = UiState.AI_TURN_ASSIGNED ∨
    w.uiState = UiState.ENDED)

/-- The probe discipline: either no probe of `persist.restore` is awaited, or exactly one
is and the page has not been touched by a turn yet. -/
def ProbeInv (w : World) : Prop :=
  w.pending.filter Task.isProbe = [] ∨
  (Dormant w ∧ ∃ saved, w.pending.filter Task.isProbe = [Task.probe saved])

/-! ## Worked scenarios -/

/-- A snapshot saved one second before the page is loaded in `afterRestore`. -/
def sampleSnapshot : Snapshot where
  sessionId := "s1"
  topic := "Climate policy"
  transcriptHtml := []
  turnCount := 0
  remainingTime := 30
  lastMsgCount := 0
  savedAt := 0

/-- A successful answer of `/start`. -/
def sampleStart : StartData where
  session_id := "s1"
  message := "Welcome to the discussion."

/-- An answer of `/raise-hand` that grants the floor. -/
def sampleGranted : RaiseData where
  status := "granted"
  moderator_message := "The floor is yours."

/-- The page after `start("Climate policy", 30)` has succeeded on a fresh page. -/
def afterStart : World :=
  run (boot none 0)
    [Event.clickStart "Climate policy" "30",
     Event.startSettled "Climate policy" 30 (Except.ok sampleStart)]

/-- The page after a reload that found `sampleSnapshot` and a probe answered with 200. -/
def afterRestore : World :=
  run (boot (some (Stored.snap sampleSnapshot)) 1000)
    [Event.probeSettled sampleSnapshot (some 200)]

/-- The restored page after the user has raised the hand and the server has granted it. -/
def userSpeaking : World :=
  run afterRestore [Event.clickRaiseHand, Event.raiseHandSettled (Except.ok sampleGranted)]

/-- The page of `userSpeaking` after the user has sent a message: a stream is open. -/
def streaming : World :=
  run userSpeaking [Event.clickSend "I disagree"]

/-- The restored page after the user has raised the hand and then ended the session
while the `/raise-hand` request was still in flight. -/
def endedWhileRaising : World :=
  run afterRestore [Event.clickRaiseHand, Event.clickEnd]

/-- A page on which the answer of `/start` arrives while a stream is open: the start
button was pressed before the probe of the reload had settled. -/
def lateStart : World :=
  run (boot (some (Stored.snap sampleSnapshot)) 1000)
    [Event.clickStart "Climate policy" "30",
     Event.probeSettled sampleSnapshot (some 200),
     Event.clickRaiseHand,
     Event.raiseHandSettled (Except.ok sampleGranted),
     Event.clickSend "I disagree",
     Event.startSettled "Climate policy" 30 (Except.ok sampleStart)]

/-- The page of `streaming` after the user has raised the hand during the stream. -/
def queuedWhileStreaming : World :=
  run streaming [Event.clickRaiseHand]

/-- The restored page after two clicks on the raise-hand button: two `/raise-hand`
requests are in flight and `uiState` is still `WAITING_FOR_HAND`. -/
def twoRaises : World :=
  run afterRestore [Event.clickRaiseHand, Event.clickRaiseHand]

/-- The page of `twoRaises` after the first request has failed (the silence timer is
re-armed) and the second has been granted (the state changes while the timer is live). -/
def staleTimer : World :=
  run twoRaises
    [Event.raiseHandSettled (Except.error "HTTP 500"),
     Event.raiseHandSettled (Except.ok sampleGranted)]

/-- The restored page after one click on the raise-hand button: the request is in flight. -/
def raising : World :=
  run afterRestore [Event.clickRaiseHand]

/-- The page of `streaming` after the thirty ticks of the countdown: it has reached zero
while the stream is open. -/
def expiring : World :=
  run streaming (List.replicate 30 (Event.sessionTick 1))

/-- A fresh page on which `startSession` ran twice before the first answer arrived (the
button and then Ctrl+Enter in the topic box), and both requests succeeded. -/
def doubleStart : World :=
  run (boot none 0)
    [Event.clickStart "Climate policy" "30",
     Event.clickStart "Climate policy" "30",
     Event.startSettled "Climate policy" 30 (Except.ok sampleStart),
     Event.startSettled "Climate policy" 30 (Except.ok sampleStart)]

/-- A snapshot of a session with one second left on its countdown. -/
def lastSecondSnapshot : Snapshot where
  sessionId := "s1"
  topic := "Climate policy"
  transcriptHtml := []
  turnCount := 0
  remainingTime := 1
  lastMsgCount := 0
  savedAt := 0

/-- A page loaded with `lastSecondSnapshot` on which a session is started and ended by
hand before the probe of the reload has settled. -/
def endedBeforeProbe : World :=
  run (boot (some (Stored.snap lastSecondSnapshot)) 1000)
    [Event.clickStart "Climate policy" "30",
     Event.startSettled "Climate policy" 30 (Except.ok sampleStart),
     Event.clickEnd]

/-- The page of `endedBeforeProbe` after the probe has been answered with 200. -/
def revived : World :=
  run endedBeforeProbe [Event.probeSettled lastSecondSnapshot (some 200)]

/-- A snapshot of a session with four turns, nine bubbles and twelve seconds left. -/
def richSnapshot : Snapshot where
  sessionId := "s7"
  topic := "Remote work"
  transcriptHtml := []
  turnCount := 4
  remainingTime := 12
  lastMsgCount := 9
  savedAt := 5000

/-- A snapshot like `richSnapshot` whose countdown had run out when it was saved. -/
def spentSnapshot : Snapshot where
  sessionId := "s7"
  topic := "Remote work"
  transcriptHtml := []
  turnCount := 4
  remainingTime := 0
  lastMsgCount := 9
  savedAt := 5000

/-- The page after a reload that found `richSnapshot` and a probe answered with 200. -/
def afterRichRestore : World :=
  run (boot (some (Stored.snap richSnapshot)) 6000)
    [Event.probeSettled richSnapshot (some 200)]

/-- The page after a reload that found `spentSnapshot` and a probe answered with 500. -/
def afterSpentRestore : World :=
  run (boot (some (Stored.snap spentSnapshot)) 6000)
    [Event.probeSettled spentSnapshot (some 500)]

/-- A parser that accepts the decimal numerals without a sign and without a leading zero,
with white space around them, and rejects every other text.  `JSON.parse` accepts all of
these and more; the two agree on the lines of `brokenLineResponse`. -/
def acceptsNumber (line : List Char) : Bool :=
  match trimChars line with
  | [] => false
  | c :: cs => (c :: cs).all Char.isDigit && (c != '0' || cs.isEmpty)

/-- A response that arrives in one chunk and whose first line is not JSON. -/
def brokenLineResponse : List (List Char) :=
  ["oops\n1\n".toList]

/-- A response of three lines, the last one unterminated, cut in the middle of a line and
right after a newline. -/
def threeLineResponse : List (List Char) :=
  ["1\n2".toList, "3\n".toList, "\n  \n45".toList]

/-- The chunks of a stream with two tokens around an unknown event, and a terminal event. -/
def sampleChunks : List Chunk :=
  [Chunk.token "Hel", Chunk.other, Chunk.token "lo",
   Chunk.done { moderator_message := "Your turn.", hand_queued_granted := false }]

/-- The values of a stream whose second line is `null`, between two tokens, with a
terminal event at the end. -/
def nullInStream : List (Option Chunk) :=
  [some (Chunk.token "Hel"), none, some (Chunk.token "lo"),
   some (Chunk.done { moderator_message := "Your turn.", hand_queued_granted := false })]

/-! ## Closed forms of the building blocks

Each building block is rewritten as one record update, so that the fields of a state
reached through several of them can be read off. -/

attribute [simp] sessionTimer.start persist.clear ui.setFloor ui.onSessionStarted
  ui.onSessionEnded ui.incrementTurn ui.createStreamingBubble ui.appendToken
  ui.finalizeStreamingBubble openStream issue handlers.endSession_evaluate

@[simp] theorem clearHandle_none (live : List Nat) : clearHandle none live = live := rfl

@[simp] theorem clearHandle_nil (handle : Option Nat) : clearHandle handle [] = [] := by
  cases handle <;> simp [clearHandle]

@[simp] theorem silenceTimer.cancel_eq (w : World) :
    silenceTimer.cancel w =
      { w with
        timeouts := clearHandle w.silenceH w.timeouts
        silenceH := none } := by
  cases w
  unfold silenceTimer.cancel clearHandle
  dsimp only
  split <;> simp_all

@[simp] theorem sessionTimer.stop_eq (w : World) :
    sessionTimer.stop w =
      { w with
        intervals := clearHandle w.sessionH w.intervals
        sessionH := none } := by
  cases w
  unfold sessionTimer.stop clearHandle
  dsimp only
  split <;> simp_all

@[simp] theorem silenceTimer.reset_eq (w : World) :
    silenceTimer.reset w =
      { w with
        timeouts :=
          if silenceTimer.guardsPass w then clearHandle w.silenceH w.timeouts ++ [w.nextId]
          else clearHandle w.silenceH w.timeouts
        silenceH := if silenceTimer.guardsPass w then some w.nextId else none
        nextId := if silenceTimer.guardsPass w then w.nextId + 1 else w.nextId } := by
  rcases w with ⟨sid, act, ended, tc, ui, sa, hrp, rmc, pe, ctr, fl, sh, sl, silh, ivs, tos,
    nid, now, sto, tr, topic, reqs, strs, pend⟩
  simp only [silenceTimer.reset, silenceTimer.cancel_eq, silenceTimer.guardsPass]
  cases act <;> cases ended <;> cases pe <;> cases sa <;> cases ui <;> simp

@[simp] theorem persist.save_eq (w : World) :
    persist.save w =
      { w with
        storage := match w.sessionId with
          | none => w.storage
          | some sid =>
            if sid = "" then w.storage
            else some (Stored.snap
              { sessionId := sid
                topic := w.statusTopic
                transcriptHtml := w.transcript
                turnCount := w.turnCount
                remainingTime := w.sessionLeft
                lastMsgCount := w.transcript.length
                savedAt := w.now }) } := by
  cases w
  unfold persist.save
  dsimp only
  split
  · rfl
  · split <;> simp_all

@[simp] theorem ui.appendMessage_eq (w : World) (sp tx : String) :
    ui.appendMessage w sp tx =
      { w with
        restoredMsgCount := w.restoredMsgCount - 1
        transcript :=
          if 0 < w.restoredMsgCount then w.transcript
          else w.transcript ++ [{ speaker := sp, text := tx, stream := none, streaming := false }]
        storage :=
          if 0 < w.restoredMsgCount then w.storage
          else match w.sessionId with
            | none => w.storage
            | some sid =>
              if sid = "" then w.storage
              else some (Stored.snap
                { sessionId := sid
                  topic := w.statusTopic
                  transcriptHtml := w.transcript ++
                    [{ speaker := sp, text := tx, stream := none, streaming := false }]
                  turnCount := w.turnCount
                  remainingTime := w.sessionLeft
                  lastMsgCount := w.transcript.length + 1
                  savedAt := w.now }) } := by
  unfold ui.appendMessage
  split
  · next h => cases w; simp_all
  · next h =>
    rw [persist.save_eq]
    cases w
    simp_all

/-! ## Stream bookkeeping is untouched by everything but the stream handlers -/

theorem handlers.endSession_core (w : World) (auto : Bool) :
    (handlers.endSession w auto).streams = w.streams ∧
    (handlers.endSession w auto).streamActive = w.streamActive ∧
    (handlers.endSession w auto).aiRequestInFlight = w.aiRequestInFlight := by
  unfold handlers.endSession
  simp only [ui.appendMessage_eq, silenceTimer.cancel_eq, persist.clear, ui.onSessionEnded, ui.setFloor, sessionTimer.stop_eq, handlers.endSession_evaluate, issue]
  split
  · simp
  · split <;> simp

theorem handlers.raiseHand_core (w : World) :
    (handlers.raiseHand w).streams = w.streams ∧
    (handlers.raiseHand w).streamActive = w.streamActive ∧
    (handlers.raiseHand w).aiRequestInFlight = w.aiRequestInFlight := by
  unfold handlers.raiseHand
  split
  · simp
  · split
    · simp
    · split <;> simp

theorem handlers.raiseHand_settled_core (w : World) (r : Except String RaiseData) :
    (handlers.raiseHand_settled w r).streams = w.streams ∧
    (handlers.raiseHand_settled w r).streamActive = w.streamActive ∧
    (handlers.raiseHand_settled w r).aiRequestInFlight = w.aiRequestInFlight := by
  unfold handlers.raiseHand_settled
  split
  · split
    · simp
    · split
      · simp
      · split <;> simp
  · split <;> simp

theorem handlers.sendMessage_settled_core (w : World) (r : StreamEnd) :
    (handlers.sendMessage_settled w r).streams = w.streams ∧
    (handlers.sendMessage_settled w r).streamActive = false ∧
    (handlers.sendMessage_settled w r).aiRequestInFlight = w.aiRequestInFlight := by
  unfold handlers.sendMessage_settled
  cases r with
  | done d =>
    dsimp only
    split
    · split
      · simp [handlers.endSession_core]
      · simp
    · split
      · simp [handlers.raiseHand_core]
      · simp
  | eof => simp
  | error m =>
    dsimp only
    split
    · simp [handlers.endSession_core]
    · split <;> simp



theorem handlers.aiSpeak_settled_core (w : World) (r : StreamEnd) :
    (handlers.aiSpeak_settled w r).streams = w.streams ∧
    (handlers.aiSpeak_settled w r).streamActive = false ∧
    (handlers.aiSpeak_settled w r).aiRequestInFlight = false := by
  unfold handlers.aiSpeak_settled
  cases r with
  | done d =>
    dsimp only
    split
    · split
      · simp [handlers.endSession_core]
      · simp
    · split
      · simp [handlers.raiseHand_core]
      · split <;> simp
  | eof => simp
  | error m =>
    dsimp only
    split
    · simp
    · split
      · split <;> simp
      · split
        · simp [handlers.endSession_core]
        · split <;> simp

theorem handlers.startSession_core (w : World) (t d : String) :
    (handlers.startSession w t d).streams = w.streams ∧
    (handlers.startSession w t d).streamActive = w.streamActive ∧
    (handlers.startSession w t d).aiRequestInFlight = w.aiRequestInFlight := by
  unfold handlers.startSession
  split <;> simp

theorem handlers.startSession_settled_core (w : World) (t : String) (d : Int)
    (r : Except String StartData) :
    (handlers.startSession_settled w t d r).streams = w.streams ∧
    (handlers.startSession_settled w t d r).streamActive = w.streamActive ∧
    (handlers.startSession_settled w t d r).aiRequestInFlight = w.aiRequestInFlight := by
  unfold handlers.startSession_settled
  split <;> simp

theorem sessionTimer.tick_core (w : World) :
    (sessionTimer.tick w).streams = w.streams ∧
    (sessionTimer.tick w).streamActive = w.streamActive ∧
    (sessionTimer.tick w).aiRequestInFlight = w.aiRequestInFlight := by
  unfold sessionTimer.tick
  dsimp only
  split
  · split
    · simp
    · split
      · simp
      · simp [handlers.endSession_core]
  · simp

theorem init_settled_core (w : World) (s : Snapshot) (st : Option Nat) :
    (init_settled w s st).streams = w.streams ∧
    (init_settled w s st).streamActive = w.streamActive ∧
    (init_settled w s st).aiRequestInFlight = w.aiRequestInFlight := by
  unfold init_settled persist.restore_settled
  cases st with
  | none => simp
  | some code =>
    by_cases h : code = 404 <;> simp [h]

theorem StreamInv_of_core {w v : World} (h : StreamInv w)
    (hc : v.streams = w.streams ∧ v.streamActive = w.streamActive ∧
      v.aiRequestInFlight = w.aiRequestInFlight) : StreamInv v := by
  unfold StreamInv at *
  rw [hc.1, hc.2.1, hc.2.2]
  exact h

theorem handlers.sendMessage_inv (w : World) (input : String) (h : StreamInv w) :
    StreamInv (handlers.sendMessage w input) := by
  unfold handlers.sendMessage
  split
  · exact h
  · split
    · exact h
    · next hs =>
      dsimp only
      split
      · exact h
      · rcases h with ⟨h1, h2, h3⟩ | ⟨s, h1, h2, h3⟩
        · right
          refine ⟨⟨w.nextId, Owner.sendMessage, false⟩, ?_⟩
          simp [h1, h3]
        · simp [h2] at hs

theorem handlers.aiSpeak_eq (w : World) :
    handlers.aiSpeak w =
      if w.uiState = UiState.AI_TURN_ASSIGNED ∧ w.aiRequestInFlight = false ∧
          w.isActive = true ∧ w.isEnded = false ∧ w.pendingEnd = false ∧
          w.streamActive = false then
        { w with
          aiRequestInFlight := true
          aiRequestCounter := w.aiRequestCounter + 1
          timeouts := clearHandle w.silenceH w.timeouts
          silenceH := none
          uiState := UiState.AI_SPEAKING
          streamActive := true
          requests := w.requests ++ [Request.aiSpeak w.sessionId]
          streams := w.streams ++ [{ id := w.nextId, owner := Owner.aiSpeak, el := false }]
          nextId := w.nextId + 1 }
      else if w.uiState = UiState.AI_TURN_ASSIGNED ∧ w.aiRequestInFlight = false then
        { w with aiRequestCounter := w.aiRequestCounter + 1 }
      else w := by
  rcases w with ⟨sid, act, ended, tc, ui, sa, hrp, rmc, pe, ctr, fl, sh, sl, silh, ivs, tos,
    nid, now, sto, tr, topic, reqs, strs, pend⟩
  cases act <;> cases ended <;> cases pe <;> cases sa <;> cases fl <;> cases ui <;>
    simp [handlers.aiSpeak]

theorem handlers.aiSpeak_inv (w : World) (h : StreamInv w) :
    StreamInv (handlers.aiSpeak w) := by
  rw [handlers.aiSpeak_eq]
  split
  · next hc =>
    rcases h with ⟨h1, h2, h3⟩ | ⟨s, h1, h2, h3⟩
    · right
      refine ⟨⟨w.nextId, Owner.aiSpeak, false⟩, ?_⟩
      simp [h1]
    · simp [h2] at hc
  · split
    · exact StreamInv_of_core h (by simp)
    · exact h


theorem find_id_singleton {s t : Stream} {id : Nat}
    (h : [s].find? (fun x => x.id == id) = some t) : t = s ∧ s.id = id := by
  simp [List.find?] at h
  split at h
  · next hs => simp at h; simp_all
  · simp at h

theorem consumeEnd_core (w : World) (s : Stream) (r : StreamEnd) :
    (consumeEnd w s r).streams = w.streams.filter (fun t => t.id != s.id) ∧
    (consumeEnd w s r).streamActive = false ∧
    (consumeEnd w s r).aiRequestInFlight =
      (if s.owner = Owner.aiSpeak then false else w.aiRequestInFlight) := by
  unfold consumeEnd
  cases ho : s.owner <;> cases r <;> cases hel : s.el <;>
    simp [handlers.sendMessage_settled_core, handlers.aiSpeak_settled_core]

theorem step_inv (w : World) (e : Event) (h : StreamInv w) : StreamInv (step w e) := by
  cases e with
  | clickStart t d => exact StreamInv_of_core h (handlers.startSession_core w t d)
  | clickEnd => exact StreamInv_of_core h (handlers.endSession_core w false)
  | clickRaiseHand => exact StreamInv_of_core h (handlers.raiseHand_core w)
  | clickSend input => exact handlers.sendMessage_inv w input h
  | callAiSpeak => exact handlers.aiSpeak_inv w h
  | sessionTick hd =>
    simp only [step]
    split
    · exact StreamInv_of_core h (sessionTimer.tick_core w)
    · exact h
  | silenceFire hd =>
    simp only [step]
    split
    · unfold silenceTimer.fire
      split
      · exact handlers.aiSpeak_inv _ (StreamInv_of_core h (by simp))
      · exact StreamInv_of_core h (by simp)
    · exact h
  | retryFire =>
    simp only [step]
    split
    · exact StreamInv_of_core h (by simp)
    · exact h
  | startSettled t d r =>
    simp only [step]
    split
    · exact StreamInv_of_core h (by simp [handlers.startSession_settled_core])
    · exact h
  | raiseHandSettled r =>
    simp only [step]
    split
    · exact StreamInv_of_core h (by simp [handlers.raiseHand_settled_core])
    · exact h
  | streamToken id text =>
    simp only [step]
    split
    · next s hs =>
      rcases h with ⟨h1, h2, h3⟩ | ⟨s0, h1, h2, h3⟩
      · simp [h1] at hs
      · rw [h1] at hs
        obtain ⟨rfl, hid⟩ := find_id_singleton hs
        right
        unfold consumeToken
        by_cases hel : s.el = true
        · refine ⟨s, ?_⟩
          simp [hel, h1, h2, h3]
        · refine ⟨{ s with el := true }, ?_⟩
          simp [hel, h1, h2, h3]
    · exact h
  | streamEnded id r =>
    simp only [step]
    split
    · next s hs =>
      rcases h with ⟨h1, h2, h3⟩ | ⟨s0, h1, h2, h3⟩
      · simp [h1] at hs
      · rw [h1] at hs
        obtain ⟨rfl, hid⟩ := find_id_singleton hs
        left
        have hc := consumeEnd_core w s r
        rw [hc.1, hc.2.1, hc.2.2, h1]
        refine ⟨by simp, rfl, ?_⟩
        by_cases ho : s.owner = Owner.aiSpeak
        · simp [ho]
        · simp only [ho, if_false]
          cases hf : w.aiRequestInFlight
          · rfl
          · exact absurd (h3.1 hf) ho
    · exact h
  | endPoll =>
    simp only [step]
    split
    · exact StreamInv_of_core h (by simp)
    · exact h
  | endHardTimeout =>
    simp only [step]
    split
    · exact StreamInv_of_core h (by simp)
    · exact h
  | endSettled =>
    simp only [step]
    split
    · exact StreamInv_of_core h (by simp)
    · exact h
  | probeSettled saved status =>
    simp only [step]
    split
    · exact StreamInv_of_core h (by simp [init_settled_core])
    · exact h
  | elapse ms => exact StreamInv_of_core h (by simp [step])


theorem run_inv (w : World) (events : List Event) (h : StreamInv w) :
    StreamInv (run w events) := by
  induction events generalizing w with
  | nil => exact h
  | cons e es ih => exact ih (step w e) (step_inv w e h)

theorem persist.restore_core (w : World) :
    (persist.restore w).1.streams = w.streams ∧
    (persist.restore w).1.streamActive = w.streamActive ∧
    (persist.restore w).1.aiRequestInFlight = w.aiRequestInFlight := by
  unfold persist.restore
  split
  · simp
  · simp
  · split
    · simp
    · split <;> simp

theorem init_core (w : World) :
    (init w).streams = w.streams ∧
    (init w).streamActive = w.streamActive ∧
    (init w).aiRequestInFlight = w.aiRequestInFlight := by
  have h := persist.restore_core w
  unfold init
  split
  · next w1 heq =>
    rw [heq] at h
    simpa using h
  · next w1 r hne heq =>
    rw [heq] at h
    simpa using h

theorem boot_inv (storage : Option Stored) (now : Int) : StreamInv (boot storage now) := by
  left
  have h := init_core (World.blank storage now)
  unfold boot
  rw [h.1, h.2.1, h.2.2]
  simp [World.blank]

theorem Reachable.inv {w : World} (h : Reachable w) : StreamInv w := by
  obtain ⟨storage, now, events, rfl⟩ := h
  exact run_inv _ _ (boot_inv storage now)

/-! ## The silence timer is live only outside `AI_TURN_ASSIGNED` -/

theorem SilenceInv.clear {w : World} (h : SilenceInv w) :
    clearHandle w.silenceH w.timeouts = [] := by
  rcases h with h0 | ⟨x, h1, h2, _, _⟩
  · rw [h0]; cases w.silenceH <;> simp [clearHandle]
  · rw [h1, h2]; simp [clearHandle]

theorem SilenceInv.of_frame {w v : World} (h : SilenceInv w)
    (h1 : v.timeouts = w.timeouts) (h2 : v.silenceH = w.silenceH)
    (h3 : v.uiState ≠ UiState.AI_TURN_ASSIGNED ∨ v.timeouts = [])
    (h4 : v.streamActive = w.streamActive ∨ v.streamActive = false ∨ v.timeouts = []) : SilenceInv v := by
  rcases h with h0 | ⟨x, g1, g2, g3, g4⟩
  · left; rw [h1, h0]
  · rcases h3 with h3 | h3
    · rcases h4 with h4 | h4 | h4
      · right; exact ⟨x, by rw [h2, g1], by rw [h1, g2], h3, by rw [h4, g4]⟩
      · right; exact ⟨x, by rw [h2, g1], by rw [h1, g2], h3, h4⟩
      · left; exact h4
    · left; exact h3

theorem silenceTimer.reset_inv (w : World) (h : SilenceInv w) :
    SilenceInv (silenceTimer.reset w) := by
  rw [silenceTimer.reset_eq]
  have hc := h.clear
  by_cases hg : silenceTimer.guardsPass w = true
  · right
    refine ⟨w.nextId, ?_⟩
    simp only [silenceTimer.guardsPass, Bool.and_eq_true, Bool.not_eq_true', beq_iff_eq] at hg
    simp [hc, silenceTimer.guardsPass, hg]
  · left
    simp [hg, hc]

theorem handlers.endSession_silence (w : World) (auto : Bool) (h : SilenceInv w) :
    SilenceInv (handlers.endSession w auto) := by
  have hc := h.clear
  by_cases hg : (!w.isActive || w.isEnded) = true
  · simpa [handlers.endSession, hg] using h
  · left
    by_cases hs : w.streamActive = true <;>
      simp [handlers.endSession, hg, hs, hc]

theorem handlers.raiseHand_silence (w : World) (h : SilenceInv w) :
    SilenceInv (handlers.raiseHand w) := by
  have hc := h.clear
  unfold handlers.raiseHand
  split
  · exact h
  · split
    · exact h
    · split
      · exact h.of_frame rfl rfl (Or.inl (by simp)) (Or.inl rfl)
      · left; simp [hc]


theorem handlers.raiseHand_settled_silence (w : World) (r : Except String RaiseData)
    (h : SilenceInv w) : SilenceInv (handlers.raiseHand_settled w r) := by
  unfold handlers.raiseHand_settled
  split
  · split
    · exact h.of_frame (by simp) (by simp) (Or.inl (by simp)) (Or.inl (by simp))
    · split
      · exact h.of_frame rfl rfl (Or.inl (by simp)) (Or.inl rfl)
      · split
        · exact h.of_frame rfl rfl (Or.inl (by simp)) (Or.inl rfl)
        · exact h
  · split
    · exact h.of_frame rfl rfl (Or.inl (by simp)) (Or.inl rfl)
    · exact silenceTimer.reset_inv _ (h.of_frame rfl rfl (Or.inl (by simp)) (Or.inl rfl))

theorem handlers.sendMessage_silence (w : World) (input : String) (h : SilenceInv w) :
    SilenceInv (handlers.sendMessage w input) := by
  have hc := h.clear
  unfold handlers.sendMessage
  split
  · exact h
  · split
    · exact h
    · dsimp only
      split
      · exact h
      · left; simp [hc]

theorem handlers.aiSpeak_silence (w : World) (h : SilenceInv w) :
    SilenceInv (handlers.aiSpeak w) := by
  have hc := h.clear
  rw [handlers.aiSpeak_eq]
  split
  · left; simp [hc]
  · split
    · exact h.of_frame rfl rfl (by
        rcases h with h0 | ⟨x, _, _, g3, _⟩
        · exact Or.inr h0
        · exact Or.inl g3) (Or.inl rfl)
    · exact h

theorem handlers.startSession_silence (w : World) (t d : String) (h : SilenceInv w) :
    SilenceInv (handlers.startSession w t d) := by
  unfold handlers.startSession
  split
  · exact h
  · exact h.of_frame rfl rfl (by
        rcases h with h0 | ⟨x, _, _, g3, _⟩
        · exact Or.inr h0
        · exact Or.inl g3) (Or.inl rfl)

theorem handlers.startSession_settled_silence (w : World) (t : String) (d : Int)
    (r : Except String StartData) (h : SilenceInv w) :
    SilenceInv (handlers.startSession_settled w t d r) := by
  have hc := h.clear
  unfold handlers.startSession_settled
  split
  · left; simp [hc, silenceTimer.guardsPass]
  · exact h

theorem sessionTimer.tick_silence (w : World) (h : SilenceInv w) :
    SilenceInv (sessionTimer.tick w) := by
  have keep : ∀ v : World, v.timeouts = w.timeouts → v.silenceH = w.silenceH →
      v.uiState = w.uiState → v.streamActive = w.streamActive → SilenceInv v := by
    intro v h1 h2 h3 h4
    exact h.of_frame h1 h2 (by
        rcases h with h0 | ⟨x, _, _, g3, _⟩
        · exact Or.inr (by rw [h1, h0])
        · exact Or.inl (by rw [h3]; exact g3)) (Or.inl h4)
  unfold sessionTimer.tick
  dsimp only
  split
  · split
    · exact keep _ (by simp) (by simp) (by simp) (by simp)
    · split
      · exact keep _ (by simp) (by simp) (by simp) (by simp)
      · exact handlers.endSession_silence _ true (keep _ (by simp) (by simp) (by simp) (by simp))
  · exact keep _ (by simp) (by simp) (by simp) (by simp)

theorem init_settled_silence (w : World) (s : Snapshot) (st : Option Nat)
    (h : SilenceInv w) : SilenceInv (init_settled w s st) := by
  have hc := h.clear
  unfold init_settled persist.restore_settled
  cases st with
  | none => exact h.of_frame rfl rfl (Or.inl (by simp)) (Or.inl rfl)
  | some code =>
    by_cases h4 : code = 404
    · simp only [h4, if_true]
      exact h.of_frame rfl rfl (Or.inl (by simp)) (Or.inl rfl)
    · simp only [h4, if_false]
      exact silenceTimer.reset_inv _ (h.of_frame (by simp) (by simp) (Or.inl (by simp)) (Or.inl (by simp)))


theorem SilenceInv.keep {w v : World} (h : SilenceInv w)
    (h1 : v.timeouts = w.timeouts) (h2 : v.silenceH = w.silenceH)
    (h3 : v.uiState = w.uiState)
    (h4 : v.streamActive = w.streamActive ∨ v.streamActive = false) : SilenceInv v := by
  refine h.of_frame h1 h2 ?_ ?_
  · rcases h with h0 | ⟨x, _, _, g3, _⟩
    · exact Or.inr (by rw [h1, h0])
    · exact Or.inl (by rw [h3]; exact g3)
  · rcases h4 with h4 | h4
    · exact Or.inl h4
    · exact Or.inr (Or.inl h4)

theorem SilenceInv.nil_of_streamActive {w : World} (h : SilenceInv w)
    (hs : w.streamActive = true) : w.timeouts = [] := by
  rcases h with h0 | ⟨x, _, _, _, g4⟩
  · exact h0
  · rw [hs] at g4; cases g4

theorem silenceTimer.reset_silence (w : World)
    (hc : clearHandle w.silenceH w.timeouts = []) : SilenceInv (silenceTimer.reset w) := by
  rw [silenceTimer.reset_eq]
  by_cases hg : silenceTimer.guardsPass w = true
  · right
    refine ⟨w.nextId, ?_⟩
    simp only [silenceTimer.guardsPass, Bool.and_eq_true, Bool.not_eq_true', beq_iff_eq] at hg
    simp [hc, silenceTimer.guardsPass, hg]
  · left
    simp [hg, hc]

theorem handlers.sendMessage_settled_silence (w : World) (r : StreamEnd) (h : SilenceInv w) :
    SilenceInv (handlers.sendMessage_settled w r) := by
  have hc := h.clear
  have fin : ∀ v : World, SilenceInv v → SilenceInv { v with streamActive := false } :=
    fun v hv => hv.keep rfl rfl rfl (Or.inr rfl)
  unfold handlers.sendMessage_settled
  apply fin
  cases r with
  | done d =>
    dsimp only
    split
    · split
      · exact handlers.endSession_silence _ true (h.keep rfl rfl rfl (Or.inr rfl))
      · exact h.keep rfl rfl rfl (Or.inr rfl)
    · split
      · exact handlers.raiseHand_silence _
          (h.of_frame (by simp) (by simp) (Or.inl (by simp)) (Or.inr (Or.inl (by simp))))
      · exact silenceTimer.reset_silence _ (by simpa using hc)
  | eof => exact h
  | error m =>
    dsimp only
    split
    · exact handlers.endSession_silence _ true (h.keep rfl rfl rfl (Or.inr rfl))
    · split
      · exact silenceTimer.reset_silence _ (by simpa using hc)
      · exact h.keep rfl rfl rfl (Or.inr rfl)

theorem handlers.aiSpeak_settled_silence (w : World) (r : StreamEnd) (h : SilenceInv w)
    (hs : w.streamActive = true) : SilenceInv (handlers.aiSpeak_settled w r) := by
  have hc := h.clear
  have h0 := h.nil_of_streamActive hs
  have fin : ∀ v : World, SilenceInv v →
      SilenceInv { v with aiRequestInFlight := false, streamActive := false } :=
    fun v hv => hv.keep rfl rfl rfl (Or.inr rfl)
  unfold handlers.aiSpeak_settled
  apply fin
  cases r with
  | done d =>
    dsimp only
    split
    · split
      · exact handlers.endSession_silence _ true (h.keep rfl rfl rfl (Or.inr rfl))
      · exact h.keep rfl rfl rfl (Or.inr rfl)
    · split
      · exact handlers.raiseHand_silence _
          (h.of_frame (by simp) (by simp) (Or.inl (by simp)) (Or.inr (Or.inl (by simp))))
      · split
        · exact silenceTimer.reset_silence _ (by simpa using hc)
        · left; simpa using h0
  | eof => exact h
  | error m =>
    dsimp only
    split
    · left; simp [hc]
    · split
      · split
        · left; simpa using h0
        · exact h.keep rfl rfl rfl (Or.inr rfl)
      · split
        · exact handlers.endSession_silence _ true (h.keep rfl rfl rfl (Or.inr rfl))
        · split
          · exact silenceTimer.reset_silence _ (by simpa using hc)
          · exact h.keep rfl rfl rfl (Or.inr rfl)


theorem step_silence (w : World) (e : Event) (hs : StreamInv w) (h : SilenceInv w) :
    SilenceInv (step w e) := by
  cases e with
  | clickStart t d => exact handlers.startSession_silence w t d h
  | clickEnd => exact handlers.endSession_silence w false h
  | clickRaiseHand => exact handlers.raiseHand_silence w h
  | clickSend input => exact handlers.sendMessage_silence w input h
  | callAiSpeak => exact handlers.aiSpeak_silence w h
  | sessionTick hd =>
    simp only [step]
    split
    · exact sessionTimer.tick_silence w h
    · exact h
  | silenceFire hd =>
    simp only [step]
    split
    · next hm =>
      have h1 : SilenceInv { w with timeouts := w.timeouts.erase hd } := by
        left
        rcases h with h0 | ⟨x, _, g2, _, _⟩
        · simp [h0]
        · rw [g2] at hm
          simp at hm
          simp [g2, hm]
      unfold silenceTimer.fire
      split
      · exact handlers.aiSpeak_silence _ h1
      · exact h1
    · exact h
  | retryFire =>
    simp only [step]
    split
    · exact silenceTimer.reset_silence _ (by simpa using h.clear)
    · exact h
  | startSettled t d r =>
    simp only [step]
    split
    · exact handlers.startSession_settled_silence _ t d r (h.keep rfl rfl rfl (Or.inl rfl))
    · exact h
  | raiseHandSettled r =>
    simp only [step]
    split
    · exact handlers.raiseHand_settled_silence _ r (h.keep rfl rfl rfl (Or.inl rfl))
    · exact h
  | streamToken id text =>
    simp only [step]
    split
    · unfold consumeToken
      split
      · exact h.keep (by simp) (by simp) (by simp) (Or.inl (by simp))
      · exact h.keep (by simp) (by simp) (by simp) (Or.inl (by simp))
    · exact h
  | streamEnded id r =>
    simp only [step]
    split
    · next s hfind =>
      have hact : w.streamActive = true := by
        rcases hs with ⟨h1, _, _⟩ | ⟨s0, _, h2, _⟩
        · simp [h1] at hfind
        · exact h2
      unfold consumeEnd
      have h1 : SilenceInv
          (match r with
            | StreamEnd.error _ =>
              { w with streams := w.streams.filter (fun t => t.id != s.id) }
            | _ =>
              if s.el then
                ui.finalizeStreamingBubble
                  { w with streams := w.streams.filter (fun t => t.id != s.id) } s.id
              else { w with streams := w.streams.filter (fun t => t.id != s.id) }) ∧
          (match r with
            | StreamEnd.error _ =>
              { w with streams := w.streams.filter (fun t => t.id != s.id) }
            | _ =>
              if s.el then
                ui.finalizeStreamingBubble
                  { w with streams := w.streams.filter (fun t => t.id != s.id) } s.id
              else { w with streams := w.streams.filter (fun t => t.id != s.id) }).streamActive
            = true := by
        cases r <;> cases s.el <;>
          exact ⟨h.keep (by simp) (by simp) (by simp) (Or.inl (by simp)), by simpa using hact⟩
      cases s.owner
      · exact handlers.sendMessage_settled_silence _ r h1.1
      · exact handlers.aiSpeak_settled_silence _ r h1.1 h1.2
    · exact h
  | endPoll =>
    simp only [step]
    split
    · exact h.keep (by simp) (by simp) (by simp) (Or.inl (by simp))
    · exact h
  | endHardTimeout =>
    simp only [step]
    split
    · exact h.keep (by simp) (by simp) (by simp) (Or.inl (by simp))
    · exact h
  | endSettled =>
    simp only [step]
    split
    · exact h.keep rfl rfl rfl (Or.inl rfl)
    · exact h
  | probeSettled saved status =>
    simp only [step]
    split
    · exact init_settled_silence _ saved status (h.keep rfl rfl rfl (Or.inl rfl))
    · exact h
  | elapse ms => exact h.keep rfl rfl rfl (Or.inl rfl)

theorem persist.restore_timeouts (w : World) :
    (persist.restore w).1.timeouts = w.timeouts := by
  unfold persist.restore
  split
  · simp
  · simp
  · split
    · simp
    · split <;> simp

theorem init_timeouts (w : World) : (init w).timeouts = w.timeouts := by
  have h := persist.restore_timeouts w
  unfold init
  split
  · next w1 heq =>
    rw [heq] at h
    simpa using h
  · next w1 r hne heq =>
    rw [heq] at h
    simpa using h

theorem run_silence (w : World) (events : List Event) (hs : StreamInv w)
    (h : SilenceInv w) : SilenceInv (run w events) := by
  induction events generalizing w with
  | nil => exact h
  | cons e es ih => exact ih (step w e) (step_inv w e hs) (step_silence w e hs h)

theorem Reachable.silence {w : World} (h : Reachable w) : SilenceInv w := by
  obtain ⟨storage, now, events, rfl⟩ := h
  refine run_silence _ _ (boot_inv storage now) (Or.inl ?_)
  unfold boot
  rw [init_timeouts]
  rfl

/-! ## Requests issued while a stream is open -/

theorem handlers.endSession_raises (w : World) (auto : Bool) :
    (handlers.endSession w auto).requests.filter Request.isRaiseHand =
      w.requests.filter Request.isRaiseHand := by
  by_cases hg : (!w.isActive || w.isEnded) = true
  · simp [handlers.endSession, hg]
  · by_cases hs : w.streamActive = true <;>
      simp [handlers.endSession, hg, hs, Request.isRaiseHand]

theorem handlers.raiseHand_raises (w : World) (hs : w.streamActive = true) :
    (handlers.raiseHand w).requests.filter Request.isRaiseHand =
      w.requests.filter Request.isRaiseHand := by
  unfold handlers.raiseHand
  split
  · rfl
  · split
    · rfl
    · simp [hs]

theorem handlers.aiSpeak_of_streamActive (w : World) (hs : w.streamActive = true) :
    (handlers.aiSpeak w).requests.filter Request.isRaiseHand =
      w.requests.filter Request.isRaiseHand ∧
    (handlers.aiSpeak w).streamActive = true := by
  rw [handlers.aiSpeak_eq]
  simp only [hs]
  split
  · simp_all
  · split <;> simp [hs]

theorem sessionTimer.tick_raises (w : World) :
    (sessionTimer.tick w).requests.filter Request.isRaiseHand =
      w.requests.filter Request.isRaiseHand := by
  unfold sessionTimer.tick
  dsimp only
  split
  · split
    · simp
    · split
      · simp
      · rw [handlers.endSession_raises]; simp
  · simp

theorem handlers.raiseHand_settled_raises (w : World) (r : Except String RaiseData) :
    (handlers.raiseHand_settled w r).requests.filter Request.isRaiseHand =
      w.requests.filter Request.isRaiseHand := by
  unfold handlers.raiseHand_settled
  split
  · split
    · simp
    · split
      · simp
      · split <;> simp
  · split <;> simp

theorem init_settled_raises (w : World) (s : Snapshot) (st : Option Nat) :
    (init_settled w s st).requests.filter Request.isRaiseHand =
      w.requests.filter Request.isRaiseHand := by
  unfold init_settled persist.restore_settled
  cases st with
  | none => simp
  | some code =>
    by_cases h : code = 404 <;> simp [h]

theorem step_while_streaming (w : World) (e : Event) (hs : w.streamActive = true)
    (hne : ∀ id r, e ≠ Event.streamEnded id r) :
    raiseHandCount (step w e) = raiseHandCount w ∧ (step w e).streamActive = true := by
  unfold raiseHandCount
  cases e with
  | clickStart t d =>
    refine ⟨?_, by rw [step, (handlers.startSession_core w t d).2.1, hs]⟩
    simp only [step, handlers.startSession]
    split <;> simp [Request.isRaiseHand]
  | clickEnd =>
    exact ⟨by rw [step, handlers.endSession_raises],
      by rw [step, (handlers.endSession_core w false).2.1, hs]⟩
  | clickRaiseHand =>
    exact ⟨by rw [step, handlers.raiseHand_raises w hs],
      by rw [step, (handlers.raiseHand_core w).2.1, hs]⟩
  | clickSend input => simp [step, handlers.sendMessage, hs]
  | callAiSpeak =>
    have h := handlers.aiSpeak_of_streamActive w hs
    exact ⟨by rw [step, h.1], h.2⟩
  | sessionTick hd =>
    simp only [step]
    split
    · exact ⟨by rw [sessionTimer.tick_raises], by rw [(sessionTimer.tick_core w).2.1, hs]⟩
    · exact ⟨rfl, hs⟩
  | silenceFire hd =>
    simp only [step]
    split
    · unfold silenceTimer.fire
      split
      · have h := handlers.aiSpeak_of_streamActive
          { w with timeouts := w.timeouts.erase hd } hs
        exact ⟨by rw [h.1], h.2⟩
      · exact ⟨rfl, hs⟩
    · exact ⟨rfl, hs⟩
  | retryFire =>
    simp only [step]
    split
    · simp [hs]
    · exact ⟨rfl, hs⟩
  | startSettled t d r =>
    simp only [step]
    split
    · refine ⟨?_, by rw [(handlers.startSession_settled_core _ t d r).2.1]; exact hs⟩
      unfold handlers.startSession_settled
      split <;> simp
    · exact ⟨rfl, hs⟩
  | raiseHandSettled r =>
    simp only [step]
    split
    · exact ⟨by rw [handlers.raiseHand_settled_raises],
        by rw [(handlers.raiseHand_settled_core _ r).2.1]; exact hs⟩
    · exact ⟨rfl, hs⟩
  | streamToken id text =>
    simp only [step]
    split
    · unfold consumeToken
      split <;> simp [hs]
    · exact ⟨rfl, hs⟩
  | streamEnded id r => exact absurd rfl (hne id r)
  | endPoll =>
    simp only [step]
    split
    · simp [hs, Request.isRaiseHand]
    · exact ⟨rfl, hs⟩
  | endHardTimeout =>
    simp only [step]
    split
    · simp [hs, Request.isRaiseHand]
    · exact ⟨rfl, hs⟩
  | endSettled =>
    simp only [step]
    split
    · exact ⟨rfl, hs⟩
    · exact ⟨rfl, hs⟩
  | probeSettled saved status =>
    simp only [step]
    split
    · exact ⟨by rw [init_settled_raises],
        by rw [(init_settled_core _ saved status).2.1]; exact hs⟩
    · exact ⟨rfl, hs⟩
  | elapse ms => exact ⟨rfl, hs⟩

theorem consumeEnd_done_pending (w : World) (s : Stream) (d : Done)
    (hp : w.handRaisedPending = true) (ha : w.isActive = true) (he : w.isEnded = false)
    (hpe : w.pendingEnd = false) :
    raiseHandCount (consumeEnd w s (StreamEnd.done d)) = raiseHandCount w + 1 ∧
    (consumeEnd w s (StreamEnd.done d)).handRaisedPending = false := by
  unfold consumeEnd
  cases ho : s.owner <;> cases hel : s.el <;>
    simp [handlers.sendMessage_settled, handlers.aiSpeak_settled, handlers.raiseHand,
      hp, ha, he, hpe, raiseHandCount, Request.isRaiseHand]

theorem consumeEnd_error_raises (w : World) (s : Stream) (msg : String) :
    raiseHandCount (consumeEnd w s (StreamEnd.error msg)) = raiseHandCount w := by
  unfold consumeEnd raiseHandCount
  cases ho : s.owner
  · cases hpe : w.pendingEnd
    · cases he : w.isEnded <;> simp [handlers.sendMessage_settled, hpe, he]
    · simp [handlers.sendMessage_settled, hpe, handlers.endSession_raises]
  · cases hf : isFatal msg
    · cases hc : isConflict msg
      · cases hpe : w.pendingEnd
        · cases he : w.isEnded <;> simp [handlers.aiSpeak_settled, hf, hc, hpe, he]
        · simp [handlers.aiSpeak_settled, hf, hc, hpe, handlers.endSession_raises]
      · cases hpe : w.pendingEnd <;> cases he : w.isEnded <;>
          simp [handlers.aiSpeak_settled, hf, hc, hpe, he]
    · simp [handlers.aiSpeak_settled, hf]

/-! ## The local path of `raiseHand` -/

/-- In an active, not-ended session with a stream open, `raiseHand` called in one of the
two states its guard lets through records the intent and moves to `QUEUED`; it changes
nothing else and issues no request. -/
theorem handlers.raiseHand_queues (w : World) (ha : w.isActive = true)
    (he : w.isEnded = false) (hs : w.streamActive = true)
    (hu : w.uiState = UiState.AI_SPEAKING ∨ w.uiState = UiState.WAITING_FOR_HAND) :
    handlers.raiseHand w = { w with handRaisedPending := true, uiState := UiState.QUEUED } := by
  rcases hu with hu | hu <;> simp [handlers.raiseHand, ha, he, hs, hu]

/-! ## Reachability -/

theorem reachable_run {w : World} (h : Reachable w) (events : List Event) :
    Reachable (run w events) := by
  obtain ⟨storage, now, pre, rfl⟩ := h
  exact ⟨storage, now, pre ++ events, by simp [run, List.foldl_append]⟩

theorem reachable_boot (storage : Option Stored) (now : Int) : Reachable (boot storage now) :=
  ⟨storage, now, [], rfl⟩

/-! ## The dedup counter of `ui.appendMessage` -/

theorem appendAll_suppressed (msgs : List (String × String)) (w : World)
    (h : msgs.length ≤ w.restoredMsgCount) :
    appendAll w msgs = { w with restoredMsgCount := w.restoredMsgCount - msgs.length } := by
  induction msgs generalizing w with
  | nil => simp [appendAll]
  | cons m ms ih =>
    have hpos : 0 < w.restoredMsgCount := by
      simp only [List.length_cons] at h
      omega
    have h1 : ms.length ≤ (ui.appendMessage w m.1 m.2).restoredMsgCount := by
      simp only [List.length_cons] at h
      simp
      omega
    have := ih (ui.appendMessage w m.1 m.2) h1
    simp only [appendAll, List.foldl_cons] at this ⊢
    rw [this]
    simp [hpos]
    omega

theorem appendAll_zero (msgs : List (String × String)) (w : World)
    (h : w.restoredMsgCount = 0) : (appendAll w msgs).restoredMsgCount = 0 := by
  induction msgs generalizing w with
  | nil => simpa [appendAll] using h
  | cons m ms ih =>
    simp only [appendAll, List.foldl_cons]
    exact ih _ (by simp [h])

/-! ## Ticks of the session countdown -/

theorem run_append (w : World) (xs ys : List Event) : run w (xs ++ ys) = run (run w xs) ys := by
  simp [run, List.foldl_append]

theorem run_live_ticks (k : Nat) (w : World) (h : Nat) (hl : h ∈ w.intervals)
    (hk : (k : Int) < w.sessionLeft) :
    run w (List.replicate k (Event.sessionTick h)) =
      { w with sessionLeft := w.sessionLeft - k } := by
  induction k generalizing w with
  | zero => simp [run]
  | succ n ih =>
    have h1 : step w (Event.sessionTick h) = { w with sessionLeft := w.sessionLeft - 1 } := by
      have : ¬ (w.sessionLeft - 1 ≤ 0) := by push_cast at hk; omega
      simp [step, hl, sessionTimer.tick, this]
    simp only [List.replicate_succ, run, List.foldl_cons]
    rw [h1]
    have hk2 : (n : Int) < w.sessionLeft - 1 := by push_cast at hk; omega
    have := ih { w with sessionLeft := w.sessionLeft - 1 } hl hk2
    simp only [run] at this
    rw [this]
    have e : w.sessionLeft - 1 - (n : Int) = w.sessionLeft - ((n + 1 : Nat) : Int) := by
      push_cast; omega
    simp [e]

theorem run_dead_ticks (j : Nat) (z : World) (h : Nat) (hd : h ∉ z.intervals) :
    run z (List.replicate j (Event.sessionTick h)) = z := by
  induction j with
  | zero => simp [run]
  | succ n ih =>
    simp only [List.replicate_succ, run, List.foldl_cons]
    have : step z (Event.sessionTick h) = z := by simp [step, hd]
    rw [this]
    exact ih

theorem erase_append_fresh (l : List Nat) (h : Nat) (hf : h ∉ l) : (l ++ [h]).erase h = l := by
  rw [List.erase_append_right _ hf]
  simp


theorem handlers.endSession_intervals (w : World) (auto : Bool) (h : w.sessionH = none) :
    (handlers.endSession w auto).intervals = w.intervals ∧
    (handlers.endSession w auto).sessionH = none ∧
    (handlers.endSession w auto).sessionLeft = w.sessionLeft := by
  by_cases hg : (!w.isActive || w.isEnded) = true
  · simp [handlers.endSession, hg, h]
  · by_cases hs : w.streamActive = true <;> simp [handlers.endSession, hg, hs, h]

/-! ## The end of a stream with an end pending -/

theorem consumeEnd_deferred_end (w : World) (s : Stream) (r : StreamEnd)
    (hp : w.pendingEnd = true) (ha : w.isActive = true) (he : w.isEnded = false)
    (hr : (∃ d, r = StreamEnd.done d) ∨
      (∃ msg, r = StreamEnd.error msg ∧
        (s.owner = Owner.sendMessage ∨ (isFatal msg = false ∧ isConflict msg = false)))) :
    (consumeEnd w s r).isEnded = true ∧
    (consumeEnd w s r).uiState = UiState.ENDED ∧
    (consumeEnd w s r).pendingEnd = false ∧
    (consumeEnd w s r).streamActive = false ∧
    (consumeEnd w s r).requests = w.requests ++ [Request.endSession w.sessionId] := by
  unfold consumeEnd
  rcases hr with ⟨d, rfl⟩ | ⟨msg, rfl, hm⟩
  · cases ho : s.owner <;> cases hel : s.el <;>
      simp [handlers.sendMessage_settled, handlers.aiSpeak_settled, handlers.endSession,
        hp, ha, he]
  · cases ho : s.owner
    · simp [handlers.sendMessage_settled, handlers.endSession, hp, ha, he]
    · rcases hm with hm | ⟨hf, hc⟩
      · rw [ho] at hm; cases hm
      · simp [handlers.aiSpeak_settled, handlers.endSession, hp, ha, he, hf, hc]

theorem consumeEnd_gone (w : World) (s : Stream) (msg : String)
    (ho : s.owner = Owner.aiSpeak) (hf : isFatal msg = true) :
    (consumeEnd w s (StreamEnd.error msg)).isEnded = true ∧
    (consumeEnd w s (StreamEnd.error msg)).uiState = UiState.ENDED ∧
    (consumeEnd w s (StreamEnd.error msg)).pendingEnd = false ∧
    (consumeEnd w s (StreamEnd.error msg)).streamActive = false ∧
    (consumeEnd w s (StreamEnd.error msg)).requests = w.requests := by
  unfold consumeEnd
  simp [ho, handlers.aiSpeak_settled, hf]

/-! ## The evaluation is requested at most once -/

theorem EndInv.carry {w v : World} (h : EndInv w)
    (hr : v.requests.filter Request.isEndSession = w.requests.filter Request.isEndSession)
    (hp : v.pending = w.pending ∨ ∃ t, v.pending = w.pending ++ [t] ∧ t ≠ Task.endDrain)
    (he : w.isEnded = true → v.isEnded = true) : EndInv v := by
  have h2 : evaluationCount w + w.pending.count Task.endDrain ≤
      (if w.isEnded then 1 else 0) := h
  have hc : v.pending.count Task.endDrain = w.pending.count Task.endDrain := by
    rcases hp with hp | ⟨t, hp, ht⟩
    · rw [hp]
    · rw [hp, List.count_append, List.count_singleton]
      have : (t == Task.endDrain) = false := by simpa using ht
      simp [this]
  show evaluationCount v + v.pending.count Task.endDrain ≤ (if v.isEnded then 1 else 0)
  have hmono : (if w.isEnded = true then 1 else 0) ≤ (if v.isEnded = true then 1 else 0) := by
    cases hw : w.isEnded
    · cases v.isEnded <;> simp
    · simp [he hw]
  unfold evaluationCount at *
  rw [hr, hc]
  exact le_trans h2 hmono

theorem EndInv.erase {w : World} (h : EndInv w) (t : Task) (ht : t ≠ Task.endDrain) :
    EndInv { w with pending := w.pending.erase t } := by
  have h2 : evaluationCount w + w.pending.count Task.endDrain ≤
      (if w.isEnded then 1 else 0) := h
  have hc : (w.pending.erase t).count Task.endDrain = w.pending.count Task.endDrain := by
    rw [List.count_erase_of_ne (Ne.symm ht)]
  show evaluationCount { w with pending := w.pending.erase t } +
    (w.pending.erase t).count Task.endDrain ≤ (if w.isEnded then 1 else 0)
  simpa [evaluationCount, hc] using h2

theorem EndInv.drain {w : World} (h : EndInv w) (hm : Task.endDrain ∈ w.pending) :
    EndInv (handlers.endSession_evaluate { w with pending := w.pending.erase Task.endDrain }) := by
  have h2 : evaluationCount w + w.pending.count Task.endDrain ≤
      (if w.isEnded then 1 else 0) := h
  have hpos : 0 < w.pending.count Task.endDrain := List.count_pos_iff.mpr hm
  have hc : (w.pending.erase Task.endDrain).count Task.endDrain =
      w.pending.count Task.endDrain - 1 := by
    rw [List.count_erase_self]
  unfold EndInv
  unfold evaluationCount at *
  simp [handlers.endSession_evaluate, issue, List.count_append, hc, Request.isEndSession]
  omega

theorem handlers.endSession_end (w : World) (auto : Bool) (h : EndInv w) :
    EndInv (handlers.endSession w auto) := by
  by_cases hg : (!w.isActive || w.isEnded) = true
  · simpa [handlers.endSession, hg] using h
  · have h2 : evaluationCount w + w.pending.count Task.endDrain ≤
        (if w.isEnded then 1 else 0) := h
    have he : w.isEnded = false := by
      cases hw : w.isEnded
      · rfl
      · simp [hw] at hg
    rw [he] at h2
    have h3 : evaluationCount w = 0 ∧ w.pending.count Task.endDrain = 0 := by
      simp only [Bool.false_eq_true, if_false] at h2
      omega
    unfold evaluationCount at h3
    unfold EndInv
    by_cases hs : w.streamActive = true
    · simp [handlers.endSession, hg, hs, evaluationCount, List.count_append, h3.1, h3.2]
    · simp [handlers.endSession, hg, hs, evaluationCount, List.count_append, h3.1, h3.2,
        Request.isEndSession]


theorem EndInv.same {w v : World} (h : EndInv w)
    (hr : v.requests.filter Request.isEndSession = w.requests.filter Request.isEndSession)
    (hp : v.pending = w.pending) (he : w.isEnded = true → v.isEnded = true) : EndInv v :=
  h.carry hr (Or.inl hp) he

theorem EndInv.push {w v : World} (h : EndInv w) (t : Task)
    (hr : v.requests.filter Request.isEndSession = w.requests.filter Request.isEndSession)
    (hp : v.pending = w.pending ++ [t]) (ht : t ≠ Task.endDrain)
    (he : w.isEnded = true → v.isEnded = true) : EndInv v :=
  h.carry hr (Or.inr ⟨t, hp, ht⟩) he

theorem silenceTimer.reset_end (w : World) (h : EndInv w) : EndInv (silenceTimer.reset w) :=
  h.same (by simp) (by simp) (by simp)

theorem handlers.raiseHand_end (w : World) (h : EndInv w) : EndInv (handlers.raiseHand w) := by
  unfold handlers.raiseHand
  split
  · exact h
  · split
    · exact h
    · split
      · exact h.same (by simp) (by simp) (by simp)
      · exact h.push Task.raiseHand (by simp [Request.isEndSession]) (by simp)
          (by decide) (by simp)

theorem handlers.raiseHand_settled_end (w : World) (r : Except String RaiseData)
    (h : EndInv w) : EndInv (handlers.raiseHand_settled w r) := by
  unfold handlers.raiseHand_settled
  split
  · split
    · exact h.same (by simp) (by simp) (by simp)
    · split
      · exact h.same (by simp) (by simp) (by simp)
      · split
        · exact h.same (by simp) (by simp) (by simp)
        · exact h
  · split
    · exact h.same (by simp) (by simp) (by simp)
    · exact h.same (by simp) (by simp) (by simp)

theorem handlers.sendMessage_end (w : World) (input : String) (h : EndInv w) :
    EndInv (handlers.sendMessage w input) := by
  unfold handlers.sendMessage
  split
  · exact h
  · split
    · exact h
    · dsimp only
      split
      · exact h
      · exact h.same (by simp [Request.isEndSession]) (by simp) (by simp)

theorem handlers.aiSpeak_end (w : World) (h : EndInv w) : EndInv (handlers.aiSpeak w) := by
  rw [handlers.aiSpeak_eq]
  split
  · exact h.same (by simp [Request.isEndSession]) (by simp) (by simp)
  · split
    · exact h.same (by simp) (by simp) (by simp)
    · exact h

theorem handlers.startSession_end (w : World) (t d : String) (h : EndInv w) :
    EndInv (handlers.startSession w t d) := by
  unfold handlers.startSession
  split
  · exact h
  · next topic duration _ =>
    exact h.push (Task.start topic duration) (by simp [Request.isEndSession]) (by simp)
      (by simp) (by simp)

theorem handlers.startSession_settled_end (w : World) (t : String) (d : Int)
    (r : Except String StartData) (h : EndInv w) :
    EndInv (handlers.startSession_settled w t d r) := by
  unfold handlers.startSession_settled
  split
  · exact h.same (by simp) (by simp) (by simp)
  · exact h

theorem sessionTimer.tick_end (w : World) (h : EndInv w) : EndInv (sessionTimer.tick w) := by
  unfold sessionTimer.tick
  dsimp only
  split
  · split
    · exact h.same (by simp) (by simp) (by simp)
    · split
      · exact h.same (by simp) (by simp) (by simp)
      · exact handlers.endSession_end _ true (h.same (by simp) (by simp) (by simp))
  · exact h.same (by simp) (by simp) (by simp)

theorem handlers.sendMessage_settled_end (w : World) (r : StreamEnd) (h : EndInv w) :
    EndInv (handlers.sendMessage_settled w r) := by
  have fin : ∀ v : World, EndInv v → EndInv { v with streamActive := false } :=
    fun v hv => hv.same rfl rfl id
  unfold handlers.sendMessage_settled
  apply fin
  cases r with
  | done d =>
    dsimp only
    split
    · split
      · exact handlers.endSession_end _ true (h.same rfl rfl id)
      · exact h.same rfl rfl id
    · split
      · exact handlers.raiseHand_end _ (h.same (by simp) (by simp) (by simp))
      · exact h.same (by simp) (by simp) (by simp)
  | eof => exact h
  | error m =>
    dsimp only
    split
    · exact handlers.endSession_end _ true (h.same rfl rfl id)
    · split
      · exact h.same (by simp) (by simp) (by simp)
      · exact h.same rfl rfl id

theorem handlers.aiSpeak_settled_end (w : World) (r : StreamEnd) (h : EndInv w) :
    EndInv (handlers.aiSpeak_settled w r) := by
  have fin : ∀ v : World, EndInv v →
      EndInv { v with aiRequestInFlight := false, streamActive := false } :=
    fun v hv => hv.same rfl rfl id
  unfold handlers.aiSpeak_settled
  apply fin
  cases r with
  | done d =>
    dsimp only
    split
    · split
      · exact handlers.endSession_end _ true (h.same rfl rfl id)
      · exact h.same rfl rfl id
    · split
      · exact handlers.raiseHand_end _ (h.same (by simp) (by simp) (by simp))
      · split
        · exact h.same (by simp) (by simp) (by simp)
        · exact h.same (by simp) (by simp) (by simp)
  | eof => exact h
  | error m =>
    dsimp only
    split
    · exact h.same (by simp) (by simp) (by simp)
    · split
      · split
        · exact h.push Task.retry (by simp) (by simp) (by decide) (by simp)
        · exact h.same rfl rfl id
      · split
        · exact handlers.endSession_end _ true (h.same rfl rfl id)
        · split
          · exact h.same (by simp) (by simp) (by simp)
          · exact h.same rfl rfl id

theorem init_settled_pending (w : World) (s : Snapshot) (st : Option Nat) :
    (init_settled w s st).pending = w.pending := by
  unfold init_settled persist.restore_settled
  cases st with
  | none => simp
  | some code =>
    by_cases h : code = 404 <;> simp [h]

theorem init_settled_ended (w : World) (s : Snapshot) (st : Option Nat)
    (h : probeSucceeds st = false) :
    (init_settled w s st).requests = w.requests ∧ (init_settled w s st).isEnded = w.isEnded := by
  unfold init_settled persist.restore_settled
  cases st with
  | none => simp
  | some code =>
    have hc : code = 404 := by simpa [probeSucceeds] using h
    simp [hc]

theorem init_settled_evaluations (w : World) (s : Snapshot) (st : Option Nat) :
    (init_settled w s st).requests.filter Request.isEndSession =
      w.requests.filter Request.isEndSession := by
  unfold init_settled persist.restore_settled
  cases st with
  | none => simp
  | some code =>
    by_cases h : code = 404 <;> simp [h]

theorem step_end (w : World) (e : Event) (h : EndInv w)
    (hp : ∀ saved status, e = Event.probeSettled saved status → Task.probe saved ∈ w.pending →
      w.isEnded = true → probeSucceeds status = false) : EndInv (step w e) := by
  cases e with
  | clickStart t d => exact handlers.startSession_end w t d h
  | clickEnd => exact handlers.endSession_end w false h
  | clickRaiseHand => exact handlers.raiseHand_end w h
  | clickSend input => exact handlers.sendMessage_end w input h
  | callAiSpeak => exact handlers.aiSpeak_end w h
  | sessionTick hd =>
    simp only [step]
    split
    · exact sessionTimer.tick_end w h
    · exact h
  | silenceFire hd =>
    simp only [step]
    split
    · unfold silenceTimer.fire
      split
      · exact handlers.aiSpeak_end _ (h.same rfl rfl id)
      · exact h.same rfl rfl id
    · exact h
  | retryFire =>
    simp only [step]
    split
    · exact silenceTimer.reset_end _ (h.erase Task.retry (by decide))
    · exact h
  | startSettled t d r =>
    simp only [step]
    split
    · exact handlers.startSession_settled_end _ t d r (h.erase _ (by simp))
    · exact h
  | raiseHandSettled r =>
    simp only [step]
    split
    · exact handlers.raiseHand_settled_end _ r (h.erase _ (by decide))
    · exact h
  | streamToken id text =>
    simp only [step]
    split
    · unfold consumeToken
      split
      · exact h.same (by simp) (by simp) (by simp)
      · exact h.same (by simp) (by simp) (by simp)
    · exact h
  | streamEnded id r =>
    clear hp
    simp only [step]
    split
    · next s hfind =>
      unfold consumeEnd
      have h1 : EndInv
          (match r with
            | StreamEnd.error _ =>
              { w with streams := w.streams.filter (fun t => t.id != s.id) }
            | _ =>
              if s.el then
                ui.finalizeStreamingBubble
                  { w with streams := w.streams.filter (fun t => t.id != s.id) } s.id
              else { w with streams := w.streams.filter (fun t => t.id != s.id) }) := by
        cases r <;> cases s.el <;> exact h.same (by simp) (by simp) (by simp)
      cases s.owner
      · exact handlers.sendMessage_settled_end _ r h1
      · exact handlers.aiSpeak_settled_end _ r h1
    · exact h
  | endPoll =>
    simp only [step]
    split
    · next hc => exact EndInv.drain h hc.1
    · exact h
  | endHardTimeout =>
    simp only [step]
    split
    · next hc => exact EndInv.drain h hc
    · exact h
  | endSettled =>
    simp only [step]
    split
    · exact h.erase _ (by decide)
    · exact h
  | probeSettled saved status =>
    simp only [step]
    split
    · next hc =>
      refine (h.erase (Task.probe saved) (by simp)).same (init_settled_evaluations _ _ _)
        (init_settled_pending _ _ _) ?_
      intro he
      rw [(init_settled_ended _ saved status (hp saved status rfl hc he)).2]
      exact he
    · exact h
  | elapse ms => exact h.same rfl rfl id

theorem run_end (w : World) (events : List Event) (h : EndInv w)
    (hp : revivesEnded w events = false) : EndInv (run w events) := by
  induction events generalizing w with
  | nil => exact h
  | cons e es ih =>
    simp only [revivesEnded, Bool.or_eq_false_iff] at hp
    refine ih (step w e) (step_end w e h ?_) hp.2
    intro saved status he hm hended
    have h1 := hp.1
    rw [he] at h1
    simpa [hm, hended] using h1

theorem boot_end (storage : Option Stored) (now : Int) : EndInv (boot storage now) := by
  have hr : (boot storage now).requests.filter Request.isEndSession = [] := by
    cases storage with
    | none => simp [boot, init, persist.restore, World.blank, ui.setFloor]
    | some st =>
      cases st with
      | unparsable => simp [boot, init, persist.restore, World.blank, ui.setFloor]
      | snap saved =>
        by_cases h1 : saved.sessionId = ""
        · simp [boot, init, persist.restore, World.blank, ui.setFloor, h1]
        · by_cases h2 : 7200000 < now - saved.savedAt
          · simp [boot, init, persist.restore, World.blank, ui.setFloor, persist.clear, h1, h2]
          · simp [boot, init, persist.restore, World.blank, issue, Request.isEndSession, h1, h2]
  have hc : (boot storage now).pending.count Task.endDrain = 0 := by
    cases storage with
    | none => simp [boot, init, persist.restore, World.blank, ui.setFloor]
    | some st =>
      cases st with
      | unparsable => simp [boot, init, persist.restore, World.blank, ui.setFloor]
      | snap saved =>
        by_cases h1 : saved.sessionId = ""
        · simp [boot, init, persist.restore, World.blank, ui.setFloor, h1]
        · by_cases h2 : 7200000 < now - saved.savedAt
          · simp [boot, init, persist.restore, World.blank, ui.setFloor, persist.clear, h1, h2]
          · simp [boot, init, persist.restore, World.blank, issue, h1, h2]
  unfold EndInv evaluationCount
  rw [hr, hc]
  simp

theorem handlers.endSession_guard (w : World) (auto : Bool)
    (h : w.isActive = false ∨ w.isEnded = true) : handlers.endSession w auto = w := by
  rcases h with h | h <;> simp [handlers.endSession, h]

theorem handlers.endSession_ended (w : World) (auto : Bool) :
    (handlers.endSession w auto).isActive = false ∨ (handlers.endSession w auto).isEnded = true := by
  by_cases hg : (!w.isActive || w.isEnded) = true
  · have : w.isActive = false ∨ w.isEnded = true := by
      cases ha : w.isActive <;> cases he : w.isEnded <;> simp [ha, he] at hg ⊢
    rw [handlers.endSession_guard w auto this]
    exact this
  · by_cases hs : w.streamActive = true <;> simp [handlers.endSession, hg, hs]

theorem handlers.endSession_evaluations (w : World) (auto : Bool) :
    evaluationCount (handlers.endSession w auto) ≤ evaluationCount w + 1 := by
  by_cases hg : (!w.isActive || w.isEnded) = true
  · simp [handlers.endSession, hg]
  · by_cases hs : w.streamActive = true <;>
      simp [handlers.endSession, hg, hs, evaluationCount, Request.isEndSession]

/-! ## The turn counter and the auto-speak requests across the handlers -/

theorem silenceTimer.reset_quiet (w : World) :
    (silenceTimer.reset w).turnCount = w.turnCount ∧
    (silenceTimer.reset w).requests = w.requests ∧
    (silenceTimer.reset w).streams = w.streams := by
  rw [silenceTimer.reset_eq]
  split <;> simp

theorem handlers.endSession_quiet (w : World) (auto : Bool) :
    (handlers.endSession w auto).turnCount = w.turnCount ∧
    (handlers.endSession w auto).requests.filter Request.isAiSpeak =
      w.requests.filter Request.isAiSpeak := by
  by_cases hg : (!w.isActive || w.isEnded) = true
  · simp [handlers.endSession, hg]
  · by_cases hs : w.streamActive = true <;>
      simp [handlers.endSession, handlers.endSession_evaluate, issue, hg, hs, Request.isAiSpeak]

theorem handlers.raiseHand_quiet (w : World) :
    (handlers.raiseHand w).turnCount = w.turnCount ∧
    (handlers.raiseHand w).requests.filter Request.isAiSpeak =
      w.requests.filter Request.isAiSpeak := by
  unfold handlers.raiseHand
  split
  · simp
  · split
    · simp
    · split <;> simp [issue, Request.isAiSpeak]

theorem handlers.raiseHand_settled_quiet (w : World) (r : Except String RaiseData) :
    (handlers.raiseHand_settled w r).turnCount = w.turnCount ∧
    (handlers.raiseHand_settled w r).requests.filter Request.isAiSpeak =
      w.requests.filter Request.isAiSpeak := by
  unfold handlers.raiseHand_settled
  split
  · split
    · simp
    · split
      · simp
      · split <;> simp
  · split
    · simp
    · simp [(silenceTimer.reset_quiet _).1, (silenceTimer.reset_quiet _).2.1]

theorem handlers.sendMessage_settled_quiet (w : World) (r : StreamEnd) :
    (handlers.sendMessage_settled w r).turnCount = w.turnCount ∧
    (handlers.sendMessage_settled w r).requests.filter Request.isAiSpeak =
      w.requests.filter Request.isAiSpeak := by
  unfold handlers.sendMessage_settled
  cases r with
  | done d =>
    dsimp only
    split
    · split
      · simp [handlers.endSession_quiet]
      · simp
    · split
      · simp [handlers.raiseHand_quiet]
      · simp [(silenceTimer.reset_quiet _).1, (silenceTimer.reset_quiet _).2.1]
  | eof => simp
  | error m =>
    dsimp only
    split
    · simp [handlers.endSession_quiet]
    · split
      · simp [(silenceTimer.reset_quiet _).1, (silenceTimer.reset_quiet _).2.1]
      · simp

theorem handlers.aiSpeak_settled_quiet (w : World) (r : StreamEnd) :
    (handlers.aiSpeak_settled w r).turnCount = w.turnCount ∧
    (handlers.aiSpeak_settled w r).requests.filter Request.isAiSpeak =
      w.requests.filter Request.isAiSpeak := by
  unfold handlers.aiSpeak_settled
  cases r with
  | done d =>
    dsimp only
    split
    · split
      · simp [handlers.endSession_quiet]
      · simp
    · split
      · simp [handlers.raiseHand_quiet]
      · split
        · simp [(silenceTimer.reset_quiet _).1, (silenceTimer.reset_quiet _).2.1]
        · simp
  | eof => simp
  | error m =>
    dsimp only
    split
    · simp
    · split
      · split <;> simp
      · split
        · simp [handlers.endSession_quiet]
        · split
          · simp [(silenceTimer.reset_quiet _).1, (silenceTimer.reset_quiet _).2.1]
          · simp

theorem handlers.startSession_quiet (w : World) (t d : String) :
    (handlers.startSession w t d).turnCount = w.turnCount ∧
    (handlers.startSession w t d).requests.filter Request.isAiSpeak =
      w.requests.filter Request.isAiSpeak := by
  unfold handlers.startSession
  split <;> simp [issue, Request.isAiSpeak]

theorem handlers.startSession_settled_quiet (w : World) (t : String) (d : Int)
    (r : Except String StartData) :
    (handlers.startSession_settled w t d r).turnCount = w.turnCount ∧
    (handlers.startSession_settled w t d r).requests.filter Request.isAiSpeak =
      w.requests.filter Request.isAiSpeak := by
  unfold handlers.startSession_settled
  split
  · simp [(silenceTimer.reset_quiet _).1, (silenceTimer.reset_quiet _).2.1, sessionTimer.start]
  · simp

theorem sessionTimer.tick_quiet (w : World) :
    (sessionTimer.tick w).turnCount = w.turnCount ∧
    (sessionTimer.tick w).requests.filter Request.isAiSpeak =
      w.requests.filter Request.isAiSpeak := by
  unfold sessionTimer.tick
  dsimp only
  split
  · split
    · simp
    · split
      · simp
      · simp [handlers.endSession_quiet]
  · simp

theorem handlers.aiSpeak_turnCount (w : World) :
    (handlers.aiSpeak w).turnCount = w.turnCount := by
  rw [handlers.aiSpeak_eq]
  split
  · rfl
  · split <;> simp [openStream]

theorem init_settled_requests (w : World) (s : Snapshot) (st : Option Nat) :
    (init_settled w s st).requests.filter Request.isAiSpeak =
      w.requests.filter Request.isAiSpeak := by
  unfold init_settled persist.restore_settled
  cases st with
  | none => simp
  | some code =>
    by_cases h : code = 404 <;> simp [h]

/-! ## The turn counter and the auto-speak requests across the events -/

theorem consumeToken_quiet (w : World) (s : Stream) (text : String) :
    (consumeToken w s text).turnCount = w.turnCount ∧
    (consumeToken w s text).requests = w.requests ∧
    (consumeToken w s text).streams =
      if s.el then w.streams
      else w.streams.map (fun t => if t.id = s.id then { t with el := true } else t) := by
  unfold consumeToken
  cases hel : s.el <;> simp [ui.createStreamingBubble, ui.appendToken]

theorem consumeEnd_quiet (w : World) (s : Stream) (r : StreamEnd) :
    (consumeEnd w s r).turnCount = w.turnCount ∧
    (consumeEnd w s r).requests.filter Request.isAiSpeak =
      w.requests.filter Request.isAiSpeak := by
  unfold consumeEnd
  cases ho : s.owner <;> cases r <;> cases hel : s.el <;>
    simp [handlers.sendMessage_settled_quiet, handlers.aiSpeak_settled_quiet,
      ui.finalizeStreamingBubble]

theorem handlers.sendMessage_turnCount (w : World) (input : String) :
    (handlers.sendMessage w input).turnCount =
      if w.uiState = UiState.USER_SPEAKING ∧ w.streamActive = false ∧ jsTrim input ≠ "" then
        w.turnCount + 1
      else w.turnCount := by
  unfold handlers.sendMessage
  by_cases h1 : w.uiState = UiState.USER_SPEAKING
  · by_cases h2 : w.streamActive = true
    · simp [h1, h2]
    · by_cases h3 : jsTrim input = ""
      · simp [h1, h2, h3]
      · simp [h1, h2, h3, openStream, ui.incrementTurn]
  · simp [h1]

theorem handlers.sendMessage_quiet (w : World) (input : String) :
    (handlers.sendMessage w input).requests.filter Request.isAiSpeak =
      w.requests.filter Request.isAiSpeak ∧
    ∀ s ∈ (handlers.sendMessage w input).streams, s ∈ w.streams ∨ s.owner = Owner.sendMessage := by
  by_cases hc : w.uiState = UiState.USER_SPEAKING ∧ w.streamActive = false ∧ jsTrim input ≠ ""
  · obtain ⟨h1, h2, h3⟩ := hc
    simp only [handlers.sendMessage, h1, h2, h3, openStream, ui.incrementTurn]
    simp only [bne_self_eq_false, Bool.false_eq_true, if_false, List.filter_append,
      List.mem_append, List.mem_singleton]
    refine ⟨by simp [Request.isAiSpeak], fun s hs => ?_⟩
    rcases hs with hs | hs
    · exact Or.inl (by simpa using hs)
    · exact Or.inr (by rw [hs])
  · have he : handlers.sendMessage w input = w := by
      unfold handlers.sendMessage
      by_cases h1 : w.uiState = UiState.USER_SPEAKING
      · by_cases h2 : w.streamActive = true
        · simp [h1, h2]
        · by_cases h3 : jsTrim input = ""
          · simp [h1, h2, h3]
          · exact absurd ⟨h1, by simpa using h2, h3⟩ hc
      · simp [h1]
    rw [he]
    exact ⟨rfl, fun s hs => Or.inl hs⟩

theorem step_turnCount (w : World) (e : Event) (he : e.isProbeSettled = false) :
    (step w e).turnCount = w.turnCount ∨
      ∃ input, e = Event.clickSend input ∧ (step w e).turnCount = w.turnCount + 1 := by
  cases e with
  | clickStart t d => exact Or.inl (handlers.startSession_quiet w t d).1
  | clickEnd => exact Or.inl (handlers.endSession_quiet w false).1
  | clickRaiseHand => exact Or.inl (handlers.raiseHand_quiet w).1
  | clickSend input =>
    simp only [step]
    rw [handlers.sendMessage_turnCount]
    split
    · exact Or.inr ⟨input, rfl, rfl⟩
    · exact Or.inl rfl
  | callAiSpeak => exact Or.inl (handlers.aiSpeak_turnCount w)
  | sessionTick hd =>
    left
    simp only [step]
    split
    · exact (sessionTimer.tick_quiet w).1
    · rfl
  | silenceFire hd =>
    left
    simp only [step]
    split
    · unfold silenceTimer.fire
      split
      · rw [handlers.aiSpeak_turnCount]
      · rfl
    · rfl
  | retryFire =>
    left
    simp only [step]
    split
    · rw [(silenceTimer.reset_quiet _).1]
    · rfl
  | startSettled t d r =>
    left
    simp only [step]
    split
    · rw [(handlers.startSession_settled_quiet _ t d r).1]
    · rfl
  | raiseHandSettled r =>
    left
    simp only [step]
    split
    · rw [(handlers.raiseHand_settled_quiet _ r).1]
    · rfl
  | streamToken id text =>
    left
    simp only [step]
    split
    · rw [(consumeToken_quiet _ _ _).1]
    · rfl
  | streamEnded id r =>
    left
    simp only [step]
    split
    · rw [(consumeEnd_quiet _ _ _).1]
    · rfl
  | endPoll =>
    left
    simp only [step]
    split
    · simp [handlers.endSession_evaluate, issue]
    · rfl
  | endHardTimeout =>
    left
    simp only [step]
    split
    · simp [handlers.endSession_evaluate, issue]
    · rfl
  | endSettled =>
    left
    simp only [step]
    split <;> rfl
  | probeSettled saved status => simp [Event.isProbeSettled] at he
  | elapse ms => exact Or.inl rfl

theorem run_turnCount (w : World) (events : List Event)
    (he : ∀ e ∈ events, e.isProbeSettled = false) :
    w.turnCount ≤ (run w events).turnCount := by
  induction events generalizing w with
  | nil => exact Nat.le_refl _
  | cons e es ih =>
    have h1 : w.turnCount ≤ (step w e).turnCount := by
      rcases step_turnCount w e (he e (List.mem_cons_self _ _)) with h | ⟨_, _, h⟩ <;> omega
    exact Nat.le_trans h1 (ih (step w e) (fun x hx => he x (List.mem_cons_of_mem _ hx)))

theorem NoAiInv.extend {w v : World} (h : NoAiInv w)
    (hr : v.requests.filter Request.isAiSpeak = w.requests.filter Request.isAiSpeak)
    (hs : ∀ s ∈ v.streams, s ∈ w.streams ∨ s.owner = Owner.sendMessage) : NoAiInv v := by
  refine ⟨?_, fun s hm => ?_⟩
  · have := h.1
    unfold aiSpeakCount at *
    rw [hr]; exact this
  · rcases hs s hm with h1 | h1
    · exact h.2 s h1
    · exact h1

theorem NoAiInv.transfer {w v : World} (h : NoAiInv w)
    (hr : v.requests.filter Request.isAiSpeak = w.requests.filter Request.isAiSpeak)
    (hs : v.streams = w.streams) : NoAiInv v :=
  h.extend hr (fun _ hm => Or.inl (hs ▸ hm))

theorem step_noAi (w : World) (e : Event) (hsil : SilenceInv w)
    (he : e.isDirectAiSpeak = false) (h : NoAiInv w) : NoAiInv (step w e) := by
  cases e with
  | clickStart t d =>
    exact h.transfer (handlers.startSession_quiet w t d).2 (handlers.startSession_core w t d).1
  | clickEnd => exact h.transfer (handlers.endSession_quiet w false).2 (handlers.endSession_core w false).1
  | clickRaiseHand => exact h.transfer (handlers.raiseHand_quiet w).2 (handlers.raiseHand_core w).1
  | clickSend input =>
    exact h.extend (handlers.sendMessage_quiet w input).1 (handlers.sendMessage_quiet w input).2
  | callAiSpeak => simp [Event.isDirectAiSpeak] at he
  | sessionTick hd =>
    simp only [step]
    split
    · exact h.transfer (sessionTimer.tick_quiet w).2 (sessionTimer.tick_core w).1
    · exact h
  | silenceFire hd =>
    simp only [step]
    split
    · next hlive =>
      rcases hsil with h0 | ⟨x, _, _, g3, _⟩
      · rw [h0] at hlive; cases hlive
      · simp only [silenceTimer.fire, g3]
        exact h.transfer (by simp) (by simp)
    · exact h
  | retryFire =>
    simp only [step]
    split
    · exact h.transfer (by rw [(silenceTimer.reset_quiet _).2.1]) (by rw [(silenceTimer.reset_quiet _).2.2])
    · exact h
  | startSettled t d r =>
    simp only [step]
    split
    · exact h.transfer (by rw [(handlers.startSession_settled_quiet _ t d r).2])
        (by rw [(handlers.startSession_settled_core _ t d r).1])
    · exact h
  | raiseHandSettled r =>
    simp only [step]
    split
    · exact h.transfer (by rw [(handlers.raiseHand_settled_quiet _ r).2])
        (by rw [(handlers.raiseHand_settled_core _ r).1])
    · exact h
  | streamToken id text =>
    simp only [step]
    split
    · refine h.extend (by rw [(consumeToken_quiet _ _ _).2.1]) ?_
      rw [(consumeToken_quiet _ _ _).2.2]
      intro t ht
      split at ht
      · exact Or.inl ht
      · rw [List.mem_map] at ht
        obtain ⟨u, hu, rfl⟩ := ht
        right
        have := h.2 u hu
        split <;> simpa using this
    · exact h
  | streamEnded id r =>
    simp only [step]
    split
    · refine h.extend (consumeEnd_quiet _ _ _).2 ?_
      rw [(consumeEnd_core _ _ _).1]
      intro t ht
      exact Or.inl (List.mem_of_mem_filter ht)
    · exact h
  | endPoll =>
    simp only [step]
    split
    · exact h.transfer (by simp [handlers.endSession_evaluate, issue, Request.isAiSpeak])
        (by simp [handlers.endSession_evaluate, issue])
    · exact h
  | endHardTimeout =>
    simp only [step]
    split
    · exact h.transfer (by simp [handlers.endSession_evaluate, issue, Request.isAiSpeak])
        (by simp [handlers.endSession_evaluate, issue])
    · exact h
  | endSettled =>
    simp only [step]
    split
    · exact h.transfer rfl rfl
    · exact h
  | probeSettled saved status =>
    simp only [step]
    split
    · exact h.transfer (by rw [init_settled_requests]) (by rw [(init_settled_core _ _ _).1])
    · exact h
  | elapse ms => exact h.transfer rfl rfl

theorem persist.restore_requests (w : World) :
    (persist.restore w).1.requests.filter Request.isAiSpeak =
      w.requests.filter Request.isAiSpeak := by
  unfold persist.restore
  split
  · simp
  · simp
  · split
    · simp
    · split <;> simp [issue, persist.clear, Request.isAiSpeak]

theorem init_requests (w : World) :
    (init w).requests.filter Request.isAiSpeak = w.requests.filter Request.isAiSpeak := by
  have h := persist.restore_requests w
  unfold init
  split
  · next w1 heq =>
    rw [heq] at h
    simpa using h
  · next w1 r hne heq =>
    rw [heq] at h
    simpa using h

theorem boot_noAi (storage : Option Stored) (now : Int) : NoAiInv (boot storage now) := by
  refine ⟨?_, fun s hm => ?_⟩
  · unfold aiSpeakCount boot
    rw [init_requests]
    simp [World.blank]
  · unfold boot at hm
    rw [(init_core (World.blank storage now)).1] at hm
    simp [World.blank] at hm

theorem run_noAi (w : World) (events : List Event) (hs : StreamInv w) (hsil : SilenceInv w)
    (he : ∀ e ∈ events, e.isDirectAiSpeak = false) (h : NoAiInv w) :
    NoAiInv (run w events) := by
  induction events generalizing w with
  | nil => exact h
  | cons e es ih =>
    exact ih (step w e) (step_inv w e hs) (step_silence w e hs hsil)
      (fun x hx => he x (List.mem_cons_of_mem _ hx))
      (step_noAi w e hsil (he e (List.mem_cons_self _ _)) h)

/-! ## The turn counter is still 0 when the restore probe settles -/

theorem filter_erase_other (l : List Task) (t : Task) (h : t.isProbe = false) :
    (l.erase t).filter Task.isProbe = l.filter Task.isProbe := by
  induction l with
  | nil => rfl
  | cons x xs ih =>
    by_cases hx : x = t
    · subst hx
      simp [h]
    · rw [List.erase_cons_tail (by simpa using hx)]
      simp only [List.filter_cons, ih]

theorem filter_erase_probe (l : List Task) (s s0 : Snapshot)
    (hm : Task.probe s ∈ l) (h : l.filter Task.isProbe = [Task.probe s0]) :
    (l.erase (Task.probe s)).filter Task.isProbe = [] := by
  induction l with
  | nil => cases hm
  | cons x xs ih =>
    by_cases hx : x = Task.probe s
    · subst hx
      simp only [List.erase_cons_head]
      simp only [List.filter_cons, Task.isProbe, if_true] at h
      simp only [List.cons.injEq] at h
      exact h.2
    · rw [List.erase_cons_tail (by simpa using hx)]
      have hm2 : Task.probe s ∈ xs := by
        rcases List.mem_cons.1 hm with e | e
        · exact absurd e.symm hx
        · exact e
      cases hp : x.isProbe
      · simp only [List.filter_cons, hp] at h ⊢
        simpa using ih hm2 h
      · simp only [List.filter_cons, hp, if_true] at h
        simp only [List.cons.injEq] at h
        have : Task.probe s ∈ xs.filter Task.isProbe := List.mem_filter.2 ⟨hm2, rfl⟩
        rw [h.2] at this
        cases this

theorem silenceTimer.reset_pending (w : World) :
    (silenceTimer.reset w).pending = w.pending ∧
    (silenceTimer.reset w).uiState = w.uiState := by
  rw [silenceTimer.reset_eq]
  exact ⟨rfl, rfl⟩

theorem handlers.endSession_probes (w : World) (auto : Bool) :
    (handlers.endSession w auto).pending.filter Task.isProbe =
      w.pending.filter Task.isProbe := by
  by_cases hg : (!w.isActive || w.isEnded) = true
  · simp [handlers.endSession, hg]
  · by_cases hs : w.streamActive = true <;>
      simp [handlers.endSession, handlers.endSession_evaluate, issue, hg, hs, Task.isProbe]

theorem handlers.raiseHand_probes (w : World) :
    (handlers.raiseHand w).pending.filter Task.isProbe = w.pending.filter Task.isProbe := by
  unfold handlers.raiseHand
  split
  · simp
  · split
    · simp
    · split <;> simp [issue, Task.isProbe]

theorem handlers.raiseHand_settled_probes (w : World) (r : Except String RaiseData) :
    (handlers.raiseHand_settled w r).pending.filter Task.isProbe =
      w.pending.filter Task.isProbe := by
  unfold handlers.raiseHand_settled
  split
  · split
    · simp
    · split
      · simp
      · split <;> simp
  · split
    · simp
    · simp

theorem handlers.sendMessage_probes (w : World) (input : String) :
    (handlers.sendMessage w input).pending.filter Task.isProbe =
      w.pending.filter Task.isProbe := by
  unfold handlers.sendMessage
  split
  · rfl
  · split
    · rfl
    · dsimp only
      split
      · rfl
      · simp [openStream, ui.incrementTurn]

theorem handlers.sendMessage_settled_probes (w : World) (r : StreamEnd) :
    (handlers.sendMessage_settled w r).pending.filter Task.isProbe =
      w.pending.filter Task.isProbe := by
  unfold handlers.sendMessage_settled
  cases r with
  | done d =>
    dsimp only
    split
    · split
      · simp [handlers.endSession_probes]
      · simp
    · split
      · simp [handlers.raiseHand_probes]
      · simp
  | eof => simp
  | error m =>
    dsimp only
    split
    · simp [handlers.endSession_probes]
    · split
      · simp
      · simp

theorem handlers.aiSpeak_probes (w : World) :
    (handlers.aiSpeak w).pending.filter Task.isProbe = w.pending.filter Task.isProbe := by
  rw [handlers.aiSpeak_eq]
  split
  · rfl
  · split <;> rfl

theorem handlers.aiSpeak_settled_probes (w : World) (r : StreamEnd) :
    (handlers.aiSpeak_settled w r).pending.filter Task.isProbe =
      w.pending.filter Task.isProbe := by
  unfold handlers.aiSpeak_settled
  cases r with
  | done d =>
    dsimp only
    split
    · split
      · simp [handlers.endSession_probes]
      · simp
    · split
      · simp [handlers.raiseHand_probes]
      · split
        · simp
        · simp
  | eof => simp
  | error m =>
    dsimp only
    split
    · simp
    · split
      · split <;> simp [Task.isProbe]
      · split
        · simp [handlers.endSession_probes]
        · split
          · simp
          · simp

theorem handlers.startSession_probes (w : World) (t d : String) :
    (handlers.startSession w t d).pending.filter Task.isProbe =
      w.pending.filter Task.isProbe := by
  unfold handlers.startSession
  split <;> simp [issue, Task.isProbe]

theorem handlers.startSession_settled_probes (w : World) (t : String) (d : Int)
    (r : Except String StartData) :
    (handlers.startSession_settled w t d r).pending.filter Task.isProbe =
      w.pending.filter Task.isProbe := by
  unfold handlers.startSession_settled
  split
  · simp [sessionTimer.start]
  · simp

theorem sessionTimer.tick_probes (w : World) :
    (sessionTimer.tick w).pending.filter Task.isProbe = w.pending.filter Task.isProbe := by
  unfold sessionTimer.tick
  dsimp only
  split
  · split
    · simp
    · split
      · simp
      · simp [handlers.endSession_probes]
  · simp

theorem consumeEnd_probes (w : World) (s : Stream) (r : StreamEnd) :
    (consumeEnd w s r).pending.filter Task.isProbe = w.pending.filter Task.isProbe := by
  unfold consumeEnd
  cases ho : s.owner <;> cases r <;> cases hel : s.el <;>
    simp [handlers.sendMessage_settled_probes, handlers.aiSpeak_settled_probes,
      ui.finalizeStreamingBubble]

theorem step_probes (w : World) (e : Event) :
    (step w e).pending.filter Task.isProbe = w.pending.filter Task.isProbe ∨
    ∃ saved status, e = Event.probeSettled saved status ∧ Task.probe saved ∈ w.pending ∧
      (step w e).pending = w.pending.erase (Task.probe saved) := by
  cases e with
  | clickStart t d => exact Or.inl (handlers.startSession_probes w t d)
  | clickEnd => exact Or.inl (handlers.endSession_probes w false)
  | clickRaiseHand => exact Or.inl (handlers.raiseHand_probes w)
  | clickSend input => exact Or.inl (handlers.sendMessage_probes w input)
  | callAiSpeak => exact Or.inl (handlers.aiSpeak_probes w)
  | sessionTick hd =>
    left
    simp only [step]
    split
    · exact sessionTimer.tick_probes w
    · rfl
  | silenceFire hd =>
    left
    simp only [step]
    split
    · unfold silenceTimer.fire
      split
      · rw [handlers.aiSpeak_probes]
      · rfl
    · rfl
  | retryFire =>
    left
    simp only [step]
    split
    · rw [(silenceTimer.reset_pending _).1]
      exact filter_erase_other _ _ rfl
    · rfl
  | startSettled t d r =>
    left
    simp only [step]
    split
    · rw [handlers.startSession_settled_probes]
      exact filter_erase_other _ _ rfl
    · rfl
  | raiseHandSettled r =>
    left
    simp only [step]
    split
    · rw [handlers.raiseHand_settled_probes]
      exact filter_erase_other _ _ rfl
    · rfl
  | streamToken id text =>
    left
    simp only [step]
    split
    · unfold consumeToken
      split <;> simp [ui.createStreamingBubble, ui.appendToken]
    · rfl
  | streamEnded id r =>
    left
    simp only [step]
    split
    · rw [consumeEnd_probes]
    · rfl
  | endPoll =>
    left
    simp only [step]
    split
    · simp only [handlers.endSession_evaluate, issue, List.filter_append]
      rw [filter_erase_other w.pending Task.endDrain rfl]
      simp [Task.isProbe]
    · rfl
  | endHardTimeout =>
    left
    simp only [step]
    split
    · simp only [handlers.endSession_evaluate, issue, List.filter_append]
      rw [filter_erase_other w.pending Task.endDrain rfl]
      simp [Task.isProbe]
    · rfl
  | endSettled =>
    left
    simp only [step]
    split
    · exact filter_erase_other _ _ rfl
    · rfl
  | probeSettled saved status =>
    simp only [step]
    split
    · next hm =>
      right
      exact ⟨saved, status, rfl, hm, by rw [init_settled_pending]⟩
    · exact Or.inl rfl
  | elapse ms => exact Or.inl rfl


theorem Dormant.of {w v : World} (h : Dormant w) (ht : v.turnCount = w.turnCount)
    (hs : v.streams = w.streams)
    (hp : Task.raiseHand ∈ v.pending → Task.raiseHand ∈ w.pending)
    (hu : v.uiState = w.uiState ∨ v.uiState = UiState.AI_TURN_ASSIGNED ∨
      v.uiState = UiState.ENDED) : Dormant v := by
  obtain ⟨h1, h2, h3, h4⟩ := h
  refine ⟨by rw [ht, h1], by rw [hs, h2], fun hm => h3 (hp hm), ?_⟩
  rcases hu with hu | hu | hu
  · rw [hu]; exact h4
  · exact Or.inr (Or.inl hu)
  · exact Or.inr (Or.inr hu)

theorem handlers.endSession_dormant (w : World) (auto : Bool) (h : Dormant w) :
    Dormant (handlers.endSession w auto) := by
  refine h.of (handlers.endSession_quiet w auto).1 (handlers.endSession_core w auto).1 ?_ ?_
  · by_cases hg : (!w.isActive || w.isEnded) = true
    · simp [handlers.endSession, hg]
    · by_cases hs : w.streamActive = true <;>
        simp [handlers.endSession, handlers.endSession_evaluate, issue, hg, hs]
  · by_cases hg : (!w.isActive || w.isEnded) = true
    · simp [handlers.endSession, hg]
    · by_cases hs : w.streamActive = true <;>
        simp [handlers.endSession, handlers.endSession_evaluate, issue, hg, hs,
          ui.onSessionEnded, ui.setFloor]

theorem sessionTimer.tick_dormant (w : World) (h : Dormant w) :
    Dormant (sessionTimer.tick w) := by
  unfold sessionTimer.tick
  dsimp only
  split
  · split
    · exact h.of (by simp) (by simp) (by simp) (Or.inl (by simp))
    · split
      · exact h.of (by simp) (by simp) (by simp) (Or.inl (by simp))
      · exact handlers.endSession_dormant _ true
          (h.of (by simp) (by simp) (by simp) (Or.inl (by simp)))
  · exact h.of rfl rfl id (Or.inl rfl)

theorem step_dormant (w : World) (e : Event) (h : Dormant w) (hsil : SilenceInv w)
    (he : e.isDirectAiSpeak = false)
    (hp : ∀ saved status, e = Event.probeSettled saved status → Task.probe saved ∉ w.pending) :
    Dormant (step w e) := by
  have h0 := h
  obtain ⟨h1, h2, h3, h4⟩ := h
  cases e with
  | clickStart t d =>
    refine h0.of (handlers.startSession_quiet w t d).1 (handlers.startSession_core w t d).1 ?_ ?_
    · simp only [step, handlers.startSession]
      split <;> simp [issue]
    · simp only [step, handlers.startSession]
      split <;> simp [issue]
  | clickEnd => exact handlers.endSession_dormant w false h0
  | clickRaiseHand =>
    have : handlers.raiseHand w = w := by
      rcases h4 with hu | hu | hu <;> simp [handlers.raiseHand, hu]
    rw [step, this]
    exact h0
  | clickSend input =>
    have : handlers.sendMessage w input = w := by
      rcases h4 with hu | hu | hu <;> simp [handlers.sendMessage, hu]
    rw [step, this]
    exact h0
  | callAiSpeak => simp [Event.isDirectAiSpeak] at he
  | sessionTick hd =>
    simp only [step]
    split
    · exact sessionTimer.tick_dormant w h0
    · exact h0
  | silenceFire hd =>
    simp only [step]
    split
    · next hlive =>
      rcases hsil with e0 | ⟨x, _, _, g3, _⟩
      · rw [e0] at hlive; cases hlive
      · simp only [silenceTimer.fire, g3]
        exact h0.of (by simp) (by simp) (by simp) (Or.inl (by simp))
    · exact h0
  | retryFire =>
    simp only [step]
    split
    · refine h0.of (by rw [(silenceTimer.reset_quiet _).1]) (by rw [(silenceTimer.reset_quiet _).2.2])
        ?_ (Or.inl (by rw [(silenceTimer.reset_pending _).2]))
      rw [(silenceTimer.reset_pending _).1]
      exact fun hm => List.mem_of_mem_erase hm
    · exact h0
  | startSettled t d r =>
    simp only [step]
    split
    · refine h0.of (by rw [(handlers.startSession_settled_quiet _ t d r).1])
        (by rw [(handlers.startSession_settled_core _ t d r).1]) ?_ ?_
      · cases r <;> simp [handlers.startSession_settled, sessionTimer.start]
      · cases r <;> simp [handlers.startSession_settled, sessionTimer.start, ui.setFloor]
    · exact h0
  | raiseHandSettled r => simpa [step, h3] using h0
  | streamToken id text => simpa [step, h2] using h0
  | streamEnded id r => simpa [step, h2] using h0
  | endPoll =>
    simp only [step]
    split
    · refine h0.of (by simp [handlers.endSession_evaluate, issue])
        (by simp [handlers.endSession_evaluate, issue]) ?_
        (Or.inl (by simp [handlers.endSession_evaluate, issue]))
      simp only [handlers.endSession_evaluate, issue, List.mem_append, List.mem_singleton]
      rintro (hm | hm)
      · exact List.mem_of_mem_erase hm
      · cases hm
    · exact h0
  | endHardTimeout =>
    simp only [step]
    split
    · refine h0.of (by simp [handlers.endSession_evaluate, issue])
        (by simp [handlers.endSession_evaluate, issue]) ?_
        (Or.inl (by simp [handlers.endSession_evaluate, issue]))
      simp only [handlers.endSession_evaluate, issue, List.mem_append, List.mem_singleton]
      rintro (hm | hm)
      · exact List.mem_of_mem_erase hm
      · cases hm
    · exact h0
  | endSettled =>
    simp only [step]
    split
    · exact h0.of rfl rfl (fun hm => List.mem_of_mem_erase hm) (Or.inl rfl)
    · exact h0
  | probeSettled saved status =>
    have := hp saved status rfl
    simpa [step, this] using h0
  | elapse ms => exact h0.of rfl rfl id (Or.inl rfl)

theorem step_probeInv (w : World) (e : Event) (h : ProbeInv w) (hsil : SilenceInv w)
    (he : e.isDirectAiSpeak = false) : ProbeInv (step w e) := by
  rcases step_probes w e with hf | ⟨saved, status, rfl, hm, hpend⟩
  · rcases h with h | ⟨hd, s0, hs0⟩
    · exact Or.inl (by rw [hf, h])
    · by_cases hq : ∃ saved status, e = Event.probeSettled saved status ∧
          Task.probe saved ∈ w.pending
      · obtain ⟨saved, status, rfl, hm⟩ := hq
        left
        simp only [step, hm, if_true, init_settled_pending]
        exact filter_erase_probe _ _ _ hm hs0
      · right
        refine ⟨step_dormant w e hd hsil he ?_, s0, by rw [hf, hs0]⟩
        intro saved status he2 hm
        exact hq ⟨saved, status, he2, hm⟩
  · left
    rw [hpend]
    rcases h with h | ⟨_, s0, hs0⟩
    · have : Task.probe saved ∈ w.pending.filter Task.isProbe := List.mem_filter.2 ⟨hm, rfl⟩
      rw [h] at this
      cases this
    · exact filter_erase_probe _ _ _ hm hs0

theorem boot_probeInv (storage : Option Stored) (now : Int) : ProbeInv (boot storage now) := by
  cases storage with
  | none =>
    left
    simp [boot, init, persist.restore, World.blank, ui.setFloor]
  | some st =>
    cases st with
    | unparsable =>
      left
      simp [boot, init, persist.restore, World.blank, ui.setFloor]
    | snap saved =>
      by_cases h1 : saved.sessionId = ""
      · left
        simp [boot, init, persist.restore, World.blank, ui.setFloor, h1]
      · by_cases h2 : 7200000 < now - saved.savedAt
        · left
          simp [boot, init, persist.restore, World.blank, ui.setFloor, persist.clear, h1, h2]
        · right
          simp [boot, init, persist.restore, World.blank, issue, Dormant, Task.isProbe, h1, h2]

theorem step_turnCount_real (w : World) (e : Event) (h : ProbeInv w)
    (he : e.isDirectAiSpeak = false) : w.turnCount ≤ (step w e).turnCount := by
  by_cases hp : e.isProbeSettled = false
  · rcases step_turnCount w e hp with h1 | ⟨_, _, h1⟩ <;> omega
  · cases e with
    | probeSettled saved status =>
      simp only [step]
      split
      · next hm =>
        rcases h with h | ⟨hd, _, _⟩
        · have : Task.probe saved ∈ w.pending.filter Task.isProbe := List.mem_filter.2 ⟨hm, rfl⟩
          rw [h] at this
          cases this
        · rw [hd.1]
          exact Nat.zero_le _
      · exact Nat.le_refl _
    | _ => simp [Event.isProbeSettled] at hp

theorem run_turnCount_real (w : World) (events : List Event) (hs : StreamInv w)
    (hsil : SilenceInv w) (h : ProbeInv w) (he : ∀ e ∈ events, e.isDirectAiSpeak = false) :
    w.turnCount ≤ (run w events).turnCount := by
  induction events generalizing w with
  | nil => exact Nat.le_refl _
  | cons e es ih =>
    have he1 := he e (List.mem_cons_self _ _)
    exact Nat.le_trans (step_turnCount_real w e h he1)
      (ih (step w e) (step_inv w e hs) (step_silence w e hs hsil)
        (step_probeInv w e h hsil he1) (fun x hx => he x (List.mem_cons_of_mem _ hx)))

theorem run_probeInv (w : World) (events : List Event) (hs : StreamInv w)
    (hsil : SilenceInv w) (h : ProbeInv w) (he : ∀ e ∈ events, e.isDirectAiSpeak = false) :
    ProbeInv (run w events) := by
  induction events generalizing w with
  | nil => exact h
  | cons e es ih =>
    have he1 := he e (List.mem_cons_self _ _)
    exact ih (step w e) (step_inv w e hs) (step_silence w e hs hsil)
      (step_probeInv w e h hsil he1) (fun x hx => he x (List.mem_cons_of_mem _ hx))

/-! ## The stream consumer as a fold -/

theorem foldl_append_texts (a : String) (ts : List String) :
    ts.foldl (fun r s => r ++ s) a = a ++ String.join ts := by
  induction ts generalizing a with
  | nil => simp [String.join]
  | cons t ts ih =>
    have h1 : String.join (t :: ts) = ts.foldl (fun r s => r ++ s) ("" ++ t) := rfl
    rw [List.foldl_cons, ih (a ++ t), h1, ih ("" ++ t)]
    simp [String.append_assoc]

theorem join_texts_cons (t : String) (ts : List String) :
    String.join (t :: ts) = t ++ String.join ts := by
  rw [String.join, List.foldl_cons, foldl_append_texts]
  simp

theorem foldl_consumeChunk (chunks : List Chunk) (c : Consumer) :
    (chunks.foldl consumeChunk c).fullText = c.fullText ++ String.join (tokenTexts chunks) ∧
    (chunks.foldl consumeChunk c).streamTextEl =
      (if tokenTexts chunks = [] then c.streamTextEl
       else some (c.streamTextEl.getD "" ++ String.join (tokenTexts chunks))) ∧
    (chunks.foldl consumeChunk c).doneChunk = (terminalEvent chunks).orElse (fun _ => c.doneChunk) ∧
    (chunks.foldl consumeChunk c).finalized = c.finalized := by
  induction chunks generalizing c with
  | nil => simp [tokenTexts, terminalEvent, String.join]
  | cons x xs ih =>
    rw [List.foldl_cons]
    obtain ⟨h1, h2, h3, h4⟩ := ih (consumeChunk c x)
    rw [h1, h2, h3, h4]
    cases x with
    | token text =>
      refine ⟨?_, ?_, ?_, ?_⟩
      · simp [consumeChunk, tokenTexts, join_texts_cons, String.append_assoc]
      · simp only [consumeChunk, tokenTexts]
        split
        · next h => simp [h, String.join]
        · simp [join_texts_cons, String.append_assoc]
      · simp [consumeChunk, terminalEvent]
      · simp [consumeChunk]
    | done d =>
      refine ⟨?_, ?_, ?_, ?_⟩
      · simp [consumeChunk, tokenTexts]
      · simp [consumeChunk, tokenTexts]
      · simp only [consumeChunk, terminalEvent]
        cases terminalEvent xs <;> simp [Option.orElse]
      · simp [consumeChunk]
    | other => simp [consumeChunk, tokenTexts, terminalEvent]

theorem consumeLoop_eq (values : List (Option Chunk)) (c : Consumer) :
    consumeLoop c values = ((untilNull values).foldl consumeChunk c, decide (none ∈ values)) := by
  induction values generalizing c with
  | nil => simp [consumeLoop, untilNull]
  | cons v vs ih =>
    cases v with
    | none => simp [consumeLoop, untilNull]
    | some x => simp [consumeLoop, untilNull, ih]

theorem untilNull_map (chunks : List Chunk) : untilNull (chunks.map some) = chunks := by
  induction chunks with
  | nil => rfl
  | cons x xs ih => simp [untilNull, ih]

/-! ## The line splitter and the cutting of the response into chunks -/

theorem splitFrom_ne_nil (cur text : List Char) : splitFrom cur text ≠ [] := by
  induction text generalizing cur with
  | nil => simp [splitFrom]
  | cons c cs ih =>
    unfold splitFrom
    split
    · simp
    · exact ih _

theorem splitFrom_append (cur a b : List Char) :
    splitFrom cur (a ++ b) =
      (splitFrom cur a).dropLast ++ splitFrom ((splitFrom cur a).getLastD []) b := by
  induction a generalizing cur with
  | nil => simp [splitFrom]
  | cons c cs ih =>
    by_cases hc : c = '\n'
    · have hne := splitFrom_ne_nil [] cs
      simp only [List.cons_append, splitFrom, hc, if_true, List.append_eq]
      rw [ih []]
      cases hs : splitFrom [] cs with
      | nil => exact absurd hs hne
      | cons x xs => simp [List.dropLast, List.getLastD]
    · simp only [List.cons_append, splitFrom, hc, if_false, List.append_eq]
      exact ih _

theorem splitFrom_last_clean (cur a : List Char) (h : '\n' ∉ cur) :
    '\n' ∉ (splitFrom cur a).getLastD [] := by
  induction a generalizing cur with
  | nil => simpa [splitFrom] using h
  | cons c cs ih =>
    by_cases hc : c = '\n'
    · have hne := splitFrom_ne_nil [] cs
      have := ih [] (by simp)
      simp only [splitFrom, hc, if_true]
      cases hs : splitFrom [] cs with
      | nil => exact absurd hs hne
      | cons x xs =>
        rw [hs] at this
        simpa [List.getLastD] using this
    · simp only [splitFrom, hc, if_false]
      refine ih _ ?_
      simp only [List.mem_append, List.mem_singleton, not_or]
      exact ⟨h, fun h2 => hc h2.symm⟩

theorem splitFrom_clean (cur l rest : List Char) (h : '\n' ∉ l) :
    splitFrom cur (l ++ rest) = splitFrom (cur ++ l) rest := by
  induction l generalizing cur with
  | nil => simp
  | cons c cs ih =>
    have hc : c ≠ '\n' := fun e => h (by simp [e])
    have hcs : '\n' ∉ cs := fun e => h (List.mem_cons_of_mem _ e)
    simp only [List.cons_append, splitFrom, hc, if_false, List.append_eq]
    rw [ih _ hcs]
    simp

theorem splitNewline_append (text chunk : List Char) :
    splitNewline (text ++ chunk) =
      (splitNewline text).dropLast ++ splitNewline ((splitNewline text).getLastD [] ++ chunk) := by
  unfold splitNewline
  rw [splitFrom_append]
  congr 1
  rw [splitFrom_clean [] _ chunk (splitFrom_last_clean [] text (by simp))]
  simp

theorem splitNewline_eq (text : List Char) :
    splitNewline text = (splitNewline text).dropLast ++ [(splitNewline text).getLastD []] := by
  have hne := splitFrom_ne_nil [] text
  unfold splitNewline
  generalize splitFrom [] text = ls at hne
  rw [List.getLastD_eq_getLast?, List.getLast?_eq_getLast _ hne]
  simp [List.dropLast_append_getLast]

theorem throughFirstRejected_append (accepts : List Char → Bool) (cand more : List (List Char)) :
    throughFirstRejected accepts (cand ++ more) =
      if cand.any (fun l => !accepts l) then throughFirstRejected accepts cand
      else throughFirstRejected accepts cand ++ throughFirstRejected accepts more := by
  induction cand with
  | nil => simp [throughFirstRejected]
  | cons l ls ih =>
    cases h : accepts l <;> simp [throughFirstRejected, h, ih]
    split <;> simp

theorem yieldLine_fold (accepts : List Char → Bool) (lines cand : List (List Char))
    (p : PostStream) (h1 : p.handed = throughFirstRejected accepts cand)
    (h2 : p.thrown = cand.any (fun l => !accepts l)) :
    (lines.foldl (yieldLine accepts) p).handed =
      throughFirstRejected accepts (cand ++ lines.filter (fun l => !isBlank l)) ∧
    (lines.foldl (yieldLine accepts) p).thrown =
      (cand ++ lines.filter (fun l => !isBlank l)).any (fun l => !accepts l) ∧
    (lines.foldl (yieldLine accepts) p).buffer = p.buffer := by
  induction lines generalizing cand p with
  | nil => simp [h1, h2]
  | cons l ls ih =>
    rw [List.foldl_cons]
    by_cases hb : isBlank l = true
    · have hy : yieldLine accepts p l = p := by
        unfold yieldLine
        split
        · rfl
        · simp [hb]
      rw [hy]
      simpa [hb] using ih cand p h1 h2
    · have hb' : isBlank l = false := by simpa using hb
      have := ih (cand ++ [l]) (yieldLine accepts p l) (by
        rw [throughFirstRejected_append]
        unfold yieldLine
        cases ht : p.thrown
        · rw [ht] at h2
          simp [hb', ← h2, h1, throughFirstRejected]
        · rw [ht] at h2
          simp [← h2, h1, ht]) (by
        unfold yieldLine
        cases ht : p.thrown
        · rw [ht] at h2
          simp [hb', ← h2]
        · rw [ht] at h2
          simp [← h2, ht])
      have hbuf : (yieldLine accepts p l).buffer = p.buffer := by
        unfold yieldLine
        split
        · rfl
        · simp [hb']
      rw [hbuf] at this
      simpa [hb'] using this


theorem readChunk_fold (accepts : List Char → Bool) (chunks : List (List Char))
    (text : List Char) (p : PostStream)
    (h1 : p.handed = throughFirstRejected accepts
      ((splitNewline text).dropLast.filter (fun l => !isBlank l)))
    (h2 : p.thrown = ((splitNewline text).dropLast.filter (fun l => !isBlank l)).any
      (fun l => !accepts l))
    (h3 : p.thrown = false → p.buffer = (splitNewline text).getLastD []) :
    (chunks.foldl (readChunk accepts) p).handed = throughFirstRejected accepts
      ((splitNewline (text ++ chunks.flatten)).dropLast.filter (fun l => !isBlank l)) ∧
    (chunks.foldl (readChunk accepts) p).thrown =
      ((splitNewline (text ++ chunks.flatten)).dropLast.filter
        (fun l => !isBlank l)).any (fun l => !accepts l) ∧
    ((chunks.foldl (readChunk accepts) p).thrown = false →
      (chunks.foldl (readChunk accepts) p).buffer =
        (splitNewline (text ++ chunks.flatten)).getLastD []) := by
  induction chunks generalizing text p with
  | nil =>
    simp only [List.flatten_nil, List.append_nil, List.foldl_nil]
    exact ⟨h1, h2, h3⟩
  | cons c cs ih =>
    have hsplit := splitNewline_append text c
    have hlast := splitNewline_eq ((splitNewline text).getLastD [] ++ c)
    have hdrop : (splitNewline (text ++ c)).dropLast =
        (splitNewline text).dropLast ++
          (splitNewline ((splitNewline text).getLastD [] ++ c)).dropLast := by
      rw [hsplit, hlast, ← List.append_assoc, List.dropLast_concat]
      rw [← hlast]
    have hget : (splitNewline (text ++ c)).getLastD [] =
        (splitNewline ((splitNewline text).getLastD [] ++ c)).getLastD [] := by
      rw [hsplit, hlast, ← List.append_assoc]
      simp [List.getLastD_eq_getLast?]
    have key : (readChunk accepts p c).handed = throughFirstRejected accepts
          ((splitNewline (text ++ c)).dropLast.filter (fun l => !isBlank l)) ∧
        (readChunk accepts p c).thrown =
          ((splitNewline (text ++ c)).dropLast.filter (fun l => !isBlank l)).any
            (fun l => !accepts l) ∧
        ((readChunk accepts p c).thrown = false →
          (readChunk accepts p c).buffer = (splitNewline (text ++ c)).getLastD []) := by
      rw [hdrop, hget, List.filter_append]
      cases ht : p.thrown
      · have hb := h3 ht
        have hf := yieldLine_fold accepts
          (splitNewline (p.buffer ++ c)).dropLast
          ((splitNewline text).dropLast.filter (fun l => !isBlank l))
          { p with buffer := (splitNewline (p.buffer ++ c)).getLastD [] } h1 h2
        have hr : readChunk accepts p c =
            (splitNewline (p.buffer ++ c)).dropLast.foldl (yieldLine accepts)
              { p with buffer := (splitNewline (p.buffer ++ c)).getLastD [] } := by
          simp [readChunk, ht]
        rw [hr, ← hb]
        exact ⟨hf.1, hf.2.1, fun _ => hf.2.2⟩
      · have hr : readChunk accepts p c = p := by simp [readChunk, ht]
        rw [hr, ht]
        rw [ht] at h2
        refine ⟨?_, ?_, fun h => by cases h⟩
        · rw [throughFirstRejected_append, ← h2]
          simpa using h1
        · rw [List.any_append, ← h2]
          rfl
    have := ih (text ++ c) (readChunk accepts p c) key.1 key.2.1 key.2.2
    simp only [List.flatten_cons, List.foldl_cons, ← List.append_assoc]
    exact this

theorem api._postStream_handed (accepts : List Char → Bool) (chunks : List (List Char)) :
    (api._postStream accepts chunks).handed =
      throughFirstRejected accepts (nonBlankLines chunks.flatten) := by
  have h := readChunk_fold accepts chunks [] PostStream.start
    (by simp [splitNewline, splitFrom, PostStream.start, throughFirstRejected])
    (by simp [splitNewline, splitFrom, PostStream.start])
    (by simp [splitNewline, splitFrom, PostStream.start])
  simp only [List.nil_append] at h
  obtain ⟨h1, h2, h3⟩ := h
  unfold api._postStream nonBlankLines
  dsimp only
  generalize chunks.foldl (readChunk accepts) PostStream.start = p at h1 h2 h3
  have hf := yieldLine_fold accepts [p.buffer] _ p h1 h2
  simp only [List.foldl_cons, List.foldl_nil] at hf
  rw [hf.1]
  cases ht : p.thrown
  · rw [h3 ht]
    conv_rhs => rw [splitNewline_eq chunks.flatten, List.filter_append]
  · rw [ht] at h2
    rw [throughFirstRejected_append, ← h2]
    conv_rhs => rw [splitNewline_eq chunks.flatten, List.filter_append,
      throughFirstRejected_append, ← h2]
    simp

/-! ## The terminal event, and lines that all parse -/

theorem terminalEvent_none_iff (chunks : List Chunk) :
    terminalEvent chunks = none ↔ ∀ d, Chunk.done d ∉ chunks := by
  induction chunks with
  | nil => simp [terminalEvent]
  | cons x xs ih =>
    cases x with
    | token text => simpa [terminalEvent] using ih
    | done d =>
      simp only [terminalEvent]
      constructor
      · intro h
        cases ht : terminalEvent xs <;> simp [ht, Option.orElse] at h
      · intro h
        exact absurd (List.mem_cons_self _ _) (h d)
    | other => simpa [terminalEvent] using ih

theorem terminalEvent_last (pre post : List Chunk) (d : Done)
    (h : ∀ x, Chunk.done x ∉ post) : terminalEvent (pre ++ Chunk.done d :: post) = some d := by
  have hp := (terminalEvent_none_iff post).2 h
  induction pre with
  | nil => simp [terminalEvent, hp, Option.orElse]
  | cons x xs ih =>
    cases x with
    | token text => simpa [terminalEvent] using ih
    | done y => simp [terminalEvent, ih, Option.orElse]
    | other => simpa [terminalEvent] using ih

theorem throughFirstRejected_all (accepts : List Char → Bool) (lines : List (List Char))
    (h : ∀ l ∈ lines, accepts l = true) : throughFirstRejected accepts lines = lines := by
  induction lines with
  | nil => rfl
  | cons l ls ih =>
    have h1 := h l (List.mem_cons_self _ _)
    simp [throughFirstRejected, h1, ih (fun x hx => h x (List.mem_cons_of_mem _ hx))]

theorem splitNewline_line (text line : List Char) (h : '\n' ∉ line) :
    splitNewline (text ++ '\n' :: line) = splitNewline text ++ [line] := by
  unfold splitNewline
  rw [splitFrom_append]
  have h1 : splitFrom [] line = [line] := by
    have := splitFrom_clean [] line [] h
    simpa [splitFrom] using this
  conv_rhs => rw [show splitFrom [] text = splitNewline text from rfl, splitNewline_eq text]
  simp [splitFrom, h1, splitNewline]

/-! ## The claims -/

/-- Claim C1: `sendMessage` does nothing at all in every state whose `uiState` is not
`USER_SPEAKING`; in `USER_SPEAKING` with no stream open and a non-blank message it adds one
to the turn counter, moves to `AI_SPEAKING`, raises `streamActive` and opens exactly one
stream with a `/speak` request.  It changes the page exactly when these three conditions
hold. -/
theorem sendMessage_accepted_iff_user_speaking (w : World) (input : String) :
    (w.uiState ≠ UiState.USER_SPEAKING → handlers.sendMessage w input = w) ∧
    (w.uiState = UiState.USER_SPEAKING → w.streamActive = false → jsTrim input ≠ "" →
      (handlers.sendMessage w input).turnCount = w.turnCount + 1 ∧
      (handlers.sendMessage w input).uiState = UiState.AI_SPEAKING ∧
      (handlers.sendMessage w input).streamActive = true ∧
      (handlers.sendMessage w input).streams =
        w.streams ++ [{ id := w.nextId, owner := Owner.sendMessage, el := false }] ∧
      (handlers.sendMessage w input).requests =
        w.requests ++ [Request.speak w.sessionId (jsTrim input)]) ∧
    (handlers.sendMessage w input ≠ w ↔
      (w.uiState = UiState.USER_SPEAKING ∧ w.streamActive = false ∧ jsTrim input ≠ "")) := by
  have hno : w.uiState ≠ UiState.USER_SPEAKING → handlers.sendMessage w input = w := by
    intro h
    simp [handlers.sendMessage, h]
  have hyes : w.uiState = UiState.USER_SPEAKING → w.streamActive = false →
      jsTrim input ≠ "" →
      (handlers.sendMessage w input).turnCount = w.turnCount + 1 ∧
      (handlers.sendMessage w input).uiState = UiState.AI_SPEAKING ∧
      (handlers.sendMessage w input).streamActive = true ∧
      (handlers.sendMessage w input).streams =
        w.streams ++ [{ id := w.nextId, owner := Owner.sendMessage, el := false }] ∧
      (handlers.sendMessage w input).requests =
        w.requests ++ [Request.speak w.sessionId (jsTrim input)] := by
    intro h1 h2 h3
    simp [handlers.sendMessage, h1, h2, h3]
  refine ⟨hno, hyes, ?_, ?_⟩
  · intro hne
    by_cases h1 : w.uiState = UiState.USER_SPEAKING
    · refine ⟨h1, ?_, ?_⟩
      · cases h2 : w.streamActive
        · rfl
        · exact absurd (by simp [handlers.sendMessage, h2]) hne
      · intro h3
        exact absurd (by simp [handlers.sendMessage, h3]) hne
    · exact absurd (hno h1) hne
  · rintro ⟨h1, h2, h3⟩ heq
    have ht := (hyes h1 h2 h3).1
    rw [heq] at ht
    omega

/-- Claim C1 at two concrete pages: ignored after a start, accepted once the floor is granted. -/
theorem sendMessage_accepted_iff_user_speaking_witness :
    (handlers.sendMessage afterStart "I disagree" = afterStart) ∧
    (handlers.sendMessage userSpeaking "I disagree").turnCount = userSpeaking.turnCount + 1 ∧
    (handlers.sendMessage userSpeaking "I disagree").uiState = UiState.AI_SPEAKING ∧
    (handlers.sendMessage userSpeaking "I disagree").streamActive = true :=
  ⟨(sendMessage_accepted_iff_user_speaking afterStart "I disagree").1 (by decide),
   ((sendMessage_accepted_iff_user_speaking userSpeaking "I disagree").2.1
      (by decide) (by decide) (by decide)).1,
   ((sendMessage_accepted_iff_user_speaking userSpeaking "I disagree").2.1
      (by decide) (by decide) (by decide)).2.1,
   ((sendMessage_accepted_iff_user_speaking userSpeaking "I disagree").2.1
      (by decide) (by decide) (by decide)).2.2.1⟩

/-- Claim C2 (the code departs from it): on the page reached by a successful start the
session is active and not ended, `uiState` is `AI_TURN_ASSIGNED`, no stream is open and
`ui.setFloor` has left the raise-hand button enabled, yet `raiseHand` is a no-op there: it
changes nothing and issues no request. -/
theorem raiseHand_ignored_in_ai_turn_assigned :
    afterStart.isActive = true ∧ afterStart.isEnded = false ∧
    afterStart.uiState = UiState.AI_TURN_ASSIGNED ∧ afterStart.streamActive = false ∧
    ui.raiseHandEnabled afterStart.uiState = true ∧
    handlers.raiseHand afterStart = afterStart ∧
    step afterStart Event.clickRaiseHand = afterStart := by
  decide

/-- Claim C3: in every state reached from a freshly loaded page by any sequence of events,
at most one stream is open and `streamActive` tells exactly whether one is; an event opens
a stream only when `streamActive` is false; and when the handler that owns the open stream
finishes, whatever the outcome of the stream, no stream is open and both `streamActive`
and `aiRequestInFlight` are false. -/
theorem one_stream_at_a_time (w : World) (h : Reachable w) :
    w.streams.length ≤ 1 ∧
    (w.streamActive = true ↔ w.streams ≠ []) ∧
    (∀ e, w.streams.length < (step w e).streams.length → w.streamActive = false) ∧
    (∀ id r s, w.streams.find? (fun x => x.id == id) = some s →
      (step w (Event.streamEnded id r)).streams = [] ∧
      (step w (Event.streamEnded id r)).streamActive = false ∧
      (step w (Event.streamEnded id r)).aiRequestInFlight = false) := by
  have hw := Reachable.inv h
  refine ⟨?_, ?_, ?_, ?_⟩
  · rcases hw with ⟨h1, _, _⟩ | ⟨s, h1, _, _⟩ <;> simp [h1]
  · rcases hw with ⟨h1, h2, _⟩ | ⟨s, h1, h2, _⟩ <;> simp [h1, h2]
  · intro e hlt
    have hn := step_inv w e hw
    rcases hw with ⟨h1, h2, _⟩ | ⟨s, h1, h2, _⟩
    · exact h2
    · rcases hn with ⟨g1, _, _⟩ | ⟨t, g1, _, _⟩ <;> simp [h1, g1] at hlt
  · intro id r s hs
    have hn := step_inv w (Event.streamEnded id r) hw
    have hc := consumeEnd_core w s r
    simp only [step, hs]
    rcases hw with ⟨h1, h2, h3⟩ | ⟨s0, h1, h2, h3⟩
    · simp [h1] at hs
    · rw [h1] at hs
      obtain ⟨rfl, hid⟩ := find_id_singleton hs
      rw [hc.1, hc.2.1, hc.2.2, h1]
      refine ⟨by simp, rfl, ?_⟩
      by_cases ho : s.owner = Owner.aiSpeak
      · simp [ho]
      · simp only [ho, if_false]
        cases hf : w.aiRequestInFlight
        · rfl
        · exact absurd (h3.1 hf) ho

/-- Claim C3 at the page with an open `/speak` stream. -/
theorem one_stream_at_a_time_witness :
    Reachable streaming ∧ streaming.streams.length = 1 ∧ streaming.streamActive = true ∧
    (step streaming (Event.streamEnded 3 StreamEnd.eof)).streamActive = false :=
  ⟨reachable_run (reachable_run (reachable_run (reachable_boot _ _) _) _) _,
   by decide, by decide,
   ((one_stream_at_a_time streaming
      (reachable_run (reachable_run (reachable_run (reachable_boot _ _) _) _) _)).2.2.2
      3 StreamEnd.eof ⟨3, Owner.sendMessage, false⟩ (by decide)).2.1⟩

/-- Claim C4 (the code departs from it): the session is ended while a `/raise-hand` request
is in flight (`isEnded` is true, `uiState` is `ENDED`); when the request is then granted,
`uiState` becomes `USER_SPEAKING`, and the next `sendMessage` opens a stream and issues a
`/speak` request. -/
theorem ended_is_left_by_late_raise_hand :
    endedWhileRaising.isEnded = true ∧ endedWhileRaising.isActive = false ∧
    endedWhileRaising.uiState = UiState.ENDED ∧
    (step endedWhileRaising (Event.raiseHandSettled (Except.ok sampleGranted))).uiState =
      UiState.USER_SPEAKING ∧
    (run endedWhileRaising
      [Event.raiseHandSettled (Except.ok sampleGranted), Event.clickSend "I disagree"]).uiState =
      UiState.AI_SPEAKING ∧
    (run endedWhileRaising
      [Event.raiseHandSettled (Except.ok sampleGranted), Event.clickSend "I disagree"]).streams =
      [{ id := 3, owner := Owner.sendMessage, el := false }] ∧
    (run endedWhileRaising
      [Event.raiseHandSettled (Except.ok sampleGranted), Event.clickSend "I disagree"]).requests =
      endedWhileRaising.requests ++ [Request.speak (some "s1") "I disagree"] := by
  decide

/-- Claim C5 (the code departs from it): in an active, not-ended session with `uiState`
equal to `AI_TURN_ASSIGNED` and a stream open, `raiseHand` is a no-op: `handRaisedPending`
stays false and `uiState` does not become `QUEUED`. -/
theorem raiseHand_not_queued_in_ai_turn_assigned :
    lateStart.isActive = true ∧ lateStart.isEnded = false ∧
    lateStart.uiState = UiState.AI_TURN_ASSIGNED ∧ lateStart.streamActive = true ∧
    handlers.raiseHand lateStart = lateStart ∧
    (handlers.raiseHand lateStart).handRaisedPending = false ∧
    (handlers.raiseHand lateStart).uiState ≠ UiState.QUEUED := by
  decide

/-- Claim C6 fails for a stream that ends with a failure: the hand is raised while a stream
is open (`handRaisedPending` is true, no request issued), the stream then fails, and its
error handling clears the flag without issuing any `/raise-hand` request; nothing is left
pending that could issue it later. -/
theorem deferred_raise_hand_dropped_on_failure :
    queuedWhileStreaming.streamActive = true ∧
    queuedWhileStreaming.handRaisedPending = true ∧
    raiseHandCount queuedWhileStreaming = raiseHandCount streaming ∧
    raiseHandCount
      (step queuedWhileStreaming (Event.streamEnded 3 (StreamEnd.error "Failed to fetch"))) =
      raiseHandCount streaming ∧
    (step queuedWhileStreaming
      (Event.streamEnded 3 (StreamEnd.error "Failed to fetch"))).handRaisedPending = false ∧
    (step queuedWhileStreaming
      (Event.streamEnded 3 (StreamEnd.error "Failed to fetch"))).streams = [] ∧
    (step queuedWhileStreaming
      (Event.streamEnded 3 (StreamEnd.error "Failed to fetch"))).pending = [] := by
  decide

/-- Claim C6, amended: in every state with a stream open and a hand-raise pending, no event
other than the end of the stream issues a `/raise-hand` request or lowers `streamActive`;
when the stream ends with a terminal result in a session that is active, not ended and
has no end pending, its handling issues exactly one `/raise-hand` request and clears the
pending flag; when the stream ends with a failure, its handling issues none. -/
theorem deferred_raise_hand (w : World) (hs : w.streamActive = true)
    (hp : w.handRaisedPending = true) :
    (∀ e, (∀ id r, e ≠ Event.streamEnded id r) →
      raiseHandCount (step w e) = raiseHandCount w ∧ (step w e).streamActive = true) ∧
    (∀ id s d, w.streams.find? (fun x => x.id == id) = some s →
      w.isActive = true → w.isEnded = false → w.pendingEnd = false →
      raiseHandCount (step w (Event.streamEnded id (StreamEnd.done d))) = raiseHandCount w + 1 ∧
      (step w (Event.streamEnded id (StreamEnd.done d))).handRaisedPending = false) ∧
    (∀ id msg,
      raiseHandCount (step w (Event.streamEnded id (StreamEnd.error msg))) = raiseHandCount w) := by
  refine ⟨fun e hne => step_while_streaming w e hs hne, ?_, ?_⟩
  · intro id s d hfind ha he hpe
    simp only [step, hfind]
    exact consumeEnd_done_pending w s d hp ha he hpe
  · intro id msg
    simp only [step]
    split
    · exact consumeEnd_error_raises w _ msg
    · rfl

/-- Claim C6, amended, at the page with an open stream and a queued hand-raise. -/
theorem deferred_raise_hand_witness :
    raiseHandCount (step queuedWhileStreaming Event.clickRaiseHand) =
      raiseHandCount queuedWhileStreaming ∧
    raiseHandCount
      (step queuedWhileStreaming
        (Event.streamEnded 3 (StreamEnd.done { moderator_message := "Thank you.",
                                               hand_queued_granted := false }))) =
      raiseHandCount queuedWhileStreaming + 1 :=
  ⟨((deferred_raise_hand queuedWhileStreaming (by decide) (by decide)).1
      Event.clickRaiseHand (fun _ _ h => Event.noConfusion h)).1,
   ((deferred_raise_hand queuedWhileStreaming (by decide) (by decide)).2.1
      3 { id := 3, owner := Owner.sendMessage, el := false } _
      (by decide) (by decide) (by decide) (by decide)).1⟩

/-- Claim C7 (the code departs from it): after a successful start the session id is the
one the server returned, the session is active, `uiState` is `AI_TURN_ASSIGNED` and the
countdown holds the requested duration, but the silence timer is not armed: its handle is
`null` and no timeout is live.  This holds from every state and for every answer of the
server, and in particular for `start("Climate policy", 30)` on a fresh page. -/
theorem start_does_not_arm_silence_timer :
    (∀ (w : World) (topic : String) (duration : Int) (data : StartData),
      (handlers.startSession_settled w topic duration (Except.ok data)).sessionId =
        some data.session_id ∧
      (handlers.startSession_settled w topic duration (Except.ok data)).isActive = true ∧
      (handlers.startSession_settled w topic duration (Except.ok data)).uiState =
        UiState.AI_TURN_ASSIGNED ∧
      (handlers.startSession_settled w topic duration (Except.ok data)).sessionLeft = duration ∧
      (handlers.startSession_settled w topic duration (Except.ok data)).silenceH = none) ∧
    validateStart "Climate policy" "30" = some ("Climate policy", 30) ∧
    afterStart.sessionId = some "s1" ∧ afterStart.isActive = true ∧
    afterStart.isEnded = false ∧ afterStart.pendingEnd = false ∧
    afterStart.streamActive = false ∧
    afterStart.uiState = UiState.AI_TURN_ASSIGNED ∧ afterStart.sessionLeft = 30 ∧
    afterStart.silenceH = none ∧ afterStart.timeouts = [] := by
  refine ⟨?_, by decide⟩
  intro w topic duration data
  simp [handlers.startSession_settled, silenceTimer.guardsPass]

/-- Claim C8 (the code departs from it): `silenceTimer.reset` leaves the timer armed
exactly when `uiState` is `WAITING_FOR_HAND`, no stream is open, the session is active,
not ended and no end is pending.  So the timer is armed on the restored page (by the call
in `persist.restore`, and again by any further call), whose `uiState` is not
`AI_TURN_ASSIGNED`, and it is left unarmed on the page reached by a successful start, where
`uiState` is `AI_TURN_ASSIGNED` and every other condition holds. -/
theorem silence_timer_armed_in_waiting_for_hand_only :
    (∀ w : World, (silenceTimer.reset w).silenceH ≠ none ↔
      (w.uiState = UiState.WAITING_FOR_HAND ∧ w.streamActive = false ∧ w.isActive = true ∧
        w.isEnded = false ∧ w.pendingEnd = false)) ∧
    afterRestore.uiState = UiState.WAITING_FOR_HAND ∧
    afterRestore.silenceH = some 2 ∧ afterRestore.timeouts = [2] ∧
    (silenceTimer.reset afterRestore).silenceH = some 3 ∧
    (silenceTimer.reset afterRestore).timeouts = [3] ∧
    afterStart.uiState = UiState.AI_TURN_ASSIGNED ∧ afterStart.streamActive = false ∧
    afterStart.isActive = true ∧ afterStart.isEnded = false ∧ afterStart.pendingEnd = false ∧
    (silenceTimer.reset afterStart).silenceH = none ∧
    (silenceTimer.reset afterStart).timeouts = [] := by
  refine ⟨?_, by decide⟩
  intro w
  rw [silenceTimer.reset_eq]
  rcases w with ⟨sid, act, ended, tc, ui, sa, hrp, rmc, pe, ctr, fl, sh, sl, silh, ivs, tos,
    nid, now, sto, tr, topic, reqs, strs, pend⟩
  cases act <;> cases ended <;> cases pe <;> cases sa <;> cases ui <;>
    simp [silenceTimer.guardsPass]

/-- Claim C9: let the timer with handle `h` have been armed by `silenceTimer.reset` in the
state `a`, and let it fire in a state `w` reached from a freshly loaded page in which it is
still live.  If `uiState` in `w` differs from `uiState` in `a`, the fire calls no handler:
it changes nothing but the liveness of the timer.  The fire acts only if the state is
still the arming one and the session is not ended.  Both follow from a stronger fact: in
a reachable state a live timer implies that `uiState` is not `AI_TURN_ASSIGNED`, while the
callback, in any state, acts only when `uiState` is `AI_TURN_ASSIGNED` and the session is
not ended; so every fire of a live timer is dropped. -/
theorem silence_fire_dropped_when_stale (a w : World) (h : Nat)
    (harm : (silenceTimer.reset a).silenceH = some h) (hw : Reachable w)
    (hlive : h ∈ w.timeouts) :
    (∀ v : World, silenceTimer.fire v ≠ v →
      v.uiState = UiState.AI_TURN_ASSIGNED ∧ v.isEnded = false) ∧
    (w.uiState ≠ a.uiState →
      step w (Event.silenceFire h) = { w with timeouts := w.timeouts.erase h }) ∧
    (step w (Event.silenceFire h) ≠ { w with timeouts := w.timeouts.erase h } →
      w.uiState = a.uiState ∧ w.isEnded = false) := by
  have _ := harm
  have hdrop : step w (Event.silenceFire h) = { w with timeouts := w.timeouts.erase h } := by
    rcases hw.silence with h0 | ⟨x, _, _, g3, _⟩
    · rw [h0] at hlive
      cases hlive
    · simp [step, hlive, silenceTimer.fire, g3]
  refine ⟨?_, fun _ => hdrop, fun hne => absurd hdrop hne⟩
  intro v hv
  unfold silenceTimer.fire at hv
  split at hv
  · next hc => simpa using hc
  · exact absurd rfl hv

/-- Claim C9 at a page whose state changed from `WAITING_FOR_HAND` to `USER_SPEAKING` while
the timer was live: the fire is dropped. -/
theorem silence_fire_dropped_when_stale_witness :
    (silenceTimer.reset twoRaises).silenceH = some 3 ∧
    staleTimer.timeouts = [3] ∧ staleTimer.uiState ≠ twoRaises.uiState ∧
    step staleTimer (Event.silenceFire 3) = { staleTimer with timeouts := [] } :=
  ⟨by decide, by decide, by decide,
   (silence_fire_dropped_when_stale twoRaises staleTimer 3 (by decide)
      (reachable_run (reachable_run (reachable_run (reachable_boot _ _) _) _) _)
      (by decide)).2.1 (by decide)⟩

/-- Claim C10: `aiSpeak` opens a stream (with `uiState` set to `AI_SPEAKING` and
`streamActive` and `aiRequestInFlight` raised) when at entry `uiState` is
`AI_TURN_ASSIGNED`, `aiRequestInFlight` is false, the session is active, not ended, no end
is pending and no stream is open; in every other state it opens no stream, issues no
request and leaves `uiState`, `streamActive`, `turnCount`, both pending flags and
`aiRequestInFlight` as they were. -/
theorem aiSpeak_opens_iff (w : World) :
    ((w.uiState = UiState.AI_TURN_ASSIGNED ∧ w.aiRequestInFlight = false ∧
        w.isActive = true ∧ w.isEnded = false ∧ w.pendingEnd = false ∧
        w.streamActive = false) →
      (handlers.aiSpeak w).uiState = UiState.AI_SPEAKING ∧
      (handlers.aiSpeak w).streamActive = true ∧
      (handlers.aiSpeak w).aiRequestInFlight = true ∧
      (handlers.aiSpeak w).streams =
        w.streams ++ [{ id := w.nextId, owner := Owner.aiSpeak, el := false }] ∧
      (handlers.aiSpeak w).requests = w.requests ++ [Request.aiSpeak w.sessionId]) ∧
    (¬ (w.uiState = UiState.AI_TURN_ASSIGNED ∧ w.aiRequestInFlight = false ∧
        w.isActive = true ∧ w.isEnded = false ∧ w.pendingEnd = false ∧
        w.streamActive = false) →
      (handlers.aiSpeak w).streams = w.streams ∧
      (handlers.aiSpeak w).requests = w.requests ∧
      (handlers.aiSpeak w).uiState = w.uiState ∧
      (handlers.aiSpeak w).streamActive = w.streamActive ∧
      (handlers.aiSpeak w).turnCount = w.turnCount ∧
      (handlers.aiSpeak w).handRaisedPending = w.handRaisedPending ∧
      (handlers.aiSpeak w).pendingEnd = w.pendingEnd ∧
      (handlers.aiSpeak w).aiRequestInFlight = w.aiRequestInFlight) := by
  rw [handlers.aiSpeak_eq]
  constructor
  · intro h
    rw [if_pos h]
    simp
  · intro h
    rw [if_neg h]
    split <;> simp

/-- Claim C10 at the page after a start (opens) and at a page with a stream open (ignored). -/
theorem aiSpeak_opens_iff_witness :
    (handlers.aiSpeak afterStart).uiState = UiState.AI_SPEAKING ∧
    (handlers.aiSpeak afterStart).streamActive = true ∧
    (handlers.aiSpeak streaming).streams = streaming.streams ∧
    (handlers.aiSpeak streaming).uiState = streaming.uiState :=
  ⟨((aiSpeak_opens_iff afterStart).1 (by decide)).1,
   ((aiSpeak_opens_iff afterStart).1 (by decide)).2.1,
   ((aiSpeak_opens_iff streaming).2 (by decide)).1,
   ((aiSpeak_opens_iff streaming).2 (by decide)).2.2.1⟩

/-- Claim C11 (the code departs from it): a hand-raise accepted with no stream open ends in
`USER_SPEAKING` when granted, in `QUEUED` when queued, in `USER_SPEAKING` when already
granted, and in `ENDED` with `isActive` false and `isEnded` true when the session is not
found; after any other failure the silence timer is re-armed, but `uiState` is
`WAITING_FOR_HAND`, not `AI_TURN_ASSIGNED`. -/
theorem raiseHand_failure_returns_to_waiting_for_hand :
    raising.requests = afterRestore.requests ++ [Request.raiseHand (some "s1")] ∧
    raising.streamActive = false ∧ raising.silenceH = none ∧
    (step raising (Event.raiseHandSettled (Except.ok sampleGranted))).uiState =
      UiState.USER_SPEAKING ∧
    (step raising (Event.raiseHandSettled
      (Except.ok { status := "queued", moderator_message := "" }))).uiState = UiState.QUEUED ∧
    (step raising (Event.raiseHandSettled
      (Except.ok { status := "already_granted", moderator_message := "" }))).uiState =
      UiState.USER_SPEAKING ∧
    (step raising (Event.raiseHandSettled (Except.error "Session not found"))).uiState =
      UiState.ENDED ∧
    (step raising (Event.raiseHandSettled (Except.error "Session not found"))).isActive = false ∧
    (step raising (Event.raiseHandSettled (Except.error "Session not found"))).isEnded = true ∧
    (step raising (Event.raiseHandSettled (Except.error "HTTP 500"))).uiState =
      UiState.WAITING_FOR_HAND ∧
    (step raising (Event.raiseHandSettled (Except.error "HTTP 500"))).uiState ≠
      UiState.AI_TURN_ASSIGNED ∧
    (step raising (Event.raiseHandSettled (Except.error "HTTP 500"))).silenceH = some 3 ∧
    (step raising (Event.raiseHandSettled (Except.error "HTTP 500"))).timeouts = [3] := by
  decide

/-- Claim C12 (the code departs from it): a stream opened by `sendMessage` fails in a
session that is not ended and has no end pending.  The handler finishes with `streamActive`
false and `uiState` equal to `AI_TURN_ASSIGNED`, but the silence timer is not armed, and in
the state it leaves neither `raiseHand` nor `sendMessage` is accepted. -/
theorem stream_failure_leaves_silence_timer_unarmed :
    streaming.isEnded = false ∧ streaming.pendingEnd = false ∧ streaming.streamActive = true ∧
    (step streaming (Event.streamEnded 3 (StreamEnd.error "Failed to fetch"))).streamActive =
      false ∧
    (step streaming (Event.streamEnded 3 (StreamEnd.error "Failed to fetch"))).uiState =
      UiState.AI_TURN_ASSIGNED ∧
    (step streaming (Event.streamEnded 3 (StreamEnd.error "Failed to fetch"))).silenceH = none ∧
    (step streaming (Event.streamEnded 3 (StreamEnd.error "Failed to fetch"))).timeouts = [] ∧
    (step streaming (Event.streamEnded 3 (StreamEnd.error "Failed to fetch"))).pending = [] ∧
    handlers.raiseHand
      (step streaming (Event.streamEnded 3 (StreamEnd.error "Failed to fetch"))) =
      step streaming (Event.streamEnded 3 (StreamEnd.error "Failed to fetch")) ∧
    handlers.sendMessage
      (step streaming (Event.streamEnded 3 (StreamEnd.error "Failed to fetch"))) "I disagree" =
      step streaming (Event.streamEnded 3 (StreamEnd.error "Failed to fetch")) := by
  decide

/-- Claim C13: let `sessionTimer.start(s)` with `s ≥ 1` create an interval whose handle is
not already live.  After `k < s` ticks of that interval the remaining value is `s - k` and
nothing else has changed.  The `s`-th tick brings it to zero and clears the handle; if the
session is not active nothing more happens; if it is active with a stream open
`pendingEnd` is set and nothing else happens; if it is active with no stream open
`endSession(true)` runs.  Further ticks of that interval do not occur: the zero action
happens once. -/
theorem countdown_runs_to_zero_once (w : World) (s : Int) (hs : 1 ≤ s)
    (hfresh : w.nextId ∉ w.intervals) :
    (∀ k : Nat, (k : Int) < s →
      run (sessionTimer.start w s) (List.replicate k (Event.sessionTick w.nextId)) =
        { sessionTimer.start w s with sessionLeft := s - k }) ∧
    (w.isActive = false →
      run (sessionTimer.start w s) (List.replicate s.toNat (Event.sessionTick w.nextId)) =
        { w with sessionLeft := 0, sessionH := none, nextId := w.nextId + 1 }) ∧
    (w.isActive = true → w.streamActive = true →
      run (sessionTimer.start w s) (List.replicate s.toNat (Event.sessionTick w.nextId)) =
        { w with sessionLeft := 0, sessionH := none, nextId := w.nextId + 1,
                 pendingEnd := true }) ∧
    (w.isActive = true → w.streamActive = false →
      run (sessionTimer.start w s) (List.replicate s.toNat (Event.sessionTick w.nextId)) =
        handlers.endSession
          { w with sessionLeft := 0, sessionH := none, nextId := w.nextId + 1 } true) ∧
    (run (sessionTimer.start w s)
        (List.replicate s.toNat (Event.sessionTick w.nextId))).sessionLeft = 0 ∧
    (run (sessionTimer.start w s)
        (List.replicate s.toNat (Event.sessionTick w.nextId))).sessionH = none ∧
    w.nextId ∉ (run (sessionTimer.start w s)
        (List.replicate s.toNat (Event.sessionTick w.nextId))).intervals ∧
    (∀ j : Nat,
      run (sessionTimer.start w s) (List.replicate (s.toNat + j) (Event.sessionTick w.nextId)) =
        run (sessionTimer.start w s) (List.replicate s.toNat (Event.sessionTick w.nextId))) := by
  have hlive : w.nextId ∈ (sessionTimer.start w s).intervals := by simp
  have hbefore : ∀ k : Nat, (k : Int) < s →
      run (sessionTimer.start w s) (List.replicate k (Event.sessionTick w.nextId)) =
        { sessionTimer.start w s with sessionLeft := s - k } := by
    intro k hk
    have := run_live_ticks k (sessionTimer.start w s) w.nextId hlive (by simpa using hk)
    simpa using this
  obtain ⟨n, hn⟩ : ∃ n : Nat, s.toNat = n + 1 := ⟨s.toNat - 1, by omega⟩
  have hsn : s = (n : Int) + 1 := by omega
  have hzero : run (sessionTimer.start w s)
        (List.replicate s.toNat (Event.sessionTick w.nextId)) =
      step { sessionTimer.start w s with sessionLeft := 1 } (Event.sessionTick w.nextId) := by
    rw [hn, List.replicate_succ', run_append, hbefore n (by omega)]
    have : s - (n : Int) = 1 := by omega
    simp [run, this]
  have herase := erase_append_fresh w.intervals w.nextId hfresh
  have hA : w.isActive = false →
      run (sessionTimer.start w s) (List.replicate s.toNat (Event.sessionTick w.nextId)) =
        { w with sessionLeft := 0, sessionH := none, nextId := w.nextId + 1 } := by
    intro ha
    rw [hzero]
    simp [step, sessionTimer.tick, ha, clearHandle, herase]
  have hB : w.isActive = true → w.streamActive = true →
      run (sessionTimer.start w s) (List.replicate s.toNat (Event.sessionTick w.nextId)) =
        { w with sessionLeft := 0, sessionH := none, nextId := w.nextId + 1,
                 pendingEnd := true } := by
    intro ha hst
    rw [hzero]
    simp [step, sessionTimer.tick, ha, hst, clearHandle, herase]
  have hC : w.isActive = true → w.streamActive = false →
      run (sessionTimer.start w s) (List.replicate s.toNat (Event.sessionTick w.nextId)) =
        handlers.endSession
          { w with sessionLeft := 0, sessionH := none, nextId := w.nextId + 1 } true := by
    intro ha hst
    rw [hzero]
    simp [step, sessionTimer.tick, ha, hst, clearHandle, herase]
  have hfields :
      (run (sessionTimer.start w s)
        (List.replicate s.toNat (Event.sessionTick w.nextId))).sessionLeft = 0 ∧
      (run (sessionTimer.start w s)
        (List.replicate s.toNat (Event.sessionTick w.nextId))).sessionH = none ∧
      w.nextId ∉ (run (sessionTimer.start w s)
        (List.replicate s.toNat (Event.sessionTick w.nextId))).intervals := by
    cases ha : w.isActive
    · rw [hA ha]; exact ⟨rfl, rfl, hfresh⟩
    · cases hst : w.streamActive
      · rw [hC ha hst]
        have := handlers.endSession_intervals
          { w with sessionLeft := 0, sessionH := none, nextId := w.nextId + 1 } true rfl
        rw [this.1, this.2.1, this.2.2]
        exact ⟨rfl, rfl, hfresh⟩
      · rw [hB ha hst]; exact ⟨rfl, rfl, hfresh⟩
  refine ⟨hbefore, hA, hB, hC, hfields.1, hfields.2.1, hfields.2.2, ?_⟩
  intro j
  rw [List.replicate_add, run_append]
  exact run_dead_ticks j _ _ hfields.2.2

/-- Claim C13 on a fresh page (two of three ticks) and on a page with a stream open (the
third tick sets `pendingEnd`). -/
theorem countdown_runs_to_zero_once_witness :
    run (sessionTimer.start (boot none 0) 3)
        (List.replicate 2 (Event.sessionTick (boot none 0).nextId)) =
      { sessionTimer.start (boot none 0) 3 with sessionLeft := 1 } ∧
    (run (sessionTimer.start streaming 3)
        (List.replicate 3 (Event.sessionTick streaming.nextId))).pendingEnd = true :=
  ⟨(countdown_runs_to_zero_once (boot none 0) 3 (by decide) (by decide)).1 2 (by decide),
   by
    have h := (countdown_runs_to_zero_once streaming 3 (by decide) (by decide)).2.2.1
      (by decide) (by decide)
    have e : (3 : Int).toNat = 3 := rfl
    rw [e] at h
    rw [h]⟩

set_option maxRecDepth 100000 in
/-- Claim C14 (the code departs from it): on the page `expiring` the countdown has reached
zero while a `/speak` stream is open, so `pendingEnd` is set and the session is not ended.
When the response then ends without a terminal event, the handler of the stream does
nothing with `pendingEnd`: the session is not ended, `uiState` stays `AI_SPEAKING`,
`pendingEnd` stays set, no evaluation is requested, and no request, interval or timeout is
left that could still end the session. -/
theorem deferred_end_lost :
    expiring.pendingEnd = true ∧ expiring.isEnded = false ∧ expiring.streamActive = true ∧
    (step expiring (Event.streamEnded 3 StreamEnd.eof)).streams = [] ∧
    (step expiring (Event.streamEnded 3 StreamEnd.eof)).streamActive = false ∧
    (step expiring (Event.streamEnded 3 StreamEnd.eof)).isEnded = false ∧
    (step expiring (Event.streamEnded 3 StreamEnd.eof)).uiState = UiState.AI_SPEAKING ∧
    (step expiring (Event.streamEnded 3 StreamEnd.eof)).pendingEnd = true ∧
    evaluationCount (step expiring (Event.streamEnded 3 StreamEnd.eof)) = 0 ∧
    (step expiring (Event.streamEnded 3 StreamEnd.eof)).pending = [] ∧
    (step expiring (Event.streamEnded 3 StreamEnd.eof)).intervals = [] ∧
    (step expiring (Event.streamEnded 3 StreamEnd.eof)).timeouts = [] := by
  decide

/-- The paths on which a deferred end is carried out.  A tick that brings the countdown
to zero in an active session with a stream open sets `pendingEnd`, clears the handle and
does not end the session.  With an end pending in an active, not-ended session: when the
open stream finishes with a terminal result, or a stream opened by `sendMessage` fails, or
a stream opened by `aiSpeak` fails with an error that is neither session-gone nor a floor
conflict, its handler leaves the session ended, `uiState` equal to `ENDED`, `pendingEnd`
cleared and exactly one more evaluation request issued; when a stream opened by `aiSpeak`
fails with a session-gone error, its handler leaves the session ended with `pendingEnd`
cleared and no evaluation request issued. -/
theorem deferred_end (w : World) (id : Nat) (s : Stream)
    (hfind : w.streams.find? (fun x => x.id == id) = some s)
    (hp : w.pendingEnd = true) (ha : w.isActive = true) (he : w.isEnded = false) :
    (∀ v : World, v.isActive = true → v.streamActive = true → v.sessionLeft = 1 →
      (sessionTimer.tick v).pendingEnd = true ∧ (sessionTimer.tick v).isEnded = v.isEnded ∧
      (sessionTimer.tick v).requests = v.requests ∧ (sessionTimer.tick v).sessionH = none) ∧
    (∀ d,
      (step w (Event.streamEnded id (StreamEnd.done d))).isEnded = true ∧
      (step w (Event.streamEnded id (StreamEnd.done d))).uiState = UiState.ENDED ∧
      (step w (Event.streamEnded id (StreamEnd.done d))).pendingEnd = false ∧
      evaluationCount (step w (Event.streamEnded id (StreamEnd.done d))) =
        evaluationCount w + 1) ∧
    (∀ msg, s.owner = Owner.sendMessage ∨ (isFatal msg = false ∧ isConflict msg = false) →
      (step w (Event.streamEnded id (StreamEnd.error msg))).isEnded = true ∧
      (step w (Event.streamEnded id (StreamEnd.error msg))).uiState = UiState.ENDED ∧
      (step w (Event.streamEnded id (StreamEnd.error msg))).pendingEnd = false ∧
      evaluationCount (step w (Event.streamEnded id (StreamEnd.error msg))) =
        evaluationCount w + 1) ∧
    (∀ msg, s.owner = Owner.aiSpeak → isFatal msg = true →
      (step w (Event.streamEnded id (StreamEnd.error msg))).isEnded = true ∧
      (step w (Event.streamEnded id (StreamEnd.error msg))).uiState = UiState.ENDED ∧
      (step w (Event.streamEnded id (StreamEnd.error msg))).pendingEnd = false ∧
      evaluationCount (step w (Event.streamEnded id (StreamEnd.error msg))) =
        evaluationCount w) := by
  refine ⟨?_, ?_, ?_, ?_⟩
  · intro v hva hvs hvl
    simp [sessionTimer.tick, hva, hvs, hvl]
  · intro d
    have h := consumeEnd_deferred_end w s (StreamEnd.done d) hp ha he (Or.inl ⟨d, rfl⟩)
    simp only [step, hfind]
    refine ⟨h.1, h.2.1, h.2.2.1, ?_⟩
    simp [evaluationCount, h.2.2.2.2, Request.isEndSession]
  · intro msg hm
    have h := consumeEnd_deferred_end w s (StreamEnd.error msg) hp ha he
      (Or.inr ⟨msg, rfl, hm⟩)
    simp only [step, hfind]
    refine ⟨h.1, h.2.1, h.2.2.1, ?_⟩
    simp [evaluationCount, h.2.2.2.2, Request.isEndSession]
  · intro msg ho hf
    have h := consumeEnd_gone w s msg ho hf
    simp only [step, hfind]
    refine ⟨h.1, h.2.1, h.2.2.1, ?_⟩
    simp [evaluationCount, h.2.2.2.2]

set_option maxRecDepth 100000 in
/-- The deferred end on the page whose countdown has run out during a `/speak` stream,
for a terminal result and for a failure of the stream. -/
theorem deferred_end_witness :
    (step expiring (Event.streamEnded 3
      (StreamEnd.done { moderator_message := "Thank you.", hand_queued_granted := false }))).uiState
      = UiState.ENDED ∧
    evaluationCount (step expiring (Event.streamEnded 3 (StreamEnd.error "Failed to fetch"))) =
      evaluationCount expiring + 1 :=
  ⟨((deferred_end expiring 3 { id := 3, owner := Owner.sendMessage, el := false }
      (by decide) (by decide) (by decide) (by decide)).2.1 _).2.1,
   ((deferred_end expiring 3 { id := 3, owner := Owner.sendMessage, el := false }
      (by decide) (by decide) (by decide) (by decide)).2.2.1 "Failed to fetch"
      (Or.inl rfl)).2.2.2⟩

/-- Claim C15 (the code departs from it): a page is loaded with a stored snapshot; before
the probe of the reload settles, a session is started and ended by hand, which requests
the evaluation once.  The probe is then answered with 200: `persist.restore` sets
`isActive` and clears `isEnded`, and restarts the countdown.  When that countdown expires
`endSession` runs again, passes its guard and requests the evaluation a second time. -/
theorem evaluation_requested_twice :
    endedBeforeProbe.isEnded = true ∧ evaluationCount endedBeforeProbe = 1 ∧
    revived.isEnded = false ∧ revived.isActive = true ∧ revived.intervals = [2] ∧
    revived.sessionLeft = 1 ∧ evaluationCount revived = 1 ∧
    (step revived (Event.sessionTick 2)).isEnded = true ∧
    evaluationCount (step revived (Event.sessionTick 2)) = 2 ∧
    step revived (Event.sessionTick 2) ≠ revived ∧
    revivesEnded endedBeforeProbe [Event.probeSettled lastSecondSnapshot (some 200)] = true := by
  decide

/-- Claim C15, amended: `endSession` invoked in a state with `isActive` false or `isEnded`
true changes nothing; any further calls after a first one leave the state of the first
call and add no evaluation request, so at most one is added in all; and from a freshly
loaded page, with or without a stored snapshot, along every sequence of events in which
the restore probe does not settle with success on a page whose session has ended, at most
one evaluation is requested, whatever the number of starts and of end triggers. -/
theorem endSession_idempotent (w : World) (auto : Bool) (later : List Bool) :
    ((w.isActive = false ∨ w.isEnded = true) → handlers.endSession w auto = w) ∧
    later.foldl handlers.endSession (handlers.endSession w auto) = handlers.endSession w auto ∧
    evaluationCount (later.foldl handlers.endSession (handlers.endSession w auto)) ≤
      evaluationCount w + 1 ∧
    (∀ (storage : Option Stored) (now : Int) (events : List Event),
      revivesEnded (boot storage now) events = false →
      evaluationCount (run (boot storage now) events) ≤ 1) := by
  have hfold : ∀ (l : List Bool) (v : World), (v.isActive = false ∨ v.isEnded = true) →
      l.foldl handlers.endSession v = v := by
    intro l
    induction l with
    | nil => intro v _; rfl
    | cons a l ih =>
      intro v hv
      simp only [List.foldl_cons]
      rw [handlers.endSession_guard v a hv]
      exact ih v hv
  have h2 := hfold later _ (handlers.endSession_ended w auto)
  refine ⟨handlers.endSession_guard w auto, h2, ?_, ?_⟩
  · rw [h2]
    exact handlers.endSession_evaluations w auto
  · intro storage now events hp
    have h : evaluationCount (run (boot storage now) events) +
        (run (boot storage now) events).pending.count Task.endDrain ≤
        (if (run (boot storage now) events).isEnded then 1 else 0) :=
      run_end _ events (boot_end storage now) hp
    have hle : (if (run (boot storage now) events).isEnded = true then 1 else 0) ≤ 1 := by
      split <;> omega
    omega

/-- Claim C15, amended, on an ended page, on the page after a start, and on a page
restored from a snapshot on which the countdown expires and the end button is then
pressed. -/
theorem endSession_idempotent_witness :
    handlers.endSession endedWhileRaising false = endedWhileRaising ∧
    [true, false].foldl handlers.endSession (handlers.endSession afterStart false) =
      handlers.endSession afterStart false ∧
    evaluationCount
      ([true, false].foldl handlers.endSession (handlers.endSession afterStart false)) = 1 ∧
    evaluationCount (run (boot (some (Stored.snap lastSecondSnapshot)) 1000)
      [Event.probeSettled lastSecondSnapshot (some 200), Event.sessionTick 1,
       Event.clickEnd, Event.endSettled]) ≤ 1 ∧
    evaluationCount (run (boot (some (Stored.snap lastSecondSnapshot)) 1000)
      [Event.probeSettled lastSecondSnapshot (some 200), Event.sessionTick 1,
       Event.clickEnd, Event.endSettled]) = 1 :=
  ⟨(endSession_idempotent endedWhileRaising false []).1 (Or.inl (by decide)),
   (endSession_idempotent afterStart false [true, false]).2.1,
   by decide,
   (endSession_idempotent afterStart false []).2.2.2
      (some (Stored.snap lastSecondSnapshot)) 1000
      [Event.probeSettled lastSecondSnapshot (some 200), Event.sessionTick 1,
       Event.clickEnd, Event.endSettled] (by decide),
   by decide⟩

/-- Claim C16 (the code departs from it): `endSession` runs on the active session "s1";
`persist.clear` empties the storage, but the closing moderator message is appended after
it and `ui.appendMessage` calls `persist.save`, so a snapshot of the ended session is in
storage when the handler reaches its first `await`, and it is still there once the
evaluation has arrived. -/
theorem endSession_saves_snapshot_again :
    afterStart.isActive = true ∧ afterStart.sessionId = some "s1" ∧
    (step afterStart Event.clickEnd).isEnded = true ∧
    (step afterStart Event.clickEnd).uiState = UiState.ENDED ∧
    (persist.clear afterStart).storage = none ∧
    (step afterStart Event.clickEnd).storage =
      some (Stored.snap
        { sessionId := "s1"
          topic := "Climate policy"
          transcriptHtml := (step afterStart Event.clickEnd).transcript
          turnCount := 0
          remainingTime := 30
          lastMsgCount := 2
          savedAt := 0 }) ∧
    (run afterStart [Event.clickEnd, Event.endSettled]).storage ≠ none := by
  decide

/-- Claim C17 (the code departs from it): `sessionTimer.start` adds an interval and clears
none.  After two starts two intervals are live, one second takes two off the remaining
time, and `sessionTimer.stop` (also through `endSession`) leaves the first one running. -/
theorem second_start_keeps_first_interval :
    (∀ (w : World) (s : Int), (sessionTimer.start w s).intervals = w.intervals ++ [w.nextId]) ∧
    doubleStart.intervals = [1, 2] ∧ doubleStart.sessionH = some 2 ∧
    doubleStart.sessionLeft = 30 ∧
    (run doubleStart [Event.sessionTick 1, Event.sessionTick 2]).sessionLeft = 28 ∧
    (sessionTimer.stop doubleStart).intervals = [1] ∧
    (step doubleStart Event.clickEnd).intervals = [1] := by
  refine ⟨fun w s => rfl, by decide⟩

/-- Claim C18: with `restoredMsgCount = N`, the first `N` calls of `ui.appendMessage` change
nothing but the counter (no bubble, no snapshot) and return `null`; after them the counter
is 0; the next call returns its element and appends it to the transcript; the counter
stays 0 under all later calls. -/
theorem restored_messages_are_skipped (w : World) (msgs : List (String × String))
    (hN : msgs.length = w.restoredMsgCount) (speaker text : String) :
    (∀ j, j ≤ msgs.length →
      appendAll w (msgs.take j) = { w with restoredMsgCount := w.restoredMsgCount - j }) ∧
    (∀ j, j < msgs.length → ∀ sp tx,
      ui.appendMessage_returned (appendAll w (msgs.take j)) sp tx = none) ∧
    appendAll w msgs = { w with restoredMsgCount := 0 } ∧
    ui.appendMessage_returned (appendAll w msgs) speaker text =
      some { speaker := speaker, text := text, stream := none, streaming := false } ∧
    (ui.appendMessage (appendAll w msgs) speaker text).transcript =
      w.transcript ++ [{ speaker := speaker, text := text, stream := none, streaming := false }] ∧
    (∀ more, (appendAll (ui.appendMessage (appendAll w msgs) speaker text) more).restoredMsgCount
      = 0) := by
  have hall : appendAll w msgs = { w with restoredMsgCount := 0 } := by
    rw [appendAll_suppressed msgs w (le_of_eq hN), hN]
    simp
  have htake : ∀ j, j ≤ msgs.length →
      appendAll w (msgs.take j) = { w with restoredMsgCount := w.restoredMsgCount - j } := by
    intro j hj
    have hl : (msgs.take j).length = j := by simp [hj]
    rw [appendAll_suppressed (msgs.take j) w (by rw [hl, ← hN]; exact hj), hl]
  refine ⟨htake, ?_, hall, ?_, ?_, ?_⟩
  · intro j hj sp tx
    rw [htake j (le_of_lt hj)]
    have : 0 < w.restoredMsgCount - j := by omega
    simp [ui.appendMessage_returned, this]
  · rw [hall]
    simp [ui.appendMessage_returned]
  · rw [hall]
    simp
  · intro more
    apply appendAll_zero
    rw [hall]
    simp

/-- Claim C18 on the page restored from a snapshot of nine bubbles. -/
theorem restored_messages_are_skipped_witness :
    appendAll afterRichRestore (List.replicate 9 ("moderator", "Welcome back.")) =
      { afterRichRestore with restoredMsgCount := 0 } ∧
    (ui.appendMessage
      (appendAll afterRichRestore (List.replicate 9 ("moderator", "Welcome back.")))
      "moderator" "Your turn.").transcript =
      afterRichRestore.transcript ++
        [{ speaker := "moderator", text := "Your turn.", stream := none, streaming := false }] :=
  ⟨(restored_messages_are_skipped afterRichRestore
      (List.replicate 9 ("moderator", "Welcome back.")) (by decide)
      "moderator" "Your turn.").2.2.1,
   (restored_messages_are_skipped afterRichRestore
      (List.replicate 9 ("moderator", "Welcome back.")) (by decide)
      "moderator" "Your turn.").2.2.2.2.1⟩

/-- Claim C19: for a stored snapshot (a record with a session id), `persist.restore` returns
`false` and erases it, changing nothing else, when it is older than two hours; otherwise it
issues the probe and changes nothing else, and when the probe answers 404 or cannot reach
the service it returns `false` and erases the snapshot, changing nothing else.  With no
stored value or an unparsable one it returns `false` and changes nothing at all. -/
theorem restore_discards (w : World) (saved : Snapshot)
    (hst : w.storage = some (Stored.snap saved)) (hid : saved.sessionId ≠ "") :
    (w.now - saved.savedAt > 2 * 60 * 60 * 1000 →
      persist.restore w = ({ w with storage := none }, some false)) ∧
    (¬ w.now - saved.savedAt > 2 * 60 * 60 * 1000 →
      persist.restore w =
        ({ w with
            requests := w.requests ++ [Request.probe saved.sessionId]
            pending := w.pending ++ [Task.probe saved] }, none)) ∧
    (∀ v : World, persist.restore_settled v saved (some 404) = ({ v with storage := none }, false)) ∧
    (∀ v : World, persist.restore_settled v saved none = ({ v with storage := none }, false)) ∧
    (∀ v : World, v.storage = none ∨ v.storage = some Stored.unparsable →
      persist.restore v = (v, some false)) := by
  refine ⟨?_, ?_, ?_, ?_, ?_⟩
  · intro hold
    simp only [persist.restore, hst, hid, if_false, if_pos hold, persist.clear]
  · intro hfresh
    simp only [persist.restore, hst, hid, if_false, if_neg hfresh, issue]
  · intro v
    simp [persist.restore_settled]
  · intro v
    simp [persist.restore_settled]
  · intro v hv
    rcases hv with hv | hv <;> simp [persist.restore, hv]

/-- Claim C19 for a snapshot older than two hours and for a probe answered with 404. -/
theorem restore_discards_witness :
    persist.restore (World.blank (some (Stored.snap sampleSnapshot)) 7200001) =
      (World.blank none 7200001, some false) ∧
    persist.restore_settled (boot (some (Stored.snap sampleSnapshot)) 1000) sampleSnapshot
      (some 404) = ({ boot (some (Stored.snap sampleSnapshot)) 1000 with storage := none }, false) :=
  ⟨(restore_discards (World.blank (some (Stored.snap sampleSnapshot)) 7200001) sampleSnapshot
      rfl (by decide)).1 (by decide),
   (restore_discards (World.blank (some (Stored.snap sampleSnapshot)) 1000) sampleSnapshot
      rfl (by decide)).2.2.1 _⟩

/-- Claim C20 (the code departs from it): after a restore the session id, the turn counter,
the dedup counter and the countdown are as saved (30 seconds when the saved value is not
positive) and the silence timer is armed, but `uiState` is `WAITING_FOR_HAND`, not
`AI_TURN_ASSIGNED`. -/
theorem restore_enters_waiting_for_hand :
    (∀ (v : World) (saved : Snapshot),
      (persist.restore_settled v saved (some 200)).1.uiState = UiState.WAITING_FOR_HAND) ∧
    afterRichRestore.sessionId = some "s7" ∧ afterRichRestore.turnCount = 4 ∧
    afterRichRestore.restoredMsgCount = 9 ∧ afterRichRestore.sessionLeft = 12 ∧
    afterSpentRestore.sessionLeft = 30 ∧
    afterRichRestore.isActive = true ∧
    afterRichRestore.silenceH = some 2 ∧ afterRichRestore.timeouts = [2] ∧
    afterRichRestore.uiState = UiState.WAITING_FOR_HAND ∧
    afterRichRestore.uiState ≠ UiState.AI_TURN_ASSIGNED := by
  refine ⟨fun v saved => ?_, by decide⟩
  simp [persist.restore_settled]

/-- Claim C21: `startSession` returns at once, issuing no request and leaving the whole
page state as it was (so `sessionId`, `isActive`, `uiState` and the timers), when the
trimmed topic is empty, or the duration does not parse to a number, or it parses to a
number below 10; and when the trimmed topic is not empty and the duration parses to a
number that is at least 10, it issues the start request for that topic and duration and
awaits it, the session state still being as it was. -/
theorem startSession_validates_input (w : World) (topicInput durationInput : String) :
    ((jsTrim topicInput = "" ∨ parseInt durationInput = none ∨
        ∃ n, parseInt durationInput = some n ∧ n < 10) →
      handlers.startSession w topicInput durationInput = w) ∧
    (∀ n, jsTrim topicInput ≠ "" → parseInt durationInput = some n → 10 ≤ n →
      (handlers.startSession w topicInput durationInput).requests =
        w.requests ++ [Request.start (jsTrim topicInput) n] ∧
      (handlers.startSession w topicInput durationInput).pending =
        w.pending ++ [Task.start (jsTrim topicInput) n] ∧
      (handlers.startSession w topicInput durationInput).sessionId = w.sessionId ∧
      (handlers.startSession w topicInput durationInput).isActive = w.isActive ∧
      (handlers.startSession w topicInput durationInput).uiState = w.uiState ∧
      (handlers.startSession w topicInput durationInput).sessionH = w.sessionH ∧
      (handlers.startSession w topicInput durationInput).silenceH = w.silenceH ∧
      (handlers.startSession w topicInput durationInput).intervals = w.intervals ∧
      (handlers.startSession w topicInput durationInput).timeouts = w.timeouts) := by
  constructor
  · intro h
    have hv : validateStart topicInput durationInput = none := by
      unfold validateStart
      rcases h with h | h | ⟨n, h, hn⟩
      · simp [h]
      · simp only [h]
        split <;> rfl
      · simp only [h]
        split
        · rfl
        · have : (n = 0 || decide (n < 10)) = true := by simp [hn]
          simp [this]
    simp [handlers.startSession, hv]
  · intro n ht hd hn
    have hv : validateStart topicInput durationInput = some (jsTrim topicInput, n) := by
      unfold validateStart
      have h0 : n ≠ 0 := by omega
      have h1 : ¬ n < 10 := by omega
      simp [ht, hd, h0, h1]
    simp [handlers.startSession, hv, issue]

/-- Claim C21 on a fresh page: a blank topic, a duration that is not a number and a
duration of 9 leave the page as it is; the topic `Climate policy` (typed with spaces
around it) with the duration 10 issues the start request. -/
theorem startSession_validates_input_witness :
    handlers.startSession (boot none 0) "   " "30" = boot none 0 ∧
    handlers.startSession (boot none 0) "Climate policy" "soon" = boot none 0 ∧
    handlers.startSession (boot none 0) "Climate policy" "9" = boot none 0 ∧
    (handlers.startSession (boot none 0) " Climate policy " "10").requests =
      (boot none 0).requests ++ [Request.start (jsTrim " Climate policy ") 10] :=
  ⟨(startSession_validates_input (boot none 0) "   " "30").1 (Or.inl (by decide)),
   (startSession_validates_input (boot none 0) "Climate policy" "soon").1
      (Or.inr (Or.inl (by decide))),
   (startSession_validates_input (boot none 0) "Climate policy" "9").1
      (Or.inr (Or.inr ⟨9, by decide, by decide⟩)),
   ((startSession_validates_input (boot none 0) " Climate policy " "10").2 10
      (by decide) (by decide) (by decide)).1⟩

/-- Claim C22 (the code departs from it): the source yields a token, then the value
`null`, then another token and a terminal event, and ends without throwing.  Reading
`chunk.type` of `null` throws a `TypeError` inside `consumeStream`: the call raises
although the source did not, the bubble holds only `Hel`, it is not finalized, and the
second token and the terminal event are never read. -/
theorem consumeStream_throws_on_null :
    (consumeStream nullInStream none).2 = Except.error Raised.typeError ∧
    (consumeStream nullInStream none).1.streamTextEl = some "Hel" ∧
    (consumeStream nullInStream none).1.fullText = "Hel" ∧
    (consumeStream nullInStream none).1.doneChunk = none ∧
    (consumeStream nullInStream none).1.finalized = false :=
  ⟨rfl, by decide, by decide, by decide, by decide⟩

/-- Claim C22, amended: for every finite sequence of values yielded by the source, each a
stream event or `null`, `consumeStream` reads the sequence up to its first `null` (all of
it when it holds none); the text it puts into the streaming bubble is the concatenation of
the texts of the token events read, in arrival order (and no bubble is made when no token
event is read).  On a sequence of stream events without `null` it runs through the whole
sequence and, when the source ends, returns the terminal event of the sequence, that is
its last `done` event, and `null` when the sequence has no `done` event; when the source
throws it throws the error of the source.  It raises exactly when the source raises or
yields `null`, and on `null` what it raises is the `TypeError`. -/
theorem consumeStream_renders_and_returns (values : List (Option Chunk))
    (sourceError : Option String) :
    (consumeStream values sourceError).1.fullText =
      String.join (tokenTexts (untilNull values)) ∧
    (consumeStream values sourceError).1.streamTextEl =
      (if tokenTexts (untilNull values) = [] then none
       else some (String.join (tokenTexts (untilNull values)))) ∧
    (∀ chunks : List Chunk, values = chunks.map some →
      untilNull values = chunks ∧
      (consumeStream values none).2 = Except.ok (terminalEvent chunks) ∧
      (∀ pre post d, chunks = pre ++ Chunk.done d :: post → (∀ x, Chunk.done x ∉ post) →
        (consumeStream values none).2 = Except.ok (some d)) ∧
      ((∀ d, Chunk.done d ∉ chunks) → (consumeStream values none).2 = Except.ok none) ∧
      (∀ e, (consumeStream values (some e)).2 = Except.error (Raised.source e))) ∧
    (none ∈ values → (consumeStream values sourceError).2 = Except.error Raised.typeError) ∧
    ((∃ e, (consumeStream values sourceError).2 = Except.error e) ↔
      (none ∈ values ∨ sourceError ≠ none)) := by
  have hl := consumeLoop_eq values Consumer.start
  obtain ⟨h1, h2, h3, _⟩ := foldl_consumeChunk (untilNull values) Consumer.start
  have e1 : Consumer.start.fullText = "" := rfl
  have e2 : Consumer.start.streamTextEl = none := rfl
  have e3 : Consumer.start.doneChunk = none := rfl
  rw [e1] at h1
  rw [e2] at h2
  rw [e3] at h3
  have hnull : none ∈ values →
      (consumeStream values sourceError).2 = Except.error Raised.typeError := by
    intro hn
    simp only [consumeStream, hl, hn, decide_True]
  have hret : none ∉ values →
      (consumeStream values none).2 = Except.ok (terminalEvent (untilNull values)) := by
    intro hn
    simp only [consumeStream, hl, hn, decide_False]
    rw [h3]
    cases terminalEvent (untilNull values) <;> rfl
  have hsrc : none ∉ values → ∀ e,
      (consumeStream values (some e)).2 = Except.error (Raised.source e) := by
    intro hn e
    simp only [consumeStream, hl, hn, decide_False]
  refine ⟨?_, ?_, ?_, hnull, ?_⟩
  · by_cases hn : none ∈ values
    · simp only [consumeStream, hl, hn, decide_True]
      rw [h1]; simp
    · cases sourceError <;> simp only [consumeStream, hl, hn, decide_False] <;> rw [h1] <;> simp
  · by_cases hn : none ∈ values
    · simp only [consumeStream, hl, hn, decide_True]
      rw [h2]; simp
    · cases sourceError <;> simp only [consumeStream, hl, hn, decide_False] <;> rw [h2] <;> simp
  · intro chunks hc
    have hn : none ∉ values := by
      rw [hc]
      simp
    have hu : untilNull values = chunks := by rw [hc, untilNull_map]
    refine ⟨hu, by rw [hret hn, hu], ?_, ?_, hsrc hn⟩
    · intro pre post d hpre hp
      rw [hret hn, hu, hpre, terminalEvent_last pre post d hp]
    · intro h
      rw [hret hn, hu, (terminalEvent_none_iff chunks).2 h]
  · by_cases hn : none ∈ values
    · simp [hnull hn, hn]
    · cases sourceError with
      | none => simp [hret hn, hn]
      | some e => simp [hsrc hn e, hn]

/-- Claim C22, amended, on `sampleChunks`: the bubble holds `Hello` and the `done` event
is returned; a stream of two tokens without a terminal event returns `null`; and on
`nullInStream` the call throws the `TypeError`. -/
theorem consumeStream_renders_and_returns_witness :
    (consumeStream (sampleChunks.map some) none).1.streamTextEl = some "Hello" ∧
    (consumeStream (sampleChunks.map some) none).2 =
      Except.ok (some { moderator_message := "Your turn.", hand_queued_granted := false }) ∧
    (consumeStream ([Chunk.token "Hel", Chunk.token "lo"].map some) none).2 = Except.ok none ∧
    (consumeStream nullInStream (some "Failed to fetch")).2 = Except.error Raised.typeError :=
  ⟨by
    have h := (consumeStream_renders_and_returns (sampleChunks.map some) none).2.1
    rw [h]; decide,
   ((consumeStream_renders_and_returns (sampleChunks.map some) none).2.2.1
      sampleChunks rfl).2.2.1
      [Chunk.token "Hel", Chunk.other, Chunk.token "lo"] []
      { moderator_message := "Your turn.", hand_queued_granted := false } rfl (by simp),
   ((consumeStream_renders_and_returns ([Chunk.token "Hel", Chunk.token "lo"].map some)
      none).2.2.1 [Chunk.token "Hel", Chunk.token "lo"] rfl).2.2.2.1 (by simp),
   (consumeStream_renders_and_returns nullInStream (some "Failed to fetch")).2.2.2.1
      (by decide)⟩

/-- Claim C23: over every sequence of events in which no restore probe settles (handler
calls, timer callbacks, stream chunks and stream ends, request results), from any state,
`turnCount` never decreases; an accepted `sendMessage` raises it by exactly 1; and
`raiseHand`, `aiSpeak`, each with its continuation, `endSession`, the tick of the session
countdown, the callback of the silence timer and `silenceTimer.reset` leave it as it
is.  The settling of the restore probe, which overwrites the counter with the saved
value, does not lower it either on a page driven through its controls and timers: from a
freshly loaded page, along every sequence of events without a call of `aiSpeak` from
outside the silence timer, the counter after a longer sequence is at least the counter
after any initial part of it. -/
theorem turnCount_monotonic (w : World) (events : List Event)
    (h : ∀ e ∈ events, e.isProbeSettled = false) :
    w.turnCount ≤ (run w events).turnCount ∧
    (∀ input, w.uiState = UiState.USER_SPEAKING → w.streamActive = false →
      jsTrim input ≠ "" → (handlers.sendMessage w input).turnCount = w.turnCount + 1) ∧
    (∀ input, (handlers.sendMessage w input).turnCount = w.turnCount ∨
      (handlers.sendMessage w input).turnCount = w.turnCount + 1) ∧
    (∀ r, (handlers.sendMessage_settled w r).turnCount = w.turnCount) ∧
    (handlers.raiseHand w).turnCount = w.turnCount ∧
    (∀ r, (handlers.raiseHand_settled w r).turnCount = w.turnCount) ∧
    (handlers.aiSpeak w).turnCount = w.turnCount ∧
    (∀ r, (handlers.aiSpeak_settled w r).turnCount = w.turnCount) ∧
    (∀ auto, (handlers.endSession w auto).turnCount = w.turnCount) ∧
    (sessionTimer.tick w).turnCount = w.turnCount ∧
    (silenceTimer.fire w).turnCount = w.turnCount ∧
    (silenceTimer.reset w).turnCount = w.turnCount ∧
    (∀ storage now (before after : List Event),
      (∀ e ∈ before ++ after, e.isDirectAiSpeak = false) →
      (run (boot storage now) before).turnCount ≤
        (run (boot storage now) (before ++ after)).turnCount) := by
  refine ⟨run_turnCount w events h, ?_, ?_, fun r => (handlers.sendMessage_settled_quiet w r).1,
    (handlers.raiseHand_quiet w).1, fun r => (handlers.raiseHand_settled_quiet w r).1,
    handlers.aiSpeak_turnCount w, fun r => (handlers.aiSpeak_settled_quiet w r).1,
    fun auto => (handlers.endSession_quiet w auto).1, (sessionTimer.tick_quiet w).1, ?_,
    (silenceTimer.reset_quiet w).1, ?_⟩
  · intro input h1 h2 h3
    rw [handlers.sendMessage_turnCount]
    simp [h1, h2, h3]
  · intro input
    rw [handlers.sendMessage_turnCount]
    split
    · exact Or.inr rfl
    · exact Or.inl rfl
  · unfold silenceTimer.fire
    split
    · exact handlers.aiSpeak_turnCount w
    · rfl
  · intro storage now before after hreal
    have hb : ∀ e ∈ before, e.isDirectAiSpeak = false :=
      fun e he => hreal e (List.mem_append_left _ he)
    have ha : ∀ e ∈ after, e.isDirectAiSpeak = false :=
      fun e he => hreal e (List.mem_append_right _ he)
    have hsil := (reachable_boot storage now).silence
    rw [run_append]
    exact run_turnCount_real _ after (run_inv _ _ (boot_inv storage now))
      (run_silence _ _ (boot_inv storage now) hsil)
      (run_probeInv _ before (boot_inv storage now) hsil (boot_probeInv storage now) hb) ha

/-- Claim C23 on the page where the user holds the floor: a message, a raise of the hand
during the answer, a tick and the end of the stream take the counter from 0 to 1; and on
the page of `lateStart` the counter is 1 after the probe has settled and a message was
sent. -/
theorem turnCount_monotonic_witness :
    userSpeaking.turnCount ≤
      (run userSpeaking
        [Event.clickSend "I disagree", Event.clickRaiseHand, Event.sessionTick 1,
         Event.streamEnded 3 StreamEnd.eof]).turnCount ∧
    (handlers.sendMessage userSpeaking "I disagree").turnCount = userSpeaking.turnCount + 1 ∧
    (run (boot (some (Stored.snap sampleSnapshot)) 1000)
        [Event.clickStart "Climate policy" "30"]).turnCount ≤
      (run (boot (some (Stored.snap sampleSnapshot)) 1000)
        ([Event.clickStart "Climate policy" "30"] ++
          [Event.probeSettled sampleSnapshot (some 200), Event.clickRaiseHand,
           Event.raiseHandSettled (Except.ok sampleGranted),
           Event.clickSend "I disagree"])).turnCount :=
  ⟨(turnCount_monotonic userSpeaking
      [Event.clickSend "I disagree", Event.clickRaiseHand, Event.sessionTick 1,
       Event.streamEnded 3 StreamEnd.eof] (by decide)).1,
   (turnCount_monotonic userSpeaking [] (by decide)).2.1 "I disagree"
      (by decide) (by decide) (by decide),
   (turnCount_monotonic userSpeaking [] (by decide)).2.2.2.2.2.2.2.2.2.2.2.2
      (some (Stored.snap sampleSnapshot)) 1000 [Event.clickStart "Climate policy" "30"]
      [Event.probeSettled sampleSnapshot (some 200), Event.clickRaiseHand,
       Event.raiseHandSettled (Except.ok sampleGranted), Event.clickSend "I disagree"]
      (by decide)⟩

/-- Claim C24 (the code departs from it): on a response whose first line is `oops` and
whose second line is `1`, `JSON.parse` throws on the first line, the generator ends, and
the second line is never passed to the parser, although both are non-blank lines of the
text. -/
theorem postStream_stops_at_rejected_line :
    nonBlankLines brokenLineResponse.flatten = ["oops".toList, "1".toList] ∧
    acceptsNumber "oops".toList = false ∧ acceptsNumber "1".toList = true ∧
    (api._postStream acceptsNumber brokenLineResponse).handed = ["oops".toList] ∧
    (api._postStream acceptsNumber brokenLineResponse).thrown = true := by
  decide

/-- Claim C24, amended: for every text and every way of cutting it into chunks, the lines
that `_postStream` passes to the JSON parser are the non-blank lines of the whole text
split on newline, in order, up to and including the first line that the parser rejects
(all of them when it rejects none); so the lines passed depend on the text only and not
on the cutting.  A final piece without a newline counts as a line of the text once: a text
that ends in a newline followed by a last piece has the lines of the part before that
newline and then that piece. -/
theorem postStream_lines_chunking_independent (accepts : List Char → Bool)
    (chunks : List (List Char)) :
    (api._postStream accepts chunks).handed =
      throughFirstRejected accepts (nonBlankLines chunks.flatten) ∧
    (∀ other : List (List Char), other.flatten = chunks.flatten →
      (api._postStream accepts other).handed = (api._postStream accepts chunks).handed) ∧
    ((∀ line ∈ nonBlankLines chunks.flatten, accepts line = true) →
      (api._postStream accepts chunks).handed = nonBlankLines chunks.flatten) ∧
    (∀ text line, '\n' ∉ line → isBlank line = false →
      nonBlankLines (text ++ '\n' :: line) = nonBlankLines text ++ [line]) := by
  refine ⟨api._postStream_handed accepts chunks, ?_, ?_, ?_⟩
  · intro other h
    rw [api._postStream_handed, api._postStream_handed, h]
  · intro h
    rw [api._postStream_handed, throughFirstRejected_all accepts _ h]
  · intro text line h1 h2
    unfold nonBlankLines
    rw [splitNewline_line text line h1, List.filter_append]
    simp [h2]

/-- Claim C24, amended, on `threeLineResponse`: the lines `1`, `23` and `45` are passed to
the parser, as for the same text in one chunk. -/
theorem postStream_lines_chunking_independent_witness :
    (api._postStream acceptsNumber threeLineResponse).handed =
      ["1".toList, "23".toList, "45".toList] ∧
    (api._postStream acceptsNumber ["1\n23\n\n  \n45".toList]).handed =
      (api._postStream acceptsNumber threeLineResponse).handed :=
  ⟨((postStream_lines_chunking_independent acceptsNumber threeLineResponse).2.2.1
      (by decide)).trans (by decide),
   (postStream_lines_chunking_independent acceptsNumber threeLineResponse).2.1
      ["1\n23\n\n  \n45".toList] (by decide)⟩

/-- Claim C25: in every state reached from a freshly loaded page (with or without a stored
snapshot) by a sequence of events that holds no call of `aiSpeak` from outside the silence
timer (so by `startSession`, the restore probe, `raiseHand`, `sendMessage`, `endSession`,
timer callbacks and the settling of their requests and streams), a live silence timeout
implies that `uiState` is not `AI_TURN_ASSIGNED`; hence every fire of the silence timer
only removes the timeout and does not run `aiSpeak`, no `/ai-speak` request has been
issued, and every open stream belongs to `sendMessage`. -/
theorem silence_timer_never_reaches_aiSpeak (storage : Option Stored) (now : Int)
    (events : List Event) (h : ∀ e ∈ events, e.isDirectAiSpeak = false) :
    (∀ hd ∈ (run (boot storage now) events).timeouts,
      (run (boot storage now) events).uiState ≠ UiState.AI_TURN_ASSIGNED) ∧
    (∀ hd, step (run (boot storage now) events) (Event.silenceFire hd) =
      { run (boot storage now) events with
        timeouts := (run (boot storage now) events).timeouts.erase hd }) ∧
    aiSpeakCount (run (boot storage now) events) = 0 ∧
    (∀ s ∈ (run (boot storage now) events).streams, s.owner = Owner.sendMessage) ∧
    (∀ hd, aiSpeakCount (step (run (boot storage now) events) (Event.silenceFire hd)) = 0) := by
  have hr : Reachable (run (boot storage now) events) := ⟨storage, now, events, rfl⟩
  have hno := run_noAi (boot storage now) events (boot_inv storage now)
    (reachable_boot storage now).silence h (boot_noAi storage now)
  generalize run (boot storage now) events = w at hr hno
  have hlive : ∀ hd ∈ w.timeouts, w.uiState ≠ UiState.AI_TURN_ASSIGNED := by
    intro hd hm
    rcases hr.silence with h0 | ⟨x, _, _, g3, _⟩
    · rw [h0] at hm; cases hm
    · exact g3
  have hdrop : ∀ hd, step w (Event.silenceFire hd) =
      { w with timeouts := w.timeouts.erase hd } := by
    intro hd
    by_cases hm : hd ∈ w.timeouts
    · simp [step, hm, silenceTimer.fire, hlive hd hm]
    · simp [step, hm, List.erase_of_not_mem hm]
  refine ⟨hlive, hdrop, hno.1, hno.2, fun hd => ?_⟩
  rw [hdrop]
  exact hno.1

/-- Claim C25 on the page of `staleTimer`: the silence timeout 3 is live, its fire only
removes it, and no `/ai-speak` request was issued. -/
theorem silence_timer_never_reaches_aiSpeak_witness :
    (run (boot (some (Stored.snap sampleSnapshot)) 1000)
      [Event.probeSettled sampleSnapshot (some 200), Event.clickRaiseHand,
       Event.clickRaiseHand, Event.raiseHandSettled (Except.error "HTTP 500"),
       Event.raiseHandSettled (Except.ok sampleGranted)]).timeouts = [3] ∧
    aiSpeakCount (run (boot (some (Stored.snap sampleSnapshot)) 1000)
      [Event.probeSettled sampleSnapshot (some 200), Event.clickRaiseHand,
       Event.clickRaiseHand, Event.raiseHandSettled (Except.error "HTTP 500"),
       Event.raiseHandSettled (Except.ok sampleGranted)]) = 0 :=
  ⟨by decide,
   (silence_timer_never_reaches_aiSpeak (some (Stored.snap sampleSnapshot)) 1000
      [Event.probeSettled sampleSnapshot (some 200), Event.clickRaiseHand,
       Event.clickRaiseHand, Event.raiseHandSettled (Except.error "HTTP 500"),
       Event.raiseHandSettled (Except.ok sampleGranted)] (by decide)).2.2.1⟩

end GD
